import Mathlib

/-!
# ManusTracker: connection lifecycle and stream aggregation

A shallow embedding of `IsaacSimManusTracker` (ManusTracker.cpp / ManusTracker.h).

* The process-wide static `s_instance` and the tracker objects it may point to are the
  fields of `World`; a tracker object is addressed by a natural number.
* The float values carried by the streams are only ever copied, so the embedding is
  parametric in the carrier `α` of float values; `default` is the value-initialised
  float that `std::vector::resize` fills new slots with.
* `uint32_t` arithmetic is arithmetic on `Nat` reduced modulo `2^32` (`u32`).
* A `std::vector` element access outside the vector is undefined behaviour; the
  embedding makes such an access return `none`.
* Calls into the vendor SDK and `sleep_for` are recorded, in order, in `World.trace`;
  the answers of the SDK are an argument of the operation that asks for them.
* The mutexes are not modelled: every operation runs to completion on its own.
-/

namespace ManusTracker

/-! ## Vendor SDK types (ManusSDK.h) -/

/-- Modelled from the spec: the result code of an SDK call (`SDKReturnCode` of ManusSDK.h,
which is not among the sources). The code distinguishes `SDKReturnCode_Success`,
`SDKReturnCode_NotConnected` and every other enumerator. -/
inductive SDKReturnCode where
  | SDKReturnCode_Success
  | SDKReturnCode_NotConnected
  | SDKReturnCode_Other (code : Nat)
  deriving DecidableEq

/-- Modelled from the spec: the side of a device (`Side` of ManusSDK.h): left, right,
or neither. -/
inductive Side where
  | Side_Invalid
  | Side_Left
  | Side_Right
  deriving DecidableEq

/-- Modelled from the spec: the up axis of a coordinate system (`AxisPolarity` of
ManusSDK.h); only `AxisPolarity_PositiveZ` is used by the tracker. -/
inductive AxisPolarity where
  | AxisPolarity_Invalid
  | AxisPolarity_PositiveY
  | AxisPolarity_PositiveZ
  deriving DecidableEq

/-- Modelled from the spec: the view axis of a coordinate system (`AxisView` of
ManusSDK.h); only `AxisView_XFromViewer` is used by the tracker. -/
inductive AxisView where
  | AxisView_Invalid
  | AxisView_ZFromViewer
  | AxisView_XFromViewer
  deriving DecidableEq

/-- Modelled from the spec: `CoordinateSystemVUH` of ManusSDK.h (view, up, handedness,
unit scale). -/
structure CoordinateSystemVUH where
  view : AxisView
  up : AxisPolarity
  handedness : Side
  unitScale : ℚ
  deriving DecidableEq

/-- Modelled from the spec: a host found by the discovery scan (`ManusHost`), reduced to
a label. -/
structure ManusHost where
  label : Nat
  deriving DecidableEq

/-- One glove of a landscape event (`GloveLandscapeData`): the fields the tracker reads. -/
structure GloveLandscapeData where
  id : Nat
  side : Side
  deriving DecidableEq

/-- A landscape event: `gloves` is `gloveDevices.gloves[0 .. gloveCount)`, so that
`gloveDevices.gloveCount` is its length. -/
structure Landscape where
  gloves : List GloveLandscapeData
  deriving DecidableEq

/-- The field `gloveDevices.gloveCount`. -/
def Landscape.gloveCount (landscape : Landscape) : Nat := landscape.gloves.length

/-- A position (`ManusVec3`). -/
structure ManusVec3 (α : Type) where
  x : α
  y : α
  z : α
  deriving DecidableEq

/-- A rotation (`ManusQuaternion`). -/
structure ManusQuaternion (α : Type) where
  w : α
  x : α
  y : α
  z : α
  deriving DecidableEq

/-- A node transform (`ManusTransform`): the fields the tracker reads. -/
structure ManusTransform (α : Type) where
  position : ManusVec3 α
  rotation : ManusQuaternion α
  deriving DecidableEq

/-- A skeleton node (`SkeletonNode`). -/
structure SkeletonNode (α : Type) where
  transform : ManusTransform α
  deriving DecidableEq

/-- What the SDK answers for one skeleton index of a frame: `gloveId` is the field of the
`RawSkeletonInfo` filled by `CoreSdk_GetRawSkeletonInfo`, `nodes` is the buffer filled by
`CoreSdk_GetRawSkeletonData`, and `nodesCount` is its length. -/
structure RawSkeleton (α : Type) where
  gloveId : Nat
  nodes : List (SkeletonNode α)
  deriving DecidableEq

/-- The field `nodesCount` of `RawSkeletonInfo`. -/
def RawSkeleton.nodesCount {α : Type} (sk : RawSkeleton α) : Nat := sk.nodes.length

/-- One entry of an ergonomics event (`ErgonomicsData`); `data j` is `data[j]` of the
fixed-size array `float data[ErgonomicsDataType_MAX_SIZE]`. -/
structure ErgonomicsData (α : Type) where
  id : Nat
  isUserID : Bool
  data : Nat → α

/-- An ergonomics event: `data` is `data[0 .. dataCount)`. -/
structure ErgonomicsStream (α : Type) where
  data : List (ErgonomicsData α)

/-! ## Machine arithmetic and `std::vector` -/

/-- Reduction of a natural number to a `uint32_t`. -/
def u32 (n : Nat) : Nat := n % 2 ^ 32

/-- `std::vector<float>::resize(n)`: keeps the first `n` elements and fills up with
value-initialised floats. -/
def resize {α : Type} [Inhabited α] (v : List α) (n : Nat) : List α :=
  v.take n ++ List.replicate (n - v.length) default

/-- The assignment `v[i] = x` of a `std::vector`; `none` when `i` is out of range. -/
def vecAssign {α : Type} (v : List α) (i : Nat) (x : α) : Option (List α) :=
  if i < v.length then some (v.set i x) else none

/-! ## The output store (`std::unordered_map<std::string, std::vector<float>>`) -/

/-- The output map: the vector stored under a key, if the key is present. -/
abbrev OutputMap (α : Type) := String → Option (List α)

/-- The empty map. -/
def OutputMap.empty {α : Type} : OutputMap α := fun _ => none

/-- The vector `m[key]` refers to: `operator[]` of the map inserts an empty vector when
the key is absent. -/
def OutputMap.at {α : Type} (m : OutputMap α) (key : String) : List α := (m key).getD []

/-- The map after the vector under `key` became `v`. -/
def OutputMap.put {α : Type} (m : OutputMap α) (key : String) (v : List α) : OutputMap α :=
  fun k => if k = key then some v else m k

/-- The statement `m[key].resize(n)`. -/
def OutputMap.resizeAt {α : Type} [Inhabited α] (m : OutputMap α) (key : String) (n : Nat) :
    OutputMap α :=
  m.put key (resize (m.at key) n)

/-- The statement `m[key][i] = x`; `none` when `i` is out of range. -/
def OutputMap.writeAt {α : Type} (m : OutputMap α) (key : String) (i : Nat) (x : α) :
    Option (OutputMap α) :=
  (vecAssign (m.at key) i x).map (m.put key)

/-- The statement `m[key].clear()`. -/
def OutputMap.clearAt {α : Type} (m : OutputMap α) (key : String) : OutputMap α :=
  m.put key []

/-- The statement `m[key].push_back(x)`. -/
def OutputMap.pushBackAt {α : Type} (m : OutputMap α) (key : String) (x : α) : OutputMap α :=
  m.put key (m.at key ++ [x])

/-! ## Tracker objects and the process state -/

/-- The data members of an `IsaacSimManusTracker` (ManusTracker.h). -/
structure Tracker (α : Type) where
  output_map : OutputMap α
  left_glove_id : Option Nat
  right_glove_id : Option Nat
  is_connected : Bool

/-- A default-constructed tracker. -/
def Tracker.fresh {α : Type} : Tracker α :=
  { output_map := OutputMap.empty, left_glove_id := none, right_glove_id := none,
    is_connected := false }

/-- The handlers a stream callback can be registered with. -/
inductive Callback where
  | OnSkeletonStream
  | OnLandscapeStream
  | OnErgonomicsStream
  deriving DecidableEq

/-- A call into the SDK, or a `sleep_for`, as recorded in the trace. A callback
registration carries the handler, `none` standing for `nullptr`. -/
inductive SdkEvent where
  | CoreSdk_InitializeIntegrated
  | CoreSdk_RegisterCallbackForRawSkeletonStream (handler : Option Callback)
  | CoreSdk_RegisterCallbackForLandscapeStream (handler : Option Callback)
  | CoreSdk_RegisterCallbackForErgonomicsStream (handler : Option Callback)
  | CoreSdk_InitializeCoordinateSystemWithVUH (vuh : CoordinateSystemVUH) (useWorld : Bool)
  | CoreSdk_LookForHosts (seconds : Nat) (loopback : Bool)
  | CoreSdk_GetNumberOfAvailableHostsFound
  | CoreSdk_GetAvailableHostsFound (count : Nat)
  | CoreSdk_ConnectToHost (host : ManusHost)
  | CoreSdk_Disconnect
  | CoreSdk_ShutDown
  | sleep_for (milliseconds : Nat)
  deriving DecidableEq

/-- The process state: the static `s_instance` (`none` is `nullptr`), the tracker objects,
and the trace of SDK calls and delays made so far. -/
structure World (α : Type) where
  s_instance : Option Nat
  trackers : Nat → Tracker α
  trace : List SdkEvent

/-- A process in which nothing happened yet: no active instance, every tracker
default-constructed, no SDK call made. -/
def World.fresh {α : Type} : World α :=
  { s_instance := none, trackers := fun _ => Tracker.fresh, trace := [] }

/-- The world after tracker object `this` became `t`. -/
def World.setTracker {α : Type} (w : World α) (this : Nat) (t : Tracker α) : World α :=
  { w with trackers := fun i => if i = this then t else w.trackers i }

/-- The world after the SDK calls `evs` were made. -/
def World.log {α : Type} (w : World α) (evs : List SdkEvent) : World α :=
  { w with trace := w.trace ++ evs }

/-! ## Device role resolver: `OnLandscapeStream` -/

/-- The body of the loop over the gloves of a landscape event, on the active tracker. -/
def landscapeBody {α : Type} (t : Tracker α) (glove : GloveLandscapeData) : Tracker α :=
  if glove.side = Side.Side_Left then
    { t with left_glove_id := some glove.id }
  else if glove.side = Side.Side_Right then
    { t with right_glove_id := some glove.id }
  else
    t

/-- The static handler `IsaacSimManusTracker::OnLandscapeStream`. -/
def OnLandscapeStream {α : Type} (w : World α) (landscape : Landscape) : World α :=
  match w.s_instance with
  | none => w
  | some inst =>
    if landscape.gloveCount > 2 then
      w
    else
      w.setTracker inst (landscape.gloves.foldl landscapeBody (w.trackers inst))

/-! ## Stream aggregator: `OnSkeletonStream` and `OnErgonomicsStream` -/

/-- The test `slot && glove_id == *slot` on an optional glove id. -/
def is_glove (slot : Option Nat) (glove_id : Nat) : Bool :=
  match slot with
  | some id => glove_id == id
  | none => false

/-- The body of the loop over the nodes of a skeleton, for index `j`: the read of
`nodes[j]` and the seven assignments into the two vectors of the output map. -/
def copyNode {α : Type} (pos_key orient_key : String) (nodes : List (SkeletonNode α))
    (m : OutputMap α) (j : Nat) : Option (OutputMap α) := do
  let node ← nodes[j]?
  let position := node.transform.position
  let m ← m.writeAt pos_key (u32 (u32 (j * 3) + 0)) position.x
  let m ← m.writeAt pos_key (u32 (u32 (j * 3) + 1)) position.y
  let m ← m.writeAt pos_key (u32 (u32 (j * 3) + 2)) position.z
  let orientation := node.transform.rotation
  let m ← m.writeAt orient_key (u32 (u32 (j * 4) + 0)) orientation.w
  let m ← m.writeAt orient_key (u32 (u32 (j * 4) + 1)) orientation.x
  let m ← m.writeAt orient_key (u32 (u32 (j * 4) + 2)) orientation.y
  let m ← m.writeAt orient_key (u32 (u32 (j * 4) + 3)) orientation.z
  pure m

/-- The body of the loop over the skeletons of a frame, on the active tracker; `none`
when a vector is accessed out of range. -/
def skeletonBody {α : Type} [Inhabited α] (t : Tracker α) (sk : RawSkeleton α) :
    Option (Tracker α) :=
  let glove_id := sk.gloveId
  let is_left_glove := is_glove t.left_glove_id glove_id
  let is_right_glove := is_glove t.right_glove_id glove_id
  if !is_left_glove && !is_right_glove then
    some t
  else
    let pfx := if is_left_glove then "left" else "right"
    let pos_key := pfx ++ "_position"
    let m := t.output_map.resizeAt pos_key (u32 (sk.nodesCount * 3))
    let orient_key := pfx ++ "_orientation"
    let m := m.resizeAt orient_key (u32 (sk.nodesCount * 4))
    ((List.range sk.nodesCount).foldlM (copyNode pos_key orient_key sk.nodes) m).map
      (fun m => { t with output_map := m })

/-- The static handler `IsaacSimManusTracker::OnSkeletonStream`; the frame is the list of
the answers of the SDK for the skeleton indices `0 .. skeletonsCount`. -/
def OnSkeletonStream {α : Type} [Inhabited α] (w : World α) (frame : List (RawSkeleton α)) :
    Option (World α) :=
  match w.s_instance with
  | none => some w
  | some inst => (frame.foldlM skeletonBody (w.trackers inst)).map (w.setTracker inst)

/-- The body of the loop over the entries of an ergonomics event, on the active tracker.
`ErgonomicsDataType_MAX_SIZE` is a constant of ManusSDK.h and a parameter here. -/
def ergonomicsBody {α : Type} (ErgonomicsDataType_MAX_SIZE : Nat) (t : Tracker α)
    (entry : ErgonomicsData α) : Tracker α :=
  if entry.isUserID then
    t
  else
    let glove_id := entry.id
    let is_left_glove := is_glove t.left_glove_id glove_id
    let is_right_glove := is_glove t.right_glove_id glove_id
    if !is_left_glove && !is_right_glove then
      t
    else
      let pfx := if is_left_glove then "left" else "right"
      let angle_key := pfx ++ "_angle"
      let m := t.output_map.clearAt angle_key
      let m := (List.range ErgonomicsDataType_MAX_SIZE).foldl
        (fun m j => m.pushBackAt angle_key (entry.data j)) m
      { t with output_map := m }

/-- The static handler `IsaacSimManusTracker::OnErgonomicsStream`. -/
def OnErgonomicsStream {α : Type} (ErgonomicsDataType_MAX_SIZE : Nat) (w : World α)
    (ergonomics_stream : ErgonomicsStream α) : World α :=
  match w.s_instance with
  | none => w
  | some inst =>
    w.setTracker inst
      (ergonomics_stream.data.foldl (ergonomicsBody ErgonomicsDataType_MAX_SIZE)
        (w.trackers inst))

/-! ## Snapshot accessor: `get_glove_data` -/

/-- The method `get_glove_data` of tracker `this`: the state after the call and the
returned copy of the output map. -/
def get_glove_data {α : Type} (w : World α) (this : Nat) : World α × OutputMap α :=
  (w, (w.trackers this).output_map)

/-! ## Connection lifecycle -/

/-- The constant `max_attempts` of `ConnectToGloves`. -/
def max_attempts : Nat := 30

/-- The constant `retry_delay` of `ConnectToGloves`, in milliseconds. -/
def retry_delay : Nat := 1000

/-- What the SDK answers during one attempt of the discovery loop. A field is read only
when the attempt gets as far as the call it belongs to. `firstHost` is `available_hosts[0]`
after the host list was fetched. -/
structure AttemptResponse where
  lookForHosts : SDKReturnCode
  getNumberOfAvailableHostsFound : SDKReturnCode
  number_of_hosts_found : Nat
  getAvailableHostsFound : SDKReturnCode
  firstHost : ManusHost
  connectToHost : SDKReturnCode
  deriving DecidableEq

/-- What the SDK answers during one call of `initialize`; `attempt k` holds the answers
during the `k`-th attempt (counted from 1) of the discovery loop. -/
structure SdkResponses where
  initializeIntegrated : SDKReturnCode
  initializeCoordinateSystem : SDKReturnCode
  attempt : Nat → AttemptResponse

/-- How a call of `initialize` ends: with a returned value or with a thrown
`std::runtime_error`. -/
inductive Outcome where
  | returned (value : Bool)
  | threw (what : String)
  deriving DecidableEq

open SDKReturnCode SdkEvent in
/-- One pass through the body of the `while` loop of `ConnectToGloves` after `attempts++`:
the SDK calls and delays it makes, and whether it reaches `connected = true` (every
`continue` leaves it `false`). -/
def connectAttempt (a : AttemptResponse) : List SdkEvent × Bool :=
  if a.lookForHosts ≠ SDKReturnCode_Success then
    ([CoreSdk_LookForHosts 1 false, sleep_for retry_delay], false)
  else if a.getNumberOfAvailableHostsFound ≠ SDKReturnCode_Success then
    ([CoreSdk_LookForHosts 1 false, CoreSdk_GetNumberOfAvailableHostsFound,
      sleep_for retry_delay], false)
  else if a.number_of_hosts_found = 0 then
    ([CoreSdk_LookForHosts 1 false, CoreSdk_GetNumberOfAvailableHostsFound,
      sleep_for retry_delay], false)
  else if a.getAvailableHostsFound ≠ SDKReturnCode_Success then
    ([CoreSdk_LookForHosts 1 false, CoreSdk_GetNumberOfAvailableHostsFound,
      CoreSdk_GetAvailableHostsFound a.number_of_hosts_found, sleep_for retry_delay], false)
  else if a.connectToHost = SDKReturnCode_NotConnected then
    ([CoreSdk_LookForHosts 1 false, CoreSdk_GetNumberOfAvailableHostsFound,
      CoreSdk_GetAvailableHostsFound a.number_of_hosts_found,
      CoreSdk_ConnectToHost a.firstHost, sleep_for retry_delay], false)
  else
    ([CoreSdk_LookForHosts 1 false, CoreSdk_GetNumberOfAvailableHostsFound,
      CoreSdk_GetAvailableHostsFound a.number_of_hosts_found,
      CoreSdk_ConnectToHost a.firstHost], true)

/-- The state of the `while` loop of `ConnectToGloves`: the process state and the locals
`connected` and `attempts`. -/
structure ConnectState (α : Type) where
  world : World α
  connected : Bool
  attempts : Nat

/-- The `while (!connected && attempts < max_attempts)` loop of `ConnectToGloves`, run
from a loop state to the state in which the loop is left. -/
def connectLoop {α : Type} (script : Nat → AttemptResponse) (this : Nat)
    (s : ConnectState α) : ConnectState α :=
  if h : s.connected = false ∧ s.attempts < max_attempts then
    let attempts := s.attempts + 1
    let r := connectAttempt (script attempts)
    let w := s.world.log r.1
    if r.2 then
      connectLoop script this
        { world := w.setTracker this { w.trackers this with is_connected := true },
          connected := true, attempts := attempts }
    else
      connectLoop script this { world := w, connected := s.connected, attempts := attempts }
  else
    s
termination_by max_attempts - s.attempts
decreasing_by
  all_goals simp_wf
  all_goals omega

/-- The method `ConnectToGloves` of tracker `this`: the state it leaves, the number of
attempts made, and `some what` when it throws `std::runtime_error(what)`. -/
def ConnectToGloves {α : Type} (w : World α) (this : Nat) (script : Nat → AttemptResponse) :
    World α × Nat × Option String :=
  let s := connectLoop script this { world := w, connected := false, attempts := 0 }
  if !s.connected then
    (s.world, s.attempts, some "Failed to connect to Manus gloves")
  else
    (s.world, s.attempts, none)

/-- The method `DisconnectFromGloves` of tracker `this`. -/
def DisconnectFromGloves {α : Type} (w : World α) (this : Nat) : World α :=
  if (w.trackers this).is_connected then
    (w.log [SdkEvent.CoreSdk_Disconnect]).setTracker this
      { w.trackers this with is_connected := false }
  else
    w

/-- The method `RegisterCallbacks`. -/
def RegisterCallbacks {α : Type} (w : World α) : World α :=
  w.log [SdkEvent.CoreSdk_RegisterCallbackForRawSkeletonStream (some Callback.OnSkeletonStream),
    SdkEvent.CoreSdk_RegisterCallbackForLandscapeStream (some Callback.OnLandscapeStream),
    SdkEvent.CoreSdk_RegisterCallbackForErgonomicsStream (some Callback.OnErgonomicsStream)]

/-- The coordinate system `t_VUH` that `initialize` hands to the SDK. -/
def t_VUH : CoordinateSystemVUH :=
  { view := AxisView.AxisView_XFromViewer, up := AxisPolarity.AxisPolarity_PositiveZ,
    handedness := Side.Side_Right, unitScale := 1 }

/-- The method `initialize` of tracker `this`, given the answers of the SDK. -/
def initializeTracker {α : Type} (w : World α) (this : Nat) (sdk : SdkResponses) :
    World α × Outcome :=
  if w.s_instance ≠ none then
    (w, Outcome.returned false)
  else
    let w := { w with s_instance := some this }
    let w := w.log [SdkEvent.CoreSdk_InitializeIntegrated]
    if sdk.initializeIntegrated ≠ SDKReturnCode.SDKReturnCode_Success then
      ({ w with s_instance := none }, Outcome.returned false)
    else
      let w := RegisterCallbacks w
      let w := w.log [SdkEvent.CoreSdk_InitializeCoordinateSystemWithVUH t_VUH true]
      if sdk.initializeCoordinateSystem ≠ SDKReturnCode.SDKReturnCode_Success then
        ({ w with s_instance := none }, Outcome.returned false)
      else
        match ConnectToGloves w this sdk.attempt with
        | (w, _, some what) => (w, Outcome.threw what)
        | (w, _, none) => (w, Outcome.returned true)

/-- The method `cleanup` of tracker `this`. -/
def cleanup {α : Type} (w : World α) (this : Nat) : World α :=
  if w.s_instance = some this then
    let w := w.log [SdkEvent.CoreSdk_RegisterCallbackForRawSkeletonStream none]
    let w := w.log [SdkEvent.CoreSdk_RegisterCallbackForLandscapeStream none]
    let w := w.log [SdkEvent.CoreSdk_RegisterCallbackForErgonomicsStream none]
    let w := DisconnectFromGloves w this
    let w := w.log [SdkEvent.CoreSdk_ShutDown]
    { w with s_instance := none }
  else
    w

/-! ## Lock guards of the stream handlers -/

/-- The mutexes: the static `s_instance_mutex` and the members `output_map_mutex` and
`landscape_mutex` of the active tracker. -/
inductive Mutex where
  | s_instance_mutex
  | output_map_mutex
  | landscape_mutex
  deriving DecidableEq

/-- The construction (`acquire`) and destruction (`release`) of a `std::lock_guard`. -/
inductive LockEvent where
  | acquire (m : Mutex)
  | release (m : Mutex)
  deriving DecidableEq

open Mutex LockEvent in
/-- The lock events of one completed invocation of `OnSkeletonStream`, in order:
`instance_lock` is constructed on entry, `output_lock` after the check of `s_instance` and
before the loop, `landscape_lock` in the block inside each iteration of the loop; a guard is
released at the end of its scope, the guards of the function body in reverse order of
construction. -/
def OnSkeletonStream_locks {α : Type} (w : World α) (frame : List (RawSkeleton α)) :
    List LockEvent :=
  [acquire s_instance_mutex] ++
    match w.s_instance with
    | none => [release s_instance_mutex]
    | some _ =>
      [acquire output_map_mutex] ++
        (frame.flatMap fun _ => [acquire landscape_mutex, release landscape_mutex]) ++
        [release output_map_mutex, release s_instance_mutex]

open Mutex LockEvent in
/-- The lock events of one invocation of `OnErgonomicsStream`, in order; an entry flagged
`isUserID` is skipped before the block that constructs `landscape_lock`. -/
def OnErgonomicsStream_locks {α : Type} (w : World α) (ergonomics_stream : ErgonomicsStream α) :
    List LockEvent :=
  [acquire s_instance_mutex] ++
    match w.s_instance with
    | none => [release s_instance_mutex]
    | some _ =>
      [acquire output_map_mutex] ++
        (ergonomics_stream.data.flatMap fun entry =>
          if entry.isUserID then [] else [acquire landscape_mutex, release landscape_mutex]) ++
        [release output_map_mutex, release s_instance_mutex]

/-! ## Definitions used to state the properties -/

/-- The id of the last glove of `gloves` whose side is `side`, if there is one. -/
def lastWithSide (side : Side) (gloves : List GloveLandscapeData) : Option Nat :=
  ((gloves.filter (fun g => g.side = side)).getLast?).map (fun g => g.id)

/-- A world whose active instance is tracker 0, with Left id 1 and Right id 2 assigned. -/
def activeWorld : World Nat :=
  { s_instance := some 0,
    trackers := fun _ =>
      { output_map := OutputMap.empty, left_glove_id := some 1, right_glove_id := some 2,
        is_connected := true },
    trace := [] }

/-- The flattened (x, y, z) triples of the positions of `nodes`. -/
def flatPositions {α : Type} (nodes : List (SkeletonNode α)) : List α :=
  nodes.flatMap fun node =>
    [node.transform.position.x, node.transform.position.y, node.transform.position.z]

/-- The flattened (w, x, y, z) quadruples of the rotations of `nodes`. -/
def flatOrientations {α : Type} (nodes : List (SkeletonNode α)) : List α :=
  nodes.flatMap fun node =>
    [node.transform.rotation.w, node.transform.rotation.x, node.transform.rotation.y,
      node.transform.rotation.z]

/-- The logical roles of the role map. -/
inductive Role where
  | Left
  | Right
  deriving DecidableEq

/-- The key prefix of a role. -/
def Role.pfx : Role → String
  | Role.Left => "left"
  | Role.Right => "right"

/-- The key `<role>_position`. -/
def positionKey (role : Role) : String := role.pfx ++ "_position"

/-- The key `<role>_orientation`. -/
def orientationKey (role : Role) : String := role.pfx ++ "_orientation"

/-- The key `<role>_angle`. -/
def angleKey (role : Role) : String := role.pfx ++ "_angle"

/-- The id the role map assigns to a role, if any. -/
def Tracker.roleId {α : Type} (t : Tracker α) : Role → Option Nat
  | Role.Left => t.left_glove_id
  | Role.Right => t.right_glove_id

/-- Role lookup with Left priority: the role a device id resolves to under the role ids
`left` and `right`; `none` is Unknown. -/
def resolveRole (left right : Option Nat) (glove_id : Nat) : Option Role :=
  if left = some glove_id then some Role.Left
  else if right = some glove_id then some Role.Right
  else none

/-- Role lookup in the role map of a tracker. -/
def Tracker.resolve {α : Type} (t : Tracker α) (glove_id : Nat) : Option Role :=
  resolveRole t.left_glove_id t.right_glove_id glove_id

/-- The last skeleton of a frame whose glove id resolves to `role`, if there is one. -/
def lastSkeletonFor {α : Type} (t : Tracker α) (role : Role) (frame : List (RawSkeleton α)) :
    Option (RawSkeleton α) :=
  (frame.filter fun sk => t.resolve sk.gloveId = some role).getLast?

/-- The entry `stored` of the output map is present, has length `3 * n` for the `n` nodes,
and its elements `3j`, `3j+1`, `3j+2` are the position x, y, z of node `j`. -/
def HoldsPositions {α : Type} (stored : Option (List α)) (nodes : List (SkeletonNode α)) :
    Prop :=
  ∃ v, stored = some v ∧ v.length = 3 * nodes.length ∧
    ∀ j node, nodes[j]? = some node →
      v[3 * j]? = some node.transform.position.x ∧
      v[3 * j + 1]? = some node.transform.position.y ∧
      v[3 * j + 2]? = some node.transform.position.z

/-- The entry `stored` of the output map is present, has length `4 * n` for the `n` nodes,
and its elements `4j .. 4j+3` are the rotation w, x, y, z of node `j`. -/
def HoldsOrientations {α : Type} (stored : Option (List α)) (nodes : List (SkeletonNode α)) :
    Prop :=
  ∃ v, stored = some v ∧ v.length = 4 * nodes.length ∧
    ∀ j node, nodes[j]? = some node →
      v[4 * j]? = some node.transform.rotation.w ∧
      v[4 * j + 1]? = some node.transform.rotation.x ∧
      v[4 * j + 2]? = some node.transform.rotation.y ∧
      v[4 * j + 3]? = some node.transform.rotation.z

/-- What processing one skeleton does to a tracker when no access is out of range: nothing
for an unknown glove id, and otherwise the flattened positions and rotations stored under
the two keys of the resolved role. -/
def skeletonEffect {α : Type} (t : Tracker α) (sk : RawSkeleton α) : Tracker α :=
  match t.resolve sk.gloveId with
  | none => t
  | some role =>
    { t with
      output_map := (t.output_map.put (positionKey role) (flatPositions sk.nodes)).put
        (orientationKey role) (flatOrientations sk.nodes) }

/-- A process whose active instance is tracker `this`, every tracker default-constructed:
empty role map, empty output store. -/
def World.freshActive {α : Type} (this : Nat) : World α :=
  { s_instance := some this, trackers := fun _ => Tracker.fresh, trace := [] }

/-- The state after a landscape event assigned device id 7 to both roles. -/
def sharedIdWorld : World Nat :=
  OnLandscapeStream (World.freshActive 0) ⟨[⟨7, Side.Side_Left⟩, ⟨7, Side.Side_Right⟩]⟩

/-- A node with the given position and rotation components. -/
def mkNode {α : Type} (px py pz rw rx ry rz : α) : SkeletonNode α :=
  { transform := { position := ⟨px, py, pz⟩, rotation := ⟨rw, rx, ry, rz⟩ } }

/-- The last entry of an ergonomics event that is not flagged `isUserID` and whose id
resolves to `role`, if there is one. -/
def lastEntryFor {α : Type} (t : Tracker α) (role : Role) (data : List (ErgonomicsData α)) :
    Option (ErgonomicsData α) :=
  (data.filter fun e => !e.isUserID && decide (t.resolve e.id = some role)).getLast?

/-- The entry `stored` of the output map is present, has length `n`, and its element `j` is
`data[j]`. -/
def HoldsAngles {α : Type} (stored : Option (List α)) (n : Nat) (data : Nat → α) : Prop :=
  ∃ v, stored = some v ∧ v.length = n ∧ ∀ j, j < n → v[j]? = some (data j)

/-- What processing one ergonomics entry does to a tracker: nothing for an entry flagged
`isUserID` or of an unknown id, and otherwise the data vector stored under the angle key of
the resolved role. -/
def ergonomicsEffect {α : Type} (n : Nat) (t : Tracker α) (entry : ErgonomicsData α) :
    Tracker α :=
  if entry.isUserID then t
  else
    match t.resolve entry.id with
    | none => t
    | some role =>
      { t with output_map := t.output_map.put (angleKey role) ((List.range n).map entry.data) }

/-- An ergonomics entry whose data vector is `10, 11, 12, ...`. -/
def mkEntry (id : Nat) (isUserID : Bool) : ErgonomicsData Nat :=
  { id := id, isUserID := isUserID, data := fun j => 10 + j }

/-- Whether one pass through the body of the discovery loop reaches `connected = true`. -/
def attemptSucceeds (a : AttemptResponse) : Bool := (connectAttempt a).2

/-- The SDK calls and delays of the attempts `first + 1 .. first + n` of the discovery
loop. -/
def attemptsTrace (script : Nat → AttemptResponse) (first n : Nat) : List SdkEvent :=
  (List.range n).flatMap fun i => (connectAttempt (script (first + i + 1))).1

/-- The sum of the delays of a trace, in milliseconds. -/
def totalDelay : List SdkEvent → Nat
  | [] => 0
  | SdkEvent.sleep_for ms :: rest => ms + totalDelay rest
  | _ :: rest => totalDelay rest

/-- The number of attempts of the discovery loop a trace holds: each attempt starts with
one host scan. -/
def countAttempts : List SdkEvent → Nat
  | [] => 0
  | SdkEvent.CoreSdk_LookForHosts _ _ :: rest => 1 + countAttempts rest
  | _ :: rest => countAttempts rest

/-- The answers of an SDK whose host scan fails. -/
def failingAttempt : AttemptResponse :=
  { lookForHosts := SDKReturnCode.SDKReturnCode_Other 1,
    getNumberOfAvailableHostsFound := SDKReturnCode.SDKReturnCode_Success,
    number_of_hosts_found := 0,
    getAvailableHostsFound := SDKReturnCode.SDKReturnCode_Success,
    firstHost := ⟨0⟩,
    connectToHost := SDKReturnCode.SDKReturnCode_NotConnected }

/-- The answers of an SDK that finds one host and connects to it. -/
def succeedingAttempt : AttemptResponse :=
  { lookForHosts := SDKReturnCode.SDKReturnCode_Success,
    getNumberOfAvailableHostsFound := SDKReturnCode.SDKReturnCode_Success,
    number_of_hosts_found := 1,
    getAvailableHostsFound := SDKReturnCode.SDKReturnCode_Success,
    firstHost := ⟨0⟩,
    connectToHost := SDKReturnCode.SDKReturnCode_Success }

/-- An SDK that starts up, and whose discovery fails on the attempts before `k` and
succeeds from attempt `k` on. -/
def sdkSucceedingAt (k : Nat) : SdkResponses :=
  { initializeIntegrated := SDKReturnCode.SDKReturnCode_Success,
    initializeCoordinateSystem := SDKReturnCode.SDKReturnCode_Success,
    attempt := fun i => if i < k then failingAttempt else succeedingAttempt }

/-- An SDK that starts up and whose discovery never succeeds. -/
def sdkNeverConnecting : SdkResponses :=
  { initializeIntegrated := SDKReturnCode.SDKReturnCode_Success,
    initializeCoordinateSystem := SDKReturnCode.SDKReturnCode_Success,
    attempt := fun _ => failingAttempt }

/-- The state in which `initialize` of tracker `this` enters `ConnectToGloves`: the slot
taken, the SDK started, the callbacks registered and the coordinate system set. -/
def afterSetup {α : Type} (w : World α) (this : Nat) : World α :=
  (RegisterCallbacks
    (({ w with s_instance := some this } : World α).log
      [SdkEvent.CoreSdk_InitializeIntegrated])).log
    [SdkEvent.CoreSdk_InitializeCoordinateSystemWithVUH t_VUH true]

/-- The answers of an SDK that finds one host and whose connect call returns a code that is
neither Success nor NotConnected. -/
def otherConnectAttempt : AttemptResponse :=
  { lookForHosts := SDKReturnCode.SDKReturnCode_Success,
    getNumberOfAvailableHostsFound := SDKReturnCode.SDKReturnCode_Success,
    number_of_hosts_found := 1,
    getAvailableHostsFound := SDKReturnCode.SDKReturnCode_Success,
    firstHost := ⟨0⟩,
    connectToHost := SDKReturnCode.SDKReturnCode_Other 1 }

/-- An SDK whose startup fails. -/
def sdkFailingStartup : SdkResponses :=
  { initializeIntegrated := SDKReturnCode.SDKReturnCode_Other 1,
    initializeCoordinateSystem := SDKReturnCode.SDKReturnCode_Success,
    attempt := fun _ => succeedingAttempt }

/-- An SDK whose coordinate-system setup fails. -/
def sdkFailingCoordinates : SdkResponses :=
  { initializeIntegrated := SDKReturnCode.SDKReturnCode_Success,
    initializeCoordinateSystem := SDKReturnCode.SDKReturnCode_Other 1,
    attempt := fun _ => succeedingAttempt }

/-- Whether a trace entry is a call of the discovery loop or its delay. -/
def isDiscoveryEvent : SdkEvent → Bool
  | SdkEvent.CoreSdk_LookForHosts _ _ => true
  | SdkEvent.CoreSdk_GetNumberOfAvailableHostsFound => true
  | SdkEvent.CoreSdk_GetAvailableHostsFound _ => true
  | SdkEvent.CoreSdk_ConnectToHost _ => true
  | SdkEvent.sleep_for _ => true
  | _ => false

/-- Whether a trace entry registers a stream callback with a handler (not `nullptr`). -/
def isRegistration : SdkEvent → Bool
  | SdkEvent.CoreSdk_RegisterCallbackForRawSkeletonStream (some _) => true
  | SdkEvent.CoreSdk_RegisterCallbackForLandscapeStream (some _) => true
  | SdkEvent.CoreSdk_RegisterCallbackForErgonomicsStream (some _) => true
  | _ => false

/-- The three callback registrations of `RegisterCallbacks`, in the order of the calls. -/
def registrationCalls : List SdkEvent :=
  [SdkEvent.CoreSdk_RegisterCallbackForRawSkeletonStream (some Callback.OnSkeletonStream),
    SdkEvent.CoreSdk_RegisterCallbackForLandscapeStream (some Callback.OnLandscapeStream),
    SdkEvent.CoreSdk_RegisterCallbackForErgonomicsStream (some Callback.OnErgonomicsStream)]

/-- The coordinate-system configuration call with the right-handed, Z-up, X-from-viewer,
unit scale 1 convention. -/
def coordinateCall : SdkEvent :=
  SdkEvent.CoreSdk_InitializeCoordinateSystemWithVUH
    { view := AxisView.AxisView_XFromViewer, up := AxisPolarity.AxisPolarity_PositiveZ,
      handedness := Side.Side_Right, unitScale := 1 } true

/-- An operation on the process: a call of a public method of tracker `this`, or a call of
a stream handler by the SDK. -/
inductive Operation (α : Type) where
  | callInitialize (this : Nat) (sdk : SdkResponses)
  | callGetGloveData (this : Nat)
  | callCleanup (this : Nat)
  | landscapeEvent (landscape : Landscape)
  | skeletonFrame (frame : List (RawSkeleton α))
  | ergonomicsEvent (stream : ErgonomicsStream α)

/-- The state after an operation; `none` when a vector is accessed out of range. -/
def Operation.run {α : Type} [Inhabited α] (ErgonomicsDataType_MAX_SIZE : Nat) (w : World α) :
    Operation α → Option (World α)
  | Operation.callInitialize this sdk => some (initializeTracker w this sdk).1
  | Operation.callGetGloveData this => some (get_glove_data w this).1
  | Operation.callCleanup this => some (cleanup w this)
  | Operation.landscapeEvent landscape => some (OnLandscapeStream w landscape)
  | Operation.skeletonFrame frame => OnSkeletonStream w frame
  | Operation.ergonomicsEvent stream =>
    some (OnErgonomicsStream ErgonomicsDataType_MAX_SIZE w stream)

/-- The operations considered: every skeleton of a frame has a node count `n` with
`4 * n < 2^32`. -/
def Operation.Admissible {α : Type} : Operation α → Prop
  | Operation.skeletonFrame frame => ∀ sk ∈ frame, 4 * sk.nodesCount < 2 ^ 32
  | _ => True

/-- The states reachable from a fresh process by admissible operations. -/
inductive Reachable {α : Type} [Inhabited α] (ErgonomicsDataType_MAX_SIZE : Nat) :
    World α → Prop where
  | fresh : Reachable ErgonomicsDataType_MAX_SIZE World.fresh
  | step (w w' : World α) (op : Operation α) :
    Reachable ErgonomicsDataType_MAX_SIZE w → op.Admissible →
    op.run ErgonomicsDataType_MAX_SIZE w = some w' →
    Reachable ErgonomicsDataType_MAX_SIZE w'

/-- The position and orientation entries of every role are both absent, or both present
with lengths `3 * n` and `4 * n` for one node count `n`. -/
def PairedEntries {α : Type} (t : Tracker α) : Prop :=
  ∀ role : Role,
    (t.output_map (positionKey role) = none ∧ t.output_map (orientationKey role) = none) ∨
    ∃ (n : Nat) (vp vo : List α),
      t.output_map (positionKey role) = some vp ∧
      t.output_map (orientationKey role) = some vo ∧
      vp.length = 3 * n ∧ vo.length = 4 * n

/-- The three keys with prefix `left`. -/
def leftKeys : List String := ["left_position", "left_orientation", "left_angle"]

/-- The three keys with prefix `right`. -/
def rightKeys : List String := ["right_position", "right_orientation", "right_angle"]

/-- Every key present in the output map is one of the three `left` keys with a Left id
assigned, or one of the three `right` keys with a Right id assigned. -/
def KeysOfAssignedRoles {α : Type} (t : Tracker α) : Prop :=
  ∀ key, t.output_map key ≠ none →
    (key ∈ leftKeys ∧ t.left_glove_id ≠ none) ∨ (key ∈ rightKeys ∧ t.right_glove_id ≠ none)

/-- The state after `initialize` of tracker 0 on a fresh process, with an SDK that connects
at the first attempt. -/
def connectedWorld : World Nat :=
  { s_instance := some 0,
    trackers := fun i =>
      if i = 0 then { (Tracker.fresh : Tracker Nat) with is_connected := true }
      else Tracker.fresh,
    trace := [SdkEvent.CoreSdk_InitializeIntegrated] ++ registrationCalls ++ [coordinateCall] ++
      [SdkEvent.CoreSdk_LookForHosts 1 false, SdkEvent.CoreSdk_GetNumberOfAvailableHostsFound,
        SdkEvent.CoreSdk_GetAvailableHostsFound 1, SdkEvent.CoreSdk_ConnectToHost ⟨0⟩] }

/-- The state after `connectedWorld` received the landscape event reporting glove 7 as Left
and a frame with one skeleton of glove 7 with one node. -/
def trackedWorld : World Nat :=
  (OnLandscapeStream connectedWorld ⟨[⟨7, Side.Side_Left⟩]⟩).setTracker 0
    (List.foldl skeletonEffect
      ((OnLandscapeStream connectedWorld ⟨[⟨7, Side.Side_Left⟩]⟩).trackers 0)
      [⟨7, [mkNode 1 2 3 1 0 0 0]⟩])

/-- The mutexes held after a sequence of lock events, the most recently acquired first. -/
def heldAfter (events : List LockEvent) : List Mutex :=
  events.foldl
    (fun held e =>
      match e with
      | LockEvent.acquire m => m :: held
      | LockEvent.release m => held.erase m)
    []

/-- The position of a mutex in the order singleton slot, OutputStore, RoleMap. -/
def Mutex.rank : Mutex → Nat
  | Mutex.s_instance_mutex => 0
  | Mutex.output_map_mutex => 1
  | Mutex.landscape_mutex => 2

/-- Whether a sequence of lock events, started with the mutexes `held` (most recent first),
acquires a mutex only while every held mutex comes earlier in the order, releases only the
most recently acquired mutex, and ends with no mutex held. -/
def nestedInOrder : List Mutex → List LockEvent → Bool
  | held, [] => held.isEmpty
  | held, LockEvent.acquire m :: rest =>
    held.all (fun h => decide (h.rank < m.rank)) && nestedInOrder (m :: held) rest
  | [], LockEvent.release _ :: _ => false
  | h :: held, LockEvent.release m :: rest => decide (h = m) && nestedInOrder held rest

/-- The number of times a sequence of lock events acquires the mutex `m`. -/
def acquisitions (m : Mutex) (events : List LockEvent) : Nat :=
  events.count (LockEvent.acquire m)

/-- The lock events of `n` consecutive RoleMap critical sections: each acquisition of
`landscape_mutex` is directly followed by its release. -/
def roleMapSections (n : Nat) : List LockEvent :=
  (List.replicate n
    [LockEvent.acquire Mutex.landscape_mutex, LockEvent.release Mutex.landscape_mutex]).flatten

/-! # Theorems -/

/-! ## Device role resolver: properties -/

theorem landscapeBody_left {α : Type} (t : Tracker α) (g : GloveLandscapeData) :
    (landscapeBody t g).left_glove_id = (lastWithSide Side.Side_Left [g]).or t.left_glove_id := by
  unfold landscapeBody lastWithSide
  by_cases h : g.side = Side.Side_Left
  · simp [h]
  · by_cases h2 : g.side = Side.Side_Right <;> simp [h, h2]

theorem landscapeBody_right {α : Type} (t : Tracker α) (g : GloveLandscapeData) :
    (landscapeBody t g).right_glove_id
      = (lastWithSide Side.Side_Right [g]).or t.right_glove_id := by
  unfold landscapeBody lastWithSide
  by_cases h : g.side = Side.Side_Left
  · simp [h]
  · by_cases h2 : g.side = Side.Side_Right <;> simp [h, h2]

theorem lastWithSide_append (side : Side) (l₁ l₂ : List GloveLandscapeData) :
    lastWithSide side (l₁ ++ l₂) = (lastWithSide side l₂).or (lastWithSide side l₁) := by
  unfold lastWithSide
  rw [List.filter_append, List.getLast?_append]
  cases (List.filter (fun g => decide (g.side = side)) l₂).getLast? <;> simp

theorem foldl_landscapeBody_left {α : Type} (gloves : List GloveLandscapeData) (t : Tracker α) :
    (gloves.foldl landscapeBody t).left_glove_id
      = (lastWithSide Side.Side_Left gloves).or t.left_glove_id := by
  induction gloves generalizing t with
  | nil => simp [lastWithSide]
  | cons g gs ih =>
    rw [List.foldl_cons, ih, landscapeBody_left]
    have := lastWithSide_append Side.Side_Left [g] gs
    rw [List.singleton_append] at this
    rw [this]
    cases lastWithSide Side.Side_Left gs <;> simp

theorem foldl_landscapeBody_right {α : Type} (gloves : List GloveLandscapeData)
    (t : Tracker α) :
    (gloves.foldl landscapeBody t).right_glove_id
      = (lastWithSide Side.Side_Right gloves).or t.right_glove_id := by
  induction gloves generalizing t with
  | nil => simp [lastWithSide]
  | cons g gs ih =>
    rw [List.foldl_cons, ih, landscapeBody_right]
    have := lastWithSide_append Side.Side_Right [g] gs
    rw [List.singleton_append] at this
    rw [this]
    cases lastWithSide Side.Side_Right gs <;> simp

theorem OnLandscapeStream_s_instance {α : Type} (w : World α) (landscape : Landscape) :
    (OnLandscapeStream w landscape).s_instance = w.s_instance := by
  unfold OnLandscapeStream
  split
  · rfl
  · split <;> rfl

theorem OnLandscapeStream_active {α : Type} (w : World α) (inst : Nat)
    (h : w.s_instance = some inst) (landscape : Landscape) :
    (OnLandscapeStream w landscape).trackers inst
      = if landscape.gloveCount > 2 then w.trackers inst
        else landscape.gloves.foldl landscapeBody (w.trackers inst) := by
  unfold OnLandscapeStream
  rw [h]
  by_cases hc : landscape.gloveCount > 2 <;> simp [hc, World.setTracker]

theorem foldl_OnLandscapeStream_roles {α : Type} (events : List Landscape) (w : World α)
    (inst : Nat) (h : w.s_instance = some inst) (hc : ∀ e ∈ events, e.gloveCount ≤ 2) :
    ((events.foldl OnLandscapeStream w).trackers inst).left_glove_id
        = (lastWithSide Side.Side_Left (events.flatMap fun e => e.gloves)).or
            (w.trackers inst).left_glove_id ∧
      ((events.foldl OnLandscapeStream w).trackers inst).right_glove_id
        = (lastWithSide Side.Side_Right (events.flatMap fun e => e.gloves)).or
            (w.trackers inst).right_glove_id := by
  induction events generalizing w with
  | nil => simp [lastWithSide]
  | cons e es ih =>
    have he : ¬ e.gloveCount > 2 := by
      have := hc e (List.mem_cons_self _ _)
      omega
    have hs : (OnLandscapeStream w e).s_instance = some inst := by
      rw [OnLandscapeStream_s_instance, h]
    have ih' := ih (OnLandscapeStream w e) hs (fun x hx => hc x (List.mem_cons_of_mem _ hx))
    rw [List.foldl_cons, List.flatMap_cons, lastWithSide_append, lastWithSide_append]
    rw [ih'.1, ih'.2, OnLandscapeStream_active w inst h, if_neg he,
      foldl_landscapeBody_left, foldl_landscapeBody_right]
    constructor
    · cases lastWithSide Side.Side_Left (es.flatMap fun e => e.gloves) <;> simp
    · cases lastWithSide Side.Side_Right (es.flatMap fun e => e.gloves) <;> simp

/-- C1: on an active tracker, a landscape event with more than 2 gloves leaves both role
ids unchanged; one with at most 2 gloves sets `left_glove_id` to the id of its last Left
glove and `right_glove_id` to the id of its last Right glove, each keeping its previous
value when the event has no such glove, gloves of any other side being ignored. After a
sequence of events with at most 2 gloves each, the role ids are the most recently reported
Left id and the most recently reported Right id. -/
theorem OnLandscapeStream_role_map {α : Type} (w : World α) (inst : Nat)
    (h : w.s_instance = some inst) (landscape : Landscape) :
    (landscape.gloveCount > 2 →
      ((OnLandscapeStream w landscape).trackers inst).left_glove_id
          = (w.trackers inst).left_glove_id ∧
        ((OnLandscapeStream w landscape).trackers inst).right_glove_id
          = (w.trackers inst).right_glove_id) ∧
    (landscape.gloveCount ≤ 2 →
      ((OnLandscapeStream w landscape).trackers inst).left_glove_id
          = (lastWithSide Side.Side_Left landscape.gloves).or (w.trackers inst).left_glove_id ∧
        ((OnLandscapeStream w landscape).trackers inst).right_glove_id
          = (lastWithSide Side.Side_Right landscape.gloves).or
              (w.trackers inst).right_glove_id) ∧
    (∀ events : List Landscape, (∀ e ∈ events, e.gloveCount ≤ 2) →
      ((events.foldl OnLandscapeStream w).trackers inst).left_glove_id
          = (lastWithSide Side.Side_Left (events.flatMap fun e => e.gloves)).or
              (w.trackers inst).left_glove_id ∧
        ((events.foldl OnLandscapeStream w).trackers inst).right_glove_id
          = (lastWithSide Side.Side_Right (events.flatMap fun e => e.gloves)).or
              (w.trackers inst).right_glove_id) := by
  refine ⟨fun hc => ?_, fun hc => ?_, fun events hc => ?_⟩
  · rw [OnLandscapeStream_active w inst h, if_pos hc]
    exact ⟨rfl, rfl⟩
  · have hc' : ¬ landscape.gloveCount > 2 := by omega
    rw [OnLandscapeStream_active w inst h, if_neg hc']
    exact ⟨foldl_landscapeBody_left _ _, foldl_landscapeBody_right _ _⟩
  · exact foldl_OnLandscapeStream_roles events w inst h hc

/-- C1 at a concrete input: with Left id 1 and Right id 2 assigned, the event with gloves
Left 7, Left 8 assigns Left 8 and keeps Right 2. -/
theorem OnLandscapeStream_role_map_witness :
    activeWorld.s_instance = some 0 ∧
    ((OnLandscapeStream activeWorld
        ⟨[⟨7, Side.Side_Left⟩, ⟨8, Side.Side_Left⟩]⟩).trackers 0).left_glove_id = some 8 ∧
    ((OnLandscapeStream activeWorld
        ⟨[⟨7, Side.Side_Left⟩, ⟨8, Side.Side_Left⟩]⟩).trackers 0).right_glove_id = some 2 :=
  ⟨rfl, (OnLandscapeStream_role_map activeWorld 0 rfl
      ⟨[⟨7, Side.Side_Left⟩, ⟨8, Side.Side_Left⟩]⟩).2.1 (by decide)⟩

/-! ## Stream aggregator: skeleton frames -/

theorem set_append_right_aux {β : Type} (A D : List β) (k : Nat) (x : β) :
    (A ++ D).set (A.length + k) x = A ++ D.set k x := by
  rw [List.set_append]
  simp

theorem set_block3 {β : Type} (A P : List β) (x y z : β) (h : A.length + 3 ≤ P.length) :
    (((A ++ P.drop A.length).set (A.length + 0) x).set (A.length + 1) y).set (A.length + 2) z
      = (A ++ [x, y, z]) ++ P.drop (A.length + 3) := by
  have hD : (P.drop A.length).length = P.length - A.length := List.length_drop _ _
  have hdd : (P.drop A.length).drop 3 = P.drop (A.length + 3) := by
    rw [List.drop_drop]
  rw [← hdd]
  generalize P.drop A.length = D at hD
  match D, hD with
  | [], hD => simp at hD; omega
  | [_], hD => simp at hD; omega
  | [_, _], hD => simp at hD; omega
  | a :: b :: c :: D', _ =>
    rw [set_append_right_aux, set_append_right_aux, set_append_right_aux]
    simp

theorem set_block4 {β : Type} (A P : List β) (w x y z : β) (h : A.length + 4 ≤ P.length) :
    ((((A ++ P.drop A.length).set (A.length + 0) w).set (A.length + 1) x).set
        (A.length + 2) y).set (A.length + 3) z
      = (A ++ [w, x, y, z]) ++ P.drop (A.length + 4) := by
  have hD : (P.drop A.length).length = P.length - A.length := List.length_drop _ _
  have hdd : (P.drop A.length).drop 4 = P.drop (A.length + 4) := by
    rw [List.drop_drop]
  rw [← hdd]
  generalize P.drop A.length = D at hD
  match D, hD with
  | [], hD => simp at hD; omega
  | [_], hD => simp at hD; omega
  | [_, _], hD => simp at hD; omega
  | [_, _, _], hD => simp at hD; omega
  | a :: b :: c :: d :: D', _ =>
    rw [set_append_right_aux, set_append_right_aux, set_append_right_aux,
      set_append_right_aux]
    simp

theorem OutputMap.at_put_same {α : Type} (m : OutputMap α) (k : String) (v : List α) :
    (m.put k v).at k = v := by
  simp [OutputMap.at, OutputMap.put]

theorem OutputMap.at_put_ne {α : Type} (m : OutputMap α) (k k' : String) (v : List α)
    (h : k' ≠ k) : (m.put k v).at k' = m.at k' := by
  simp [OutputMap.at, OutputMap.put, h]

theorem OutputMap.put_put_same {α : Type} (m : OutputMap α) (k : String) (v v' : List α) :
    (m.put k v).put k v' = m.put k v' := by
  funext k'
  by_cases h : k' = k <;> simp [OutputMap.put, h]

theorem OutputMap.put_comm {α : Type} (m : OutputMap α) (k k' : String) (v v' : List α)
    (h : k ≠ k') : (m.put k v).put k' v' = (m.put k' v').put k v := by
  funext j
  by_cases h1 : j = k
  · have h2 : ¬ j = k' := fun h2 => h (h1.symm.trans h2)
    simp only [OutputMap.put, h1, h2, if_true, if_false]
    rw [if_neg (fun e : k = k' => h e)]
  · by_cases h2 : j = k'
    · simp only [OutputMap.put, h1, h2, if_true, if_false]
      rw [if_neg (fun e : k' = k => h e.symm)]
    · simp only [OutputMap.put, h1, h2, if_true, if_false]

theorem writeAt_first {α : Type} (m : OutputMap α) (pk ok : String) (hk : pk ≠ ok)
    (P O : List α) (i : Nat) (x : α) (hi : i < P.length) :
    ((m.put pk P).put ok O).writeAt pk i x = some ((m.put pk (P.set i x)).put ok O) := by
  unfold OutputMap.writeAt
  rw [OutputMap.at_put_ne _ _ _ _ hk, OutputMap.at_put_same]
  simp only [vecAssign, hi, if_true, Option.map_some']
  rw [OutputMap.put_comm _ pk ok _ _ hk, OutputMap.put_put_same,
    OutputMap.put_comm _ ok pk _ _ (Ne.symm hk)]

theorem writeAt_second {α : Type} (m : OutputMap α) (pk ok : String)
    (P O : List α) (i : Nat) (x : α) (hi : i < O.length) :
    ((m.put pk P).put ok O).writeAt ok i x = some ((m.put pk P).put ok (O.set i x)) := by
  unfold OutputMap.writeAt
  rw [OutputMap.at_put_same]
  simp only [vecAssign, hi, if_true, Option.map_some']
  rw [OutputMap.put_put_same]

theorem u32_of_lt (n : Nat) (h : n < 2 ^ 32) : u32 n = n := Nat.mod_eq_of_lt h

theorem flatPositions_length {α : Type} (nodes : List (SkeletonNode α)) :
    (flatPositions nodes).length = 3 * nodes.length := by
  induction nodes with
  | nil => rfl
  | cons n ns ih =>
    simp only [flatPositions, List.flatMap_cons, List.length_append, List.length_cons,
      List.length_nil] at ih ⊢
    omega

theorem flatOrientations_length {α : Type} (nodes : List (SkeletonNode α)) :
    (flatOrientations nodes).length = 4 * nodes.length := by
  induction nodes with
  | nil => rfl
  | cons n ns ih =>
    simp only [flatOrientations, List.flatMap_cons, List.length_append, List.length_cons,
      List.length_nil] at ih ⊢
    omega

theorem flatPositions_take_succ {α : Type} (nodes : List (SkeletonNode α)) (j : Nat)
    (node : SkeletonNode α) (hn : nodes[j]? = some node) :
    flatPositions (nodes.take (j + 1)) = flatPositions (nodes.take j) ++
      [node.transform.position.x, node.transform.position.y, node.transform.position.z] := by
  rw [List.take_succ, hn]
  simp [flatPositions, List.flatMap_append]

theorem flatOrientations_take_succ {α : Type} (nodes : List (SkeletonNode α)) (j : Nat)
    (node : SkeletonNode α) (hn : nodes[j]? = some node) :
    flatOrientations (nodes.take (j + 1)) = flatOrientations (nodes.take j) ++
      [node.transform.rotation.w, node.transform.rotation.x, node.transform.rotation.y,
        node.transform.rotation.z] := by
  rw [List.take_succ, hn]
  simp [flatOrientations, List.flatMap_append]

theorem copyNode_step {α : Type} (m : OutputMap α) (pk ok : String) (hk : pk ≠ ok)
    (nodes : List (SkeletonNode α)) (P O : List α) (j : Nat) (hj : j < nodes.length)
    (hP : P.length = 3 * nodes.length) (hO : O.length = 4 * nodes.length)
    (hn : 4 * nodes.length < 2 ^ 32) :
    copyNode pk ok nodes
        ((m.put pk (flatPositions (nodes.take j) ++ P.drop (3 * j))).put ok
          (flatOrientations (nodes.take j) ++ O.drop (4 * j))) j
      = some ((m.put pk (flatPositions (nodes.take (j + 1)) ++ P.drop (3 * (j + 1)))).put ok
          (flatOrientations (nodes.take (j + 1)) ++ O.drop (4 * (j + 1)))) := by
  obtain ⟨node, hnode⟩ : ∃ node, nodes[j]? = some node :=
    ⟨nodes[j], List.getElem?_eq_getElem hj⟩
  have hA : (flatPositions (nodes.take j)).length = 3 * j := by
    rw [flatPositions_length, List.length_take]; omega
  have hB : (flatOrientations (nodes.take j)).length = 4 * j := by
    rw [flatOrientations_length, List.length_take]; omega
  have e3 : ∀ k, k < 3 → u32 (u32 (j * 3) + k) = (flatPositions (nodes.take j)).length + k := by
    intro k hk3
    rw [u32_of_lt (j * 3) (by omega), u32_of_lt _ (by omega), hA]; omega
  have e4 : ∀ k, k < 4 →
      u32 (u32 (j * 4) + k) = (flatOrientations (nodes.take j)).length + k := by
    intro k hk4
    rw [u32_of_lt (j * 4) (by omega), u32_of_lt _ (by omega), hB]; omega
  rw [flatPositions_take_succ nodes j node hnode, flatOrientations_take_succ nodes j node hnode]
  have hP3 : 3 * (j + 1) = (flatPositions (nodes.take j)).length + 3 := by omega
  have hO4 : 4 * (j + 1) = (flatOrientations (nodes.take j)).length + 4 := by omega
  rw [hP3, hO4, ← hA, ← hB]
  rw [← set_block3 _ P node.transform.position.x node.transform.position.y
    node.transform.position.z (by omega)]
  rw [← set_block4 _ O node.transform.rotation.w node.transform.rotation.x
    node.transform.rotation.y node.transform.rotation.z (by omega)]
  generalize hAdef : flatPositions (nodes.take j) = A at *
  generalize hBdef : flatOrientations (nodes.take j) = B at *
  have lP : (A ++ P.drop A.length).length = P.length := by
    rw [List.length_append, List.length_drop]; omega
  have lO : (B ++ O.drop B.length).length = O.length := by
    rw [List.length_append, List.length_drop]; omega
  unfold copyNode
  simp only [hnode, Option.bind_eq_bind, Option.some_bind, Option.pure_def,
    e3 0 (by omega), e3 1 (by omega), e3 2 (by omega),
    e4 0 (by omega), e4 1 (by omega), e4 2 (by omega), e4 3 (by omega)]
  rw [writeAt_first m pk ok hk _ _ _ _ (by rw [lP]; omega)]
  simp only [Option.some_bind]
  rw [writeAt_first m pk ok hk _ _ _ _ (by rw [List.length_set, lP]; omega)]
  simp only [Option.some_bind]
  rw [writeAt_first m pk ok hk _ _ _ _ (by rw [List.length_set, List.length_set, lP]; omega)]
  simp only [Option.some_bind]
  rw [writeAt_second m pk ok _ _ _ _ (by rw [lO]; omega)]
  simp only [Option.some_bind]
  rw [writeAt_second m pk ok _ _ _ _ (by rw [List.length_set, lO]; omega)]
  simp only [Option.some_bind]
  rw [writeAt_second m pk ok _ _ _ _ (by rw [List.length_set, List.length_set, lO]; omega)]
  simp only [Option.some_bind]
  rw [writeAt_second m pk ok _ _ _ _
    (by rw [List.length_set, List.length_set, List.length_set, lO]; omega)]
  rfl

theorem copyNode_loop {α : Type} (m : OutputMap α) (pk ok : String) (hk : pk ≠ ok)
    (nodes : List (SkeletonNode α)) (P O : List α)
    (hP : P.length = 3 * nodes.length) (hO : O.length = 4 * nodes.length)
    (hn : 4 * nodes.length < 2 ^ 32) (j : Nat) (hj : j ≤ nodes.length) :
    (List.range j).foldlM (copyNode pk ok nodes) ((m.put pk P).put ok O)
      = some ((m.put pk (flatPositions (nodes.take j) ++ P.drop (3 * j))).put ok
          (flatOrientations (nodes.take j) ++ O.drop (4 * j))) := by
  induction j with
  | zero => simp [flatPositions, flatOrientations]
  | succ j ih =>
    rw [List.range_succ, List.foldlM_append, ih (by omega)]
    simp only [Option.bind_eq_bind, Option.some_bind, List.foldlM_cons, List.foldlM_nil]
    rw [copyNode_step m pk ok hk nodes P O j (by omega) hP hO hn]
    rfl

theorem resize_length {α : Type} [Inhabited α] (v : List α) (n : Nat) :
    (resize v n).length = n := by
  unfold resize
  rw [List.length_append, List.length_take, List.length_replicate]
  omega

/-- The two keys a matched skeleton writes, and what is stored under them. -/
theorem skeleton_writes {α : Type} [Inhabited α] (m : OutputMap α) (pk ok : String)
    (hk : pk ≠ ok) (nodes : List (SkeletonNode α)) (hn : 4 * nodes.length < 2 ^ 32) :
    (List.range nodes.length).foldlM (copyNode pk ok nodes)
        ((m.resizeAt pk (u32 (nodes.length * 3))).resizeAt ok (u32 (nodes.length * 4)))
      = some ((m.put pk (flatPositions nodes)).put ok (flatOrientations nodes)) := by
  unfold OutputMap.resizeAt
  rw [u32_of_lt _ (by omega), u32_of_lt _ (by omega)]
  rw [copyNode_loop m pk ok hk nodes _ _ (by rw [resize_length]; omega)
    (by rw [resize_length]; omega) hn nodes.length (le_refl _)]
  rw [List.take_length, List.drop_of_length_le (by rw [resize_length]; omega),
    List.drop_of_length_le (by rw [resize_length]; omega), List.append_nil, List.append_nil]

theorem flatPositions_holds {α : Type} (nodes : List (SkeletonNode α)) :
    HoldsPositions (some (flatPositions nodes)) nodes := by
  refine ⟨_, rfl, flatPositions_length nodes, ?_⟩
  induction nodes with
  | nil => intro j node h; simp at h
  | cons n ns ih =>
    intro j node h
    cases j with
    | zero =>
      simp only [List.getElem?_cons_zero, Option.some.injEq] at h
      subst h
      simp [flatPositions]
    | succ j =>
      simp only [List.getElem?_cons_succ] at h
      have := ih j node h
      have e0 : 3 * (j + 1) = 3 * j + 1 + 1 + 1 := by omega
      have e1 : 3 * (j + 1) + 1 = 3 * j + 1 + 1 + 1 + 1 := by omega
      have e2 : 3 * (j + 1) + 2 = 3 * j + 2 + 1 + 1 + 1 := by omega
      rw [e2, e1, e0]
      simpa [flatPositions] using this

theorem flatOrientations_holds {α : Type} (nodes : List (SkeletonNode α)) :
    HoldsOrientations (some (flatOrientations nodes)) nodes := by
  refine ⟨_, rfl, flatOrientations_length nodes, ?_⟩
  induction nodes with
  | nil => intro j node h; simp at h
  | cons n ns ih =>
    intro j node h
    cases j with
    | zero =>
      simp only [List.getElem?_cons_zero, Option.some.injEq] at h
      subst h
      simp [flatOrientations]
    | succ j =>
      simp only [List.getElem?_cons_succ] at h
      have := ih j node h
      have e0 : 4 * (j + 1) = 4 * j + 1 + 1 + 1 + 1 := by omega
      have e1 : 4 * (j + 1) + 1 = 4 * j + 1 + 1 + 1 + 1 + 1 := by omega
      have e2 : 4 * (j + 1) + 2 = 4 * j + 2 + 1 + 1 + 1 + 1 := by omega
      have e3 : 4 * (j + 1) + 3 = 4 * j + 3 + 1 + 1 + 1 + 1 := by omega
      rw [e3, e2, e1, e0]
      simpa [flatOrientations] using this

theorem positionKey_ne_orientationKey (r r' : Role) : positionKey r ≠ orientationKey r' := by
  cases r <;> cases r' <;> decide

theorem is_glove_eq (slot : Option Nat) (glove_id : Nat) :
    is_glove slot glove_id = decide (slot = some glove_id) := by
  cases slot with
  | none => simp [is_glove]
  | some id =>
    simp only [is_glove, Option.some.injEq]
    by_cases h : glove_id = id
    · simp [h]
    · have h' : ¬ id = glove_id := fun e => h e.symm
      simp [h, h']

theorem skeletonBody_eq {α : Type} [Inhabited α] (t : Tracker α) (sk : RawSkeleton α)
    (hn : 4 * sk.nodesCount < 2 ^ 32) : skeletonBody t sk = some (skeletonEffect t sk) := by
  unfold skeletonBody skeletonEffect Tracker.resolve resolveRole
  simp only [is_glove_eq, RawSkeleton.nodesCount] at hn ⊢
  by_cases hl : t.left_glove_id = some sk.gloveId
  · simp only [hl, decide_True, Bool.not_true, Bool.false_and, if_true, Bool.false_eq_true,
      if_false]
    rw [skeleton_writes _ ("left" ++ "_position") ("left" ++ "_orientation") (by decide) _ hn]
    rfl
  · by_cases hr : t.right_glove_id = some sk.gloveId
    · simp only [hl, hr, decide_True, decide_False, Bool.not_true, Bool.not_false,
        Bool.and_false, if_true, Bool.false_eq_true, if_false]
      rw [skeleton_writes _ ("right" ++ "_position") ("right" ++ "_orientation") (by decide) _ hn]
      rfl
    · simp [hl, hr]

theorem foldlM_skeletonBody {α : Type} [Inhabited α] (frame : List (RawSkeleton α))
    (t : Tracker α) (hn : ∀ sk ∈ frame, 4 * sk.nodesCount < 2 ^ 32) :
    frame.foldlM skeletonBody t = some (frame.foldl skeletonEffect t) := by
  induction frame generalizing t with
  | nil => rfl
  | cons sk rest ih =>
    rw [List.foldlM_cons, skeletonBody_eq t sk (hn sk (List.mem_cons_self _ _))]
    simp only [Option.bind_eq_bind, Option.some_bind, List.foldl_cons]
    exact ih _ (fun x hx => hn x (List.mem_cons_of_mem _ hx))

theorem skeletonEffect_ids {α : Type} (t : Tracker α) (sk : RawSkeleton α) :
    (skeletonEffect t sk).left_glove_id = t.left_glove_id ∧
      (skeletonEffect t sk).right_glove_id = t.right_glove_id ∧
      (skeletonEffect t sk).is_connected = t.is_connected := by
  unfold skeletonEffect
  cases t.resolve sk.gloveId <;> exact ⟨rfl, rfl, rfl⟩

theorem foldl_skeletonEffect_ids {α : Type} (frame : List (RawSkeleton α)) (t : Tracker α) :
    (frame.foldl skeletonEffect t).left_glove_id = t.left_glove_id ∧
      (frame.foldl skeletonEffect t).right_glove_id = t.right_glove_id ∧
      (frame.foldl skeletonEffect t).is_connected = t.is_connected := by
  induction frame generalizing t with
  | nil => exact ⟨rfl, rfl, rfl⟩
  | cons sk rest ih =>
    rw [List.foldl_cons]
    obtain ⟨h1, h2, h3⟩ := ih (skeletonEffect t sk)
    obtain ⟨g1, g2, g3⟩ := skeletonEffect_ids t sk
    exact ⟨h1.trans g1, h2.trans g2, h3.trans g3⟩

theorem foldl_skeletonEffect_resolve {α : Type} (frame : List (RawSkeleton α)) (t : Tracker α)
    (glove_id : Nat) : (frame.foldl skeletonEffect t).resolve glove_id = t.resolve glove_id := by
  obtain ⟨h1, h2, _⟩ := foldl_skeletonEffect_ids frame t
  unfold Tracker.resolve
  rw [h1, h2]

theorem positionKey_inj (r r' : Role) : positionKey r = positionKey r' ↔ r = r' := by
  cases r <;> cases r' <;> decide

theorem orientationKey_inj (r r' : Role) : orientationKey r = orientationKey r' ↔ r = r' := by
  cases r <;> cases r' <;> decide

theorem skeletonEffect_position {α : Type} (t : Tracker α) (sk : RawSkeleton α) (role : Role) :
    (skeletonEffect t sk).output_map (positionKey role)
      = if t.resolve sk.gloveId = some role then some (flatPositions sk.nodes)
        else t.output_map (positionKey role) := by
  unfold skeletonEffect
  cases hr : t.resolve sk.gloveId with
  | none => simp
  | some r =>
    simp only [OutputMap.put, positionKey_ne_orientationKey, if_false, positionKey_inj,
      Option.some.injEq]
    by_cases h : role = r
    · subst h; simp
    · have h' : ¬ r = role := fun e => h e.symm
      simp [h, h']

theorem skeletonEffect_orientation {α : Type} (t : Tracker α) (sk : RawSkeleton α)
    (role : Role) :
    (skeletonEffect t sk).output_map (orientationKey role)
      = if t.resolve sk.gloveId = some role then some (flatOrientations sk.nodes)
        else t.output_map (orientationKey role) := by
  unfold skeletonEffect
  cases hr : t.resolve sk.gloveId with
  | none => simp
  | some r =>
    have hne : ¬ orientationKey role = positionKey r :=
      fun e => positionKey_ne_orientationKey r role e.symm
    simp only [OutputMap.put, hne, if_false, orientationKey_inj, Option.some.injEq]
    by_cases h : role = r
    · subst h; simp
    · have h' : ¬ r = role := fun e => h e.symm
      simp [h, h']

theorem lastSkeletonFor_concat {α : Type} (t : Tracker α) (role : Role)
    (frame : List (RawSkeleton α)) (sk : RawSkeleton α) :
    lastSkeletonFor t role (frame ++ [sk])
      = if t.resolve sk.gloveId = some role then some sk else lastSkeletonFor t role frame := by
  unfold lastSkeletonFor
  rw [List.filter_append]
  by_cases h : t.resolve sk.gloveId = some role
  · simp [h, List.filter_cons]
  · simp [h, List.filter_cons]

theorem foldl_skeletonEffect_position {α : Type} (frame : List (RawSkeleton α))
    (t : Tracker α) (role : Role) :
    (frame.foldl skeletonEffect t).output_map (positionKey role)
      = match lastSkeletonFor t role frame with
        | some sk => some (flatPositions sk.nodes)
        | none => t.output_map (positionKey role) := by
  induction frame using List.reverseRecOn with
  | nil => rfl
  | append_singleton l sk ih =>
    rw [List.foldl_append, List.foldl_cons, List.foldl_nil, skeletonEffect_position,
      foldl_skeletonEffect_resolve, lastSkeletonFor_concat, ih]
    by_cases h : t.resolve sk.gloveId = some role <;> simp [h]

theorem foldl_skeletonEffect_orientation {α : Type} (frame : List (RawSkeleton α))
    (t : Tracker α) (role : Role) :
    (frame.foldl skeletonEffect t).output_map (orientationKey role)
      = match lastSkeletonFor t role frame with
        | some sk => some (flatOrientations sk.nodes)
        | none => t.output_map (orientationKey role) := by
  induction frame using List.reverseRecOn with
  | nil => rfl
  | append_singleton l sk ih =>
    rw [List.foldl_append, List.foldl_cons, List.foldl_nil, skeletonEffect_orientation,
      foldl_skeletonEffect_resolve, lastSkeletonFor_concat, ih]
    by_cases h : t.resolve sk.gloveId = some role <;> simp [h]

theorem OnSkeletonStream_active {α : Type} [Inhabited α] (w : World α) (inst : Nat)
    (h : w.s_instance = some inst) (frame : List (RawSkeleton α))
    (hn : ∀ sk ∈ frame, 4 * sk.nodesCount < 2 ^ 32) :
    OnSkeletonStream w frame
      = some (w.setTracker inst (frame.foldl skeletonEffect (w.trackers inst))) := by
  unfold OnSkeletonStream
  rw [h]
  simp only [foldlM_skeletonBody frame _ hn, Option.map_some']

theorem setTracker_same {α : Type} (w : World α) (inst : Nat) (t : Tracker α) :
    (w.setTracker inst t).trackers inst = t := by
  simp [World.setTracker]

theorem skeletonBody_unknown {α : Type} [Inhabited α] (t : Tracker α) (sk : RawSkeleton α)
    (hu : t.resolve sk.gloveId = none) : skeletonBody t sk = some t := by
  unfold Tracker.resolve resolveRole at hu
  unfold skeletonBody
  simp only [is_glove_eq]
  by_cases hl : t.left_glove_id = some sk.gloveId
  · simp [hl] at hu
  · by_cases hr : t.right_glove_id = some sk.gloveId
    · simp [hl, hr] at hu
    · simp [hl, hr]

theorem skeletonBody_ids {α : Type} [Inhabited α] (t t' : Tracker α) (sk : RawSkeleton α)
    (h : skeletonBody t sk = some t') :
    t'.left_glove_id = t.left_glove_id ∧ t'.right_glove_id = t.right_glove_id := by
  unfold skeletonBody at h
  simp only at h
  split at h
  · simp only [Option.some.injEq] at h
    subst h
    exact ⟨rfl, rfl⟩
  · simp only [Option.map_eq_some'] at h
    obtain ⟨m, _, hm⟩ := h
    subst hm
    exact ⟨rfl, rfl⟩

theorem foldlM_skeletonBody_ids {α : Type} [Inhabited α] (frame : List (RawSkeleton α))
    (t t' : Tracker α) (h : frame.foldlM skeletonBody t = some t') :
    t'.left_glove_id = t.left_glove_id ∧ t'.right_glove_id = t.right_glove_id := by
  induction frame generalizing t with
  | nil =>
    simp only [List.foldlM_nil, Option.pure_def, Option.some.injEq] at h
    subst h
    exact ⟨rfl, rfl⟩
  | cons sk rest ih =>
    rw [List.foldlM_cons] at h
    cases hb : skeletonBody t sk with
    | none => rw [hb] at h; simp at h
    | some t1 =>
      rw [hb] at h
      simp only [Option.bind_eq_bind, Option.some_bind] at h
      obtain ⟨a, b⟩ := ih t1 h
      obtain ⟨c, d⟩ := skeletonBody_ids t t1 sk hb
      exact ⟨a.trans c, b.trans d⟩

theorem OnSkeletonStream_drop_unknown {α : Type} [Inhabited α] (w : World α) (inst : Nat)
    (h : w.s_instance = some inst) (pre post : List (RawSkeleton α)) (sk : RawSkeleton α)
    (hu : (w.trackers inst).resolve sk.gloveId = none) :
    OnSkeletonStream w (pre ++ sk :: post) = OnSkeletonStream w (pre ++ post) := by
  unfold OnSkeletonStream
  rw [h]
  simp only
  congr 1
  rw [List.foldlM_append, List.foldlM_append]
  cases hp : List.foldlM skeletonBody (w.trackers inst) pre with
  | none => rfl
  | some t1 =>
    simp only [Option.bind_eq_bind, Option.some_bind, List.foldlM_cons]
    obtain ⟨a, b⟩ := foldlM_skeletonBody_ids pre _ t1 hp
    have hu1 : t1.resolve sk.gloveId = none := by
      unfold Tracker.resolve at hu ⊢
      rw [a, b]; exact hu
    rw [skeletonBody_unknown t1 sk hu1]
    rfl

/-- C2 as stated fails when both roles share a device id: after the landscape event
assigning id 7 to Left and to Right, a frame with one skeleton of glove id 7 (which equals
the id assigned to Right) leaves `right_position` and `right_orientation` absent. -/
theorem OnSkeletonStream_shared_id_counterexample :
    sharedIdWorld.s_instance = some 0 ∧
    (sharedIdWorld.trackers 0).roleId Role.Right = some 7 ∧
    ∃ w', OnSkeletonStream sharedIdWorld [⟨7, [mkNode 1 2 3 1 0 0 0]⟩] = some w' ∧
      (w'.trackers 0).output_map "right_position" = none ∧
      (w'.trackers 0).output_map "right_orientation" = none ∧
      ¬ HoldsPositions ((w'.trackers 0).output_map (positionKey Role.Right))
          [mkNode 1 2 3 1 0 0 0] := by
  have hw := OnSkeletonStream_active sharedIdWorld 0 rfl [⟨7, [mkNode 1 2 3 1 0 0 0]⟩]
    (by decide)
  have hp : ((sharedIdWorld.setTracker 0 (List.foldl skeletonEffect (sharedIdWorld.trackers 0)
      [⟨7, [mkNode 1 2 3 1 0 0 0]⟩])).trackers 0).output_map "right_position" = none := by
    decide
  have ho : ((sharedIdWorld.setTracker 0 (List.foldl skeletonEffect (sharedIdWorld.trackers 0)
      [⟨7, [mkNode 1 2 3 1 0 0 0]⟩])).trackers 0).output_map "right_orientation" = none := by
    decide
  refine ⟨rfl, rfl, _, hw, hp, ho, ?_⟩
  rintro ⟨v, hv, _⟩
  have hk : positionKey Role.Right = "right_position" := by decide
  rw [hk, hp] at hv
  exact absurd hv (by simp)

/-- C2, amended: on an active tracker, for a frame whose skeletons have `4 * n < 2^32`,
`OnSkeletonStream` returns, and for each role the last skeleton of the frame whose glove id
resolves to that role (Left when the id is assigned to Left, otherwise Right when it is
assigned to Right) determines the output: `<role>_position` holds exactly the `3 * n`
position components x, y, z per node and `<role>_orientation` exactly the `4 * n` rotation
components w, x, y, z per node; with no such skeleton both entries are unchanged. A skeleton
whose glove id matches neither role changes nothing: the frame without it gives the same
state. -/
theorem OnSkeletonStream_output {α : Type} [Inhabited α] (w : World α) (inst : Nat)
    (h : w.s_instance = some inst) (frame : List (RawSkeleton α))
    (hn : ∀ sk ∈ frame, 4 * sk.nodesCount < 2 ^ 32) :
    ∃ w', OnSkeletonStream w frame = some w' ∧
      (∀ role : Role,
        match lastSkeletonFor (w.trackers inst) role frame with
        | some sk =>
          HoldsPositions ((w'.trackers inst).output_map (positionKey role)) sk.nodes ∧
          HoldsOrientations ((w'.trackers inst).output_map (orientationKey role)) sk.nodes
        | none =>
          (w'.trackers inst).output_map (positionKey role)
              = (w.trackers inst).output_map (positionKey role) ∧
            (w'.trackers inst).output_map (orientationKey role)
              = (w.trackers inst).output_map (orientationKey role)) ∧
      (∀ pre post sk, frame = pre ++ sk :: post →
        (w.trackers inst).resolve sk.gloveId = none →
        OnSkeletonStream w (pre ++ post) = some w') := by
  refine ⟨_, OnSkeletonStream_active w inst h frame hn, ?_, ?_⟩
  · intro role
    rw [setTracker_same, foldl_skeletonEffect_position, foldl_skeletonEffect_orientation]
    cases lastSkeletonFor (w.trackers inst) role frame with
    | none => exact ⟨rfl, rfl⟩
    | some sk => exact ⟨flatPositions_holds sk.nodes, flatOrientations_holds sk.nodes⟩
  · intro pre post sk hf hu
    rw [← OnSkeletonStream_drop_unknown w inst h pre post sk hu, ← hf]
    exact OnSkeletonStream_active w inst h frame hn

/-- C2 at a concrete input: Left id 1 and Right id 2 assigned; the frame holds a skeleton
of glove 1, one of the unknown glove 9, and a second one of glove 1. -/
theorem OnSkeletonStream_output_witness :
    activeWorld.s_instance = some 0 ∧
    (∀ sk ∈ [(⟨1, [mkNode 1 2 3 1 0 0 0]⟩ : RawSkeleton Nat), ⟨9, [mkNode 4 4 4 4 4 4 4]⟩,
        ⟨1, [mkNode 5 6 7 0 1 0 0, mkNode 8 9 10 0 0 1 0]⟩],
      4 * sk.nodesCount < 2 ^ 32) ∧
    ∃ w', OnSkeletonStream activeWorld
        [⟨1, [mkNode 1 2 3 1 0 0 0]⟩, ⟨9, [mkNode 4 4 4 4 4 4 4]⟩,
          ⟨1, [mkNode 5 6 7 0 1 0 0, mkNode 8 9 10 0 0 1 0]⟩] = some w' ∧
      HoldsPositions ((w'.trackers 0).output_map (positionKey Role.Left))
        [mkNode 5 6 7 0 1 0 0, mkNode 8 9 10 0 0 1 0] :=
  ⟨rfl, by decide,
    (OnSkeletonStream_output activeWorld 0 rfl
      [⟨1, [mkNode 1 2 3 1 0 0 0]⟩, ⟨9, [mkNode 4 4 4 4 4 4 4]⟩,
        ⟨1, [mkNode 5 6 7 0 1 0 0, mkNode 8 9 10 0 0 1 0]⟩] (by decide)).imp
      fun _ hw => ⟨hw.1, (hw.2.1 Role.Left).1⟩⟩

/-! ## Stream aggregator: ergonomics events -/

theorem pushBack_loop {α : Type} (m : OutputMap α) (key : String) (data : Nat → α) (n : Nat)
    (v : List α) :
    (List.range n).foldl (fun m j => m.pushBackAt key (data j)) (m.put key v)
      = m.put key (v ++ (List.range n).map data) := by
  induction n with
  | zero => simp
  | succ n ih =>
    rw [List.range_succ, List.foldl_append, ih]
    simp only [List.foldl_cons, List.foldl_nil, OutputMap.pushBackAt, OutputMap.at_put_same,
      OutputMap.put_put_same, List.map_append, List.map_cons, List.map_nil,
      List.append_assoc]

theorem ergonomicsBody_eq {α : Type} (n : Nat) (t : Tracker α) (entry : ErgonomicsData α) :
    ergonomicsBody n t entry = ergonomicsEffect n t entry := by
  unfold ergonomicsBody ergonomicsEffect Tracker.resolve resolveRole
  by_cases hu : entry.isUserID = true
  · simp [hu]
  · simp only [hu, if_false, is_glove_eq, Bool.false_eq_true]
    by_cases hl : t.left_glove_id = some entry.id
    · simp only [hl, decide_True, Bool.not_true, Bool.false_and, if_true, Bool.false_eq_true,
        if_false, OutputMap.clearAt]
      rw [pushBack_loop]
      rfl
    · by_cases hr : t.right_glove_id = some entry.id
      · simp only [hl, hr, decide_True, decide_False, Bool.not_true, Bool.not_false,
          Bool.and_false, if_true, Bool.false_eq_true, if_false, OutputMap.clearAt]
        rw [pushBack_loop]
        rfl
      · simp [hl, hr]

theorem ergonomicsEffect_ids {α : Type} (n : Nat) (t : Tracker α) (e : ErgonomicsData α) :
    (ergonomicsEffect n t e).left_glove_id = t.left_glove_id ∧
      (ergonomicsEffect n t e).right_glove_id = t.right_glove_id ∧
      (ergonomicsEffect n t e).is_connected = t.is_connected := by
  unfold ergonomicsEffect
  split
  · exact ⟨rfl, rfl, rfl⟩
  · cases t.resolve e.id <;> exact ⟨rfl, rfl, rfl⟩

theorem foldl_ergonomicsEffect_ids {α : Type} (n : Nat) (data : List (ErgonomicsData α))
    (t : Tracker α) :
    (data.foldl (ergonomicsEffect n) t).left_glove_id = t.left_glove_id ∧
      (data.foldl (ergonomicsEffect n) t).right_glove_id = t.right_glove_id ∧
      (data.foldl (ergonomicsEffect n) t).is_connected = t.is_connected := by
  induction data generalizing t with
  | nil => exact ⟨rfl, rfl, rfl⟩
  | cons e rest ih =>
    rw [List.foldl_cons]
    obtain ⟨h1, h2, h3⟩ := ih (ergonomicsEffect n t e)
    obtain ⟨g1, g2, g3⟩ := ergonomicsEffect_ids n t e
    exact ⟨h1.trans g1, h2.trans g2, h3.trans g3⟩

theorem foldl_ergonomicsEffect_resolve {α : Type} (n : Nat) (data : List (ErgonomicsData α))
    (t : Tracker α) (glove_id : Nat) :
    (data.foldl (ergonomicsEffect n) t).resolve glove_id = t.resolve glove_id := by
  obtain ⟨h1, h2, _⟩ := foldl_ergonomicsEffect_ids n data t
  unfold Tracker.resolve
  rw [h1, h2]

theorem angleKey_inj (r r' : Role) : angleKey r = angleKey r' ↔ r = r' := by
  cases r <;> cases r' <;> decide

theorem ergonomicsEffect_angle {α : Type} (n : Nat) (t : Tracker α) (e : ErgonomicsData α)
    (role : Role) :
    (ergonomicsEffect n t e).output_map (angleKey role)
      = if (!e.isUserID && decide (t.resolve e.id = some role)) = true
        then some ((List.range n).map e.data)
        else t.output_map (angleKey role) := by
  unfold ergonomicsEffect
  by_cases hu : e.isUserID = true
  · simp [hu]
  · cases hr : t.resolve e.id with
    | none => simp [hu]
    | some r =>
      simp only [hu, if_false, OutputMap.put, angleKey_inj, Bool.not_false, Bool.true_and,
        decide_eq_true_eq, Option.some.injEq, Bool.false_eq_true]
      by_cases h : role = r
      · subst h; simp
      · have h' : ¬ r = role := fun e => h e.symm
        simp [h, h']

theorem lastEntryFor_concat {α : Type} (t : Tracker α) (role : Role)
    (data : List (ErgonomicsData α)) (e : ErgonomicsData α) :
    lastEntryFor t role (data ++ [e])
      = if (!e.isUserID && decide (t.resolve e.id = some role)) = true then some e
        else lastEntryFor t role data := by
  unfold lastEntryFor
  rw [List.filter_append]
  by_cases h : (!e.isUserID && decide (t.resolve e.id = some role)) = true
  · simp [h, List.filter_cons]
  · simp [h, List.filter_cons]

theorem foldl_ergonomicsEffect_angle {α : Type} (n : Nat) (data : List (ErgonomicsData α))
    (t : Tracker α) (role : Role) :
    (data.foldl (ergonomicsEffect n) t).output_map (angleKey role)
      = match lastEntryFor t role data with
        | some e => some ((List.range n).map e.data)
        | none => t.output_map (angleKey role) := by
  induction data using List.reverseRecOn with
  | nil => rfl
  | append_singleton l e ih =>
    rw [List.foldl_append, List.foldl_cons, List.foldl_nil, ergonomicsEffect_angle,
      foldl_ergonomicsEffect_resolve, lastEntryFor_concat, ih]
    by_cases h : (!e.isUserID && decide (t.resolve e.id = some role)) = true <;> simp [h]

theorem OnErgonomicsStream_active {α : Type} (n : Nat) (w : World α) (inst : Nat)
    (h : w.s_instance = some inst) (stream : ErgonomicsStream α) :
    OnErgonomicsStream n w stream
      = w.setTracker inst (stream.data.foldl (ergonomicsEffect n) (w.trackers inst)) := by
  unfold OnErgonomicsStream
  rw [h]
  simp only
  congr 1
  congr 1
  funext t e
  exact ergonomicsBody_eq n t e

theorem range_map_holds {α : Type} (n : Nat) (data : Nat → α) :
    HoldsAngles (some ((List.range n).map data)) n data := by
  refine ⟨_, rfl, by simp, ?_⟩
  intro j hj
  simp [List.getElem?_map, List.getElem?_range hj]

theorem ergonomicsEffect_skip {α : Type} (n : Nat) (t : Tracker α) (e : ErgonomicsData α)
    (hs : e.isUserID = true ∨ t.resolve e.id = none) : ergonomicsEffect n t e = t := by
  unfold ergonomicsEffect
  rcases hs with hs | hs
  · simp [hs]
  · simp [hs]

theorem OnErgonomicsStream_drop_skipped {α : Type} (n : Nat) (w : World α) (inst : Nat)
    (h : w.s_instance = some inst) (pre post : List (ErgonomicsData α))
    (e : ErgonomicsData α)
    (hs : e.isUserID = true ∨ (w.trackers inst).resolve e.id = none) :
    OnErgonomicsStream n w ⟨pre ++ e :: post⟩ = OnErgonomicsStream n w ⟨pre ++ post⟩ := by
  rw [OnErgonomicsStream_active n w inst h, OnErgonomicsStream_active n w inst h]
  simp only [List.foldl_append, List.foldl_cons]
  rw [ergonomicsEffect_skip]
  rw [foldl_ergonomicsEffect_resolve]
  exact hs

/-- C3 as stated fails when both roles share a device id: after the landscape event
assigning id 7 to Left and to Right, a non-user entry of id 7 (which equals the id assigned
to Right) leaves `right_angle` absent. -/
theorem OnErgonomicsStream_shared_id_counterexample :
    sharedIdWorld.s_instance = some 0 ∧
    (sharedIdWorld.trackers 0).roleId Role.Right = some 7 ∧
    (mkEntry 7 false).isUserID = false ∧
    ((OnErgonomicsStream 3 sharedIdWorld ⟨[mkEntry 7 false]⟩).trackers 0).output_map
        "right_angle" = none ∧
    ¬ HoldsAngles
        (((OnErgonomicsStream 3 sharedIdWorld ⟨[mkEntry 7 false]⟩).trackers 0).output_map
          (angleKey Role.Right)) 3 (mkEntry 7 false).data := by
  have hp : ((OnErgonomicsStream 3 sharedIdWorld ⟨[mkEntry 7 false]⟩).trackers 0).output_map
      "right_angle" = none := by decide
  refine ⟨rfl, rfl, rfl, hp, ?_⟩
  rintro ⟨v, hv, _⟩
  have hk : angleKey Role.Right = "right_angle" := by decide
  rw [hk, hp] at hv
  exact absurd hv (by simp)

/-- C3, amended: on an active tracker, for each role the last entry of the event that is
not flagged `isUserID` and whose id resolves to that role (Left when the id is assigned to
Left, otherwise Right when it is assigned to Right) determines the output: `<role>_angle`
holds exactly the `ErgonomicsDataType_MAX_SIZE` elements of that entry's data vector, in
order; with no such entry `<role>_angle` is unchanged. An entry flagged `isUserID`, whatever
its id, and an entry whose id matches neither role change nothing: the event without it
gives the same state. -/
theorem OnErgonomicsStream_output {α : Type} (ErgonomicsDataType_MAX_SIZE : Nat)
    (w : World α) (inst : Nat) (h : w.s_instance = some inst) (stream : ErgonomicsStream α) :
    (∀ role : Role,
      match lastEntryFor (w.trackers inst) role stream.data with
      | some e =>
        HoldsAngles
          (((OnErgonomicsStream ErgonomicsDataType_MAX_SIZE w stream).trackers inst).output_map
            (angleKey role))
          ErgonomicsDataType_MAX_SIZE e.data
      | none =>
        ((OnErgonomicsStream ErgonomicsDataType_MAX_SIZE w stream).trackers inst).output_map
            (angleKey role)
          = (w.trackers inst).output_map (angleKey role)) ∧
    (∀ pre post e, stream.data = pre ++ e :: post →
      (e.isUserID = true ∨ (w.trackers inst).resolve e.id = none) →
      OnErgonomicsStream ErgonomicsDataType_MAX_SIZE w ⟨pre ++ post⟩
        = OnErgonomicsStream ErgonomicsDataType_MAX_SIZE w stream) := by
  refine ⟨?_, ?_⟩
  · intro role
    rw [OnErgonomicsStream_active _ w inst h, setTracker_same, foldl_ergonomicsEffect_angle]
    cases lastEntryFor (w.trackers inst) role stream.data with
    | none => rfl
    | some e => exact range_map_holds _ _
  · intro pre post e hf hs
    rw [← OnErgonomicsStream_drop_skipped _ w inst h pre post e hs, ← hf]

/-- C3 at a concrete input: Left id 1 and Right id 2 assigned; the event holds a user entry
of id 1, an entry of the unknown id 9 and an entry of id 2, with a vector length of 3. -/
theorem OnErgonomicsStream_output_witness :
    activeWorld.s_instance = some 0 ∧
    HoldsAngles
      (((OnErgonomicsStream 3 activeWorld
          ⟨[mkEntry 1 true, mkEntry 9 false, mkEntry 2 false]⟩).trackers 0).output_map
        (angleKey Role.Right)) 3 (mkEntry 2 false).data ∧
    ((OnErgonomicsStream 3 activeWorld
          ⟨[mkEntry 1 true, mkEntry 9 false, mkEntry 2 false]⟩).trackers 0).output_map
        (angleKey Role.Left) = none :=
  ⟨rfl,
    (OnErgonomicsStream_output 3 activeWorld 0 rfl
      ⟨[mkEntry 1 true, mkEntry 9 false, mkEntry 2 false]⟩).1 Role.Right,
    (OnErgonomicsStream_output 3 activeWorld 0 rfl
      ⟨[mkEntry 1 true, mkEntry 9 false, mkEntry 2 false]⟩).1 Role.Left⟩

/-! ## End to end -/

/-- C4: on an active tracker with an empty output store (whatever its role map, the empty
one included), after the landscape event reporting the glove (id 7, Left) and the skeleton
frame with one skeleton of glove 7 with 2 nodes, positions (1,2,3), (4,5,6) and rotations
(1,0,0,0), (0,1,0,0), `get_glove_data` returns a map with `left_position = [1,2,3,4,5,6]`,
`left_orientation = [1,0,0,0,0,1,0,0]` and no other key. -/
theorem end_to_end_left_glove (w : World ℚ) (inst : Nat) (h : w.s_instance = some inst)
    (ho : (w.trackers inst).output_map = OutputMap.empty) :
    ∃ w', OnSkeletonStream (OnLandscapeStream w ⟨[⟨7, Side.Side_Left⟩]⟩)
        [⟨7, [mkNode 1 2 3 1 0 0 0, mkNode 4 5 6 0 1 0 0]⟩] = some w' ∧
      (get_glove_data w' inst).2 "left_position" = some [1, 2, 3, 4, 5, 6] ∧
      (get_glove_data w' inst).2 "left_orientation" = some [1, 0, 0, 0, 0, 1, 0, 0] ∧
      ∀ key, key ≠ "left_position" → key ≠ "left_orientation" →
        (get_glove_data w' inst).2 key = none := by
  have hs : (OnLandscapeStream w ⟨[⟨7, Side.Side_Left⟩]⟩).s_instance = some inst := by
    rw [OnLandscapeStream_s_instance, h]
  have ht : (OnLandscapeStream w ⟨[⟨7, Side.Side_Left⟩]⟩).trackers inst
      = { w.trackers inst with left_glove_id := some 7 } := by
    rw [OnLandscapeStream_active w inst h]
    rfl
  refine ⟨_, OnSkeletonStream_active _ inst hs _ (by decide), ?_⟩
  have he : List.foldl skeletonEffect
      ((OnLandscapeStream w ⟨[⟨7, Side.Side_Left⟩]⟩).trackers inst)
      [⟨7, [mkNode 1 2 3 1 0 0 0, mkNode 4 5 6 0 1 0 0]⟩]
      = { w.trackers inst with
          left_glove_id := some 7
          output_map := (OutputMap.empty.put "left_position" [1, 2, 3, 4, 5, 6]).put
            "left_orientation" [1, 0, 0, 0, 0, 1, 0, 0] } := by
    rw [ht, List.foldl_cons, List.foldl_nil]
    simp only [skeletonEffect, Tracker.resolve, resolveRole, if_true, ho]
    rfl
  simp only [get_glove_data, setTracker_same, he]
  refine ⟨by decide, by decide, ?_⟩
  intro key h1 h2
  simp [OutputMap.put, OutputMap.empty, h1, h2]

/-- C4 at the process in which tracker 0 is active and nothing else happened. -/
theorem end_to_end_left_glove_witness :
    (World.freshActive 0 : World ℚ).s_instance = some 0 ∧
    ((World.freshActive 0 : World ℚ).trackers 0).left_glove_id = none ∧
    ((World.freshActive 0 : World ℚ).trackers 0).right_glove_id = none ∧
    ((World.freshActive 0 : World ℚ).trackers 0).output_map = OutputMap.empty ∧
    ∃ w', OnSkeletonStream
        (OnLandscapeStream (World.freshActive 0 : World ℚ) ⟨[⟨7, Side.Side_Left⟩]⟩)
        [⟨7, [mkNode 1 2 3 1 0 0 0, mkNode 4 5 6 0 1 0 0]⟩] = some w' ∧
      (get_glove_data w' 0).2 "left_position" = some [1, 2, 3, 4, 5, 6] :=
  ⟨rfl, rfl, rfl, rfl,
    (end_to_end_left_glove (World.freshActive 0) 0 rfl rfl).imp
      fun _ hw => ⟨hw.1, hw.2.1⟩⟩

/-! ## Snapshot accessor -/

/-- C5: `get_glove_data` returns the current output store of the tracker and leaves the
whole process state unchanged; two calls in a row return equal maps; on a tracker that has
processed no event it returns the empty map. -/
theorem get_glove_data_snapshot {α : Type} (w : World α) (this : Nat) :
    (get_glove_data w this).2 = (w.trackers this).output_map ∧
    (get_glove_data w this).1 = w ∧
    (get_glove_data (get_glove_data w this).1 this).2 = (get_glove_data w this).2 ∧
    (get_glove_data (World.fresh : World α) this).2 = OutputMap.empty ∧
    (get_glove_data (World.freshActive this : World α) this).2 = OutputMap.empty :=
  ⟨rfl, rfl, rfl, rfl, rfl⟩

/-! ## Connection lifecycle: discovery with retry -/

theorem World.log_nil {α : Type} (w : World α) : w.log [] = w := by
  simp [World.log]

theorem World.log_log {α : Type} (w : World α) (a b : List SdkEvent) :
    (w.log a).log b = w.log (a ++ b) := by
  simp [World.log]

theorem connectLoop_exit {α : Type} (script : Nat → AttemptResponse) (this : Nat)
    (s : ConnectState α) (h : ¬ (s.connected = false ∧ s.attempts < max_attempts)) :
    connectLoop script this s = s := by
  rw [connectLoop, dif_neg h]

theorem connectLoop_fail {α : Type} (script : Nat → AttemptResponse) (this : Nat)
    (s : ConnectState α) (hc : s.connected = false) (ha : s.attempts < max_attempts)
    (hf : attemptSucceeds (script (s.attempts + 1)) = false) :
    connectLoop script this s
      = connectLoop script this
          { world := s.world.log (connectAttempt (script (s.attempts + 1))).1,
            connected := false, attempts := s.attempts + 1 } := by
  unfold attemptSucceeds at hf
  rw [connectLoop, dif_pos ⟨hc, ha⟩]
  simp only [hf, hc, Bool.false_eq_true, if_false]

theorem connectLoop_success {α : Type} (script : Nat → AttemptResponse) (this : Nat)
    (s : ConnectState α) (hc : s.connected = false) (ha : s.attempts < max_attempts)
    (hf : attemptSucceeds (script (s.attempts + 1)) = true) :
    connectLoop script this s
      = { world := (s.world.log (connectAttempt (script (s.attempts + 1))).1).setTracker this
            { (s.world.log (connectAttempt (script (s.attempts + 1))).1).trackers this with
              is_connected := true },
          connected := true, attempts := s.attempts + 1 } := by
  unfold attemptSucceeds at hf
  rw [connectLoop, dif_pos ⟨hc, ha⟩]
  simp only [hf, if_true]
  rw [connectLoop_exit]
  simp

theorem attemptsTrace_succ (script : Nat → AttemptResponse) (first n : Nat) :
    attemptsTrace script first (n + 1)
      = attemptsTrace script first n ++ (connectAttempt (script (first + n + 1))).1 := by
  simp [attemptsTrace, List.range_succ, List.flatMap_append]

theorem connectLoop_failed_run {α : Type} (script : Nat → AttemptResponse) (this : Nat)
    (n : Nat) (s : ConnectState α) (hc : s.connected = false)
    (hb : s.attempts + n ≤ max_attempts)
    (hf : ∀ k, s.attempts < k → k ≤ s.attempts + n → attemptSucceeds (script k) = false) :
    connectLoop script this s
      = connectLoop script this
          { world := s.world.log (attemptsTrace script s.attempts n),
            connected := false, attempts := s.attempts + n } := by
  induction n with
  | zero =>
    congr 1
    cases s
    simp only [attemptsTrace, List.range_zero, List.flatMap_nil, World.log_nil, Nat.add_zero]
      at hc ⊢
    rw [hc]
  | succ n ih =>
    rw [ih (by omega) (fun k h1 h2 => hf k h1 (by omega))]
    rw [connectLoop_fail script this _ rfl (by simp only; omega)
      (hf _ (by simp only; omega) (by simp only; omega))]
    simp only [World.log_log, attemptsTrace_succ]
    rfl

theorem connectLoop_never {α : Type} (script : Nat → AttemptResponse) (this : Nat)
    (w : World α)
    (hf : ∀ k, 1 ≤ k → k ≤ max_attempts → attemptSucceeds (script k) = false) :
    connectLoop script this { world := w, connected := false, attempts := 0 }
      = { world := w.log (attemptsTrace script 0 max_attempts), connected := false,
          attempts := max_attempts } := by
  rw [connectLoop_failed_run script this max_attempts _ rfl (by simp)
    (fun k h1 h2 => hf k (by simp only at h1; omega) (by simp only at h2; omega))]
  rw [connectLoop_exit _ _ _ (by simp)]
  simp

theorem connectLoop_first {α : Type} (script : Nat → AttemptResponse) (this : Nat)
    (w : World α) (k : Nat) (h1 : 1 ≤ k) (hk : k ≤ max_attempts)
    (hs : attemptSucceeds (script k) = true)
    (hf : ∀ j, 1 ≤ j → j < k → attemptSucceeds (script j) = false) :
    connectLoop script this { world := w, connected := false, attempts := 0 }
      = { world := (w.log (attemptsTrace script 0 k)).setTracker this
            { w.trackers this with is_connected := true },
          connected := true, attempts := k } := by
  obtain ⟨n, rfl⟩ : ∃ n, k = n + 1 := ⟨k - 1, by omega⟩
  rw [connectLoop_failed_run script this n _ rfl (by simp only; omega)
    (fun j h1 h2 => hf j (by simp only at h1; omega) (by simp only at h2; omega))]
  rw [connectLoop_success script this _ rfl (by simp only; omega)
    (by simpa using hs)]
  simp only [World.log_log, attemptsTrace_succ, Nat.zero_add]
  rfl

theorem totalDelay_append (a b : List SdkEvent) :
    totalDelay (a ++ b) = totalDelay a + totalDelay b := by
  induction a with
  | nil => simp [totalDelay]
  | cons e rest ih => cases e <;> simp [totalDelay, ih, Nat.add_assoc]

theorem countAttempts_append (a b : List SdkEvent) :
    countAttempts (a ++ b) = countAttempts a + countAttempts b := by
  induction a with
  | nil => simp [countAttempts]
  | cons e rest ih => cases e <;> simp [countAttempts, ih, Nat.add_assoc]

theorem connectAttempt_count (a : AttemptResponse) : countAttempts (connectAttempt a).1 = 1 := by
  unfold connectAttempt
  split_ifs <;> rfl

theorem connectAttempt_failed (a : AttemptResponse) (h : attemptSucceeds a = false) :
    (connectAttempt a).1.getLast? = some (SdkEvent.sleep_for retry_delay) ∧
      totalDelay (connectAttempt a).1 = retry_delay := by
  unfold attemptSucceeds connectAttempt at h
  unfold connectAttempt
  split_ifs at h ⊢ <;> exact ⟨rfl, rfl⟩

theorem connectAttempt_succeeded (a : AttemptResponse) (h : attemptSucceeds a = true) :
    totalDelay (connectAttempt a).1 = 0 := by
  unfold attemptSucceeds connectAttempt at h
  unfold connectAttempt
  split_ifs at h ⊢
  rfl

theorem attemptsTrace_count (script : Nat → AttemptResponse) (first n : Nat) :
    countAttempts (attemptsTrace script first n) = n := by
  induction n with
  | zero => rfl
  | succ n ih => rw [attemptsTrace_succ, countAttempts_append, ih, connectAttempt_count]

theorem attemptsTrace_delay_failed (script : Nat → AttemptResponse) (first n : Nat)
    (hf : ∀ k, first < k → k ≤ first + n → attemptSucceeds (script k) = false) :
    totalDelay (attemptsTrace script first n) = retry_delay * n := by
  induction n with
  | zero => rfl
  | succ n ih =>
    rw [attemptsTrace_succ, totalDelay_append, ih (fun k h1 h2 => hf k h1 (by omega)),
      (connectAttempt_failed _ (hf (first + n + 1) (by omega) (by omega))).2]
    rw [Nat.mul_succ]

theorem attemptsTrace_delay_first (script : Nat → AttemptResponse) (k : Nat) (h1 : 1 ≤ k)
    (hs : attemptSucceeds (script k) = true)
    (hf : ∀ j, 1 ≤ j → j < k → attemptSucceeds (script j) = false) :
    totalDelay (attemptsTrace script 0 k) = retry_delay * (k - 1) := by
  obtain ⟨n, rfl⟩ : ∃ n, k = n + 1 := ⟨k - 1, by omega⟩
  rw [attemptsTrace_succ, totalDelay_append,
    attemptsTrace_delay_failed script 0 n (fun j h1 h2 => hf j (by omega) (by omega)),
    connectAttempt_succeeded _ (by simpa using hs)]
  simp

theorem ConnectToGloves_first {α : Type} (w : World α) (this : Nat)
    (script : Nat → AttemptResponse) (k : Nat) (h1 : 1 ≤ k) (hk : k ≤ max_attempts)
    (hs : attemptSucceeds (script k) = true)
    (hf : ∀ j, 1 ≤ j → j < k → attemptSucceeds (script j) = false) :
    ConnectToGloves w this script
      = ((w.log (attemptsTrace script 0 k)).setTracker this
            { w.trackers this with is_connected := true }, k, none) := by
  unfold ConnectToGloves
  rw [connectLoop_first script this w k h1 hk hs hf]
  rfl

theorem ConnectToGloves_never {α : Type} (w : World α) (this : Nat)
    (script : Nat → AttemptResponse)
    (hf : ∀ k, 1 ≤ k → k ≤ max_attempts → attemptSucceeds (script k) = false) :
    ConnectToGloves w this script
      = (w.log (attemptsTrace script 0 max_attempts), max_attempts,
          some "Failed to connect to Manus gloves") := by
  unfold ConnectToGloves
  rw [connectLoop_never script this w hf]
  rfl

theorem first_success (script : Nat → AttemptResponse)
    (h : ∃ k, 1 ≤ k ∧ k ≤ max_attempts ∧ attemptSucceeds (script k) = true) :
    ∃ k, 1 ≤ k ∧ k ≤ max_attempts ∧ attemptSucceeds (script k) = true ∧
      ∀ j, 1 ≤ j → j < k → attemptSucceeds (script j) = false := by
  classical
  refine ⟨Nat.find h, (Nat.find_spec h).1, (Nat.find_spec h).2.1, (Nat.find_spec h).2.2, ?_⟩
  intro j hj1 hjk
  have hmin := Nat.find_min h hjk
  have hle : j ≤ max_attempts := by
    have := (Nat.find_spec h).2.1
    omega
  cases hv : attemptSucceeds (script j) with
  | false => rfl
  | true => exact absurd ⟨hj1, hle, hv⟩ hmin

theorem ConnectToGloves_succeeds_iff {α : Type} (w : World α) (this : Nat)
    (script : Nat → AttemptResponse) :
    (ConnectToGloves w this script).2.2 = none ↔
      ∃ k, 1 ≤ k ∧ k ≤ max_attempts ∧ attemptSucceeds (script k) = true := by
  constructor
  · intro hnone
    by_contra hno
    have hf : ∀ k, 1 ≤ k → k ≤ max_attempts → attemptSucceeds (script k) = false := by
      intro k h1 h2
      cases hv : attemptSucceeds (script k) with
      | false => rfl
      | true => exact absurd ⟨k, h1, h2, hv⟩ hno
    rw [ConnectToGloves_never w this script hf] at hnone
    simp at hnone
  · intro h
    obtain ⟨k, h1, hk, hs, hf⟩ := first_success script h
    rw [ConnectToGloves_first w this script k h1 hk hs hf]

theorem initializeTracker_connect {α : Type} (w : World α) (this : Nat) (sdk : SdkResponses)
    (h0 : w.s_instance = none)
    (hi : sdk.initializeIntegrated = SDKReturnCode.SDKReturnCode_Success)
    (hc : sdk.initializeCoordinateSystem = SDKReturnCode.SDKReturnCode_Success) :
    initializeTracker w this sdk
      = match ConnectToGloves (afterSetup w this) this sdk.attempt with
        | (w', _, some what) => (w', Outcome.threw what)
        | (w', _, none) => (w', Outcome.returned true) := by
  unfold initializeTracker
  simp only [h0, hi, hc, ne_eq, not_true_eq_false, if_false]
  rfl

/-- C6: the discovery loop of `ConnectToGloves` makes exactly `k` attempts when attempt
`k <= 30` is the first successful one, marks the tracker connected and does not throw; it
makes exactly 30 attempts and throws the connection failure when none of the attempts
1..30 succeeds; it succeeds if and only if one of the attempts 1..30 succeeds. Each failed
attempt ends with one delay of 1000 ms and a successful attempt has none, so the delays add
up to `1000 * (k - 1)` ms and to 30000 ms respectively. `initialize`, once SDK startup and
coordinate setup succeeded, returns true in the first case and throws in the second. -/
theorem ConnectToGloves_retry {α : Type} (w : World α) (this : Nat) (sdk : SdkResponses) :
    (∀ k, 1 ≤ k → k ≤ 30 → attemptSucceeds (sdk.attempt k) = true →
      (∀ j, 1 ≤ j → j < k → attemptSucceeds (sdk.attempt j) = false) →
      (ConnectToGloves w this sdk.attempt).2 = (k, none) ∧
      ((ConnectToGloves w this sdk.attempt).1.trackers this).is_connected = true ∧
      (ConnectToGloves w this sdk.attempt).1.trace
        = w.trace ++ attemptsTrace sdk.attempt 0 k ∧
      countAttempts (attemptsTrace sdk.attempt 0 k) = k ∧
      totalDelay (attemptsTrace sdk.attempt 0 k) = 1000 * (k - 1)) ∧
    ((∀ k, 1 ≤ k → k ≤ 30 → attemptSucceeds (sdk.attempt k) = false) →
      (ConnectToGloves w this sdk.attempt).2
        = (30, some "Failed to connect to Manus gloves") ∧
      ((ConnectToGloves w this sdk.attempt).1.trackers this).is_connected
        = (w.trackers this).is_connected ∧
      (ConnectToGloves w this sdk.attempt).1.trace
        = w.trace ++ attemptsTrace sdk.attempt 0 30 ∧
      countAttempts (attemptsTrace sdk.attempt 0 30) = 30 ∧
      totalDelay (attemptsTrace sdk.attempt 0 30) = 30000) ∧
    ((ConnectToGloves w this sdk.attempt).2.2 = none ↔
      ∃ k, 1 ≤ k ∧ k ≤ 30 ∧ attemptSucceeds (sdk.attempt k) = true) ∧
    (∀ a : AttemptResponse,
      (attemptSucceeds a = false →
        (connectAttempt a).1.getLast? = some (SdkEvent.sleep_for 1000) ∧
        totalDelay (connectAttempt a).1 = 1000) ∧
      (attemptSucceeds a = true → totalDelay (connectAttempt a).1 = 0)) ∧
    (w.s_instance = none →
      sdk.initializeIntegrated = SDKReturnCode.SDKReturnCode_Success →
      sdk.initializeCoordinateSystem = SDKReturnCode.SDKReturnCode_Success →
      ((initializeTracker w this sdk).2 = Outcome.returned true ↔
        ∃ k, 1 ≤ k ∧ k ≤ 30 ∧ attemptSucceeds (sdk.attempt k) = true) ∧
      ((∀ j, 1 ≤ j → j < 30 → attemptSucceeds (sdk.attempt j) = false) →
        attemptSucceeds (sdk.attempt 30) = true →
        (initializeTracker w this sdk).2 = Outcome.returned true) ∧
      ((∀ k, 1 ≤ k → k ≤ 30 → attemptSucceeds (sdk.attempt k) = false) →
        (initializeTracker w this sdk).2
          = Outcome.threw "Failed to connect to Manus gloves")) := by
  refine ⟨?_, ?_, ?_, ?_, ?_⟩
  · intro k h1 hk hs hf
    rw [ConnectToGloves_first w this sdk.attempt k h1 hk hs hf]
    refine ⟨rfl, by simp [World.setTracker], rfl, attemptsTrace_count _ _ _, ?_⟩
    exact attemptsTrace_delay_first sdk.attempt k h1 hs hf
  · intro hf
    rw [ConnectToGloves_never w this sdk.attempt hf]
    refine ⟨rfl, rfl, rfl, attemptsTrace_count _ _ _, ?_⟩
    exact attemptsTrace_delay_failed sdk.attempt 0 30 (fun k h1 h2 => hf k (by omega) (by omega))
  · exact ConnectToGloves_succeeds_iff w this sdk.attempt
  · intro a
    exact ⟨connectAttempt_failed a, connectAttempt_succeeded a⟩
  · intro h0 hi hc
    have hiff := ConnectToGloves_succeeds_iff (afterSetup w this) this sdk.attempt
    have hinit := initializeTracker_connect w this sdk h0 hi hc
    refine ⟨?_, ?_, ?_⟩
    · refine Iff.trans ?_ hiff
      rw [hinit]
      rcases hr : ConnectToGloves (afterSetup w this) this sdk.attempt with ⟨w', n, _ | what⟩
      · simp
      · simp
    · intro hf hs
      rw [hinit, ConnectToGloves_first (afterSetup w this) this sdk.attempt 30 (by omega)
        (le_refl _) hs hf]
    · intro hf
      rw [hinit, ConnectToGloves_never (afterSetup w this) this sdk.attempt hf]

/-- C6 at concrete inputs: an SDK that fails on the attempts 1..29 and succeeds on attempt
30 makes `initialize` return true after 30 attempts; an SDK that never succeeds makes it
throw after 30 attempts and 30000 ms of delay. -/
theorem ConnectToGloves_retry_witness :
    (World.fresh : World Nat).s_instance = none ∧
    (∀ j, 1 ≤ j → j < 30 → attemptSucceeds ((sdkSucceedingAt 30).attempt j) = false) ∧
    attemptSucceeds ((sdkSucceedingAt 30).attempt 30) = true ∧
    (initializeTracker (World.fresh : World Nat) 0 (sdkSucceedingAt 30)).2
      = Outcome.returned true ∧
    (ConnectToGloves (World.fresh : World Nat) 0 (sdkSucceedingAt 30).attempt).2 = (30, none) ∧
    (∀ k, 1 ≤ k → k ≤ 30 → attemptSucceeds (sdkNeverConnecting.attempt k) = false) ∧
    (initializeTracker (World.fresh : World Nat) 0 sdkNeverConnecting).2
      = Outcome.threw "Failed to connect to Manus gloves" ∧
    totalDelay (attemptsTrace sdkNeverConnecting.attempt 0 30) = 30000 :=
  have hA : ∀ j, 1 ≤ j → j < 30 → attemptSucceeds ((sdkSucceedingAt 30).attempt j) = false :=
    fun j _ h => by simp [sdkSucceedingAt, h]; rfl
  have hB : attemptSucceeds ((sdkSucceedingAt 30).attempt 30) = true := by decide
  have hC : ∀ k, 1 ≤ k → k ≤ 30 → attemptSucceeds (sdkNeverConnecting.attempt k) = false :=
    fun _ _ _ => rfl
  ⟨rfl, hA, hB,
    ((ConnectToGloves_retry World.fresh 0 (sdkSucceedingAt 30)).2.2.2.2 rfl rfl rfl).2.1 hA hB,
    ((ConnectToGloves_retry World.fresh 0 (sdkSucceedingAt 30)).1 30 (by decide) (by decide)
      hB hA).1,
    hC,
    ((ConnectToGloves_retry World.fresh 0 sdkNeverConnecting).2.2.2.2 rfl rfl rfl).2.2 hC,
    ((ConnectToGloves_retry (World.fresh : World Nat) 0 sdkNeverConnecting).2.1 hC).2.2.2.2⟩

/-- C7 as stated fails for a connect result that is neither Success nor NotConnected: with
the host scan, host count (1) and host list succeeding and connect-to-host returning another
code, the first attempt counts as successful: the loop ends after 1 attempt without a delay
and the tracker is marked connected. -/
theorem connect_other_code_counterexample :
    otherConnectAttempt.connectToHost ≠ SDKReturnCode.SDKReturnCode_Success ∧
    otherConnectAttempt.connectToHost ≠ SDKReturnCode.SDKReturnCode_NotConnected ∧
    attemptSucceeds otherConnectAttempt = true ∧
    (ConnectToGloves (World.fresh : World Nat) 0 fun _ => otherConnectAttempt).2
      = (1, none) ∧
    ((ConnectToGloves (World.fresh : World Nat) 0 fun _ => otherConnectAttempt).1.trackers
      0).is_connected = true ∧
    (ConnectToGloves (World.fresh : World Nat) 0 fun _ => otherConnectAttempt).1.trace
      = [SdkEvent.CoreSdk_LookForHosts 1 false,
          SdkEvent.CoreSdk_GetNumberOfAvailableHostsFound,
          SdkEvent.CoreSdk_GetAvailableHostsFound 1,
          SdkEvent.CoreSdk_ConnectToHost ⟨0⟩] := by
  have h := ConnectToGloves_first (World.fresh : World Nat) 0 (fun _ => otherConnectAttempt) 1
    (le_refl _) (by decide) (by decide) (fun j h1 h2 => by omega)
  rw [h]
  exact ⟨by decide, by decide, by decide, rfl, rfl, rfl⟩

/-- C7, amended: an attempt of the discovery loop counts as successful exactly when the
host scan returns Success, the host-count query returns Success with a count of at least 1,
the host-list fetch returns Success, and connect-to-host on the first host returns anything
other than NotConnected. A successful attempt ends with the connect call, marks the tracker
connected and ends the loop. For every other outcome the attempt counts as failed: it
changes no tracker, ends with the 1000 ms delay, and the loop goes on with the next
attempt. -/
theorem connectAttempt_success_iff {α : Type} (a : AttemptResponse) :
    (attemptSucceeds a = true ↔
      a.lookForHosts = SDKReturnCode.SDKReturnCode_Success ∧
      a.getNumberOfAvailableHostsFound = SDKReturnCode.SDKReturnCode_Success ∧
      1 ≤ a.number_of_hosts_found ∧
      a.getAvailableHostsFound = SDKReturnCode.SDKReturnCode_Success ∧
      a.connectToHost ≠ SDKReturnCode.SDKReturnCode_NotConnected) ∧
    (attemptSucceeds a = true →
      (connectAttempt a).1.getLast? = some (SdkEvent.CoreSdk_ConnectToHost a.firstHost) ∧
      ∀ (script : Nat → AttemptResponse) (this : Nat) (s : ConnectState α),
        s.connected = false → s.attempts < 30 → script (s.attempts + 1) = a →
        connectLoop script this s
          = { world := (s.world.log (connectAttempt a).1).setTracker this
                { s.world.trackers this with is_connected := true },
              connected := true, attempts := s.attempts + 1 }) ∧
    (attemptSucceeds a = false →
      (connectAttempt a).1.getLast? = some (SdkEvent.sleep_for 1000) ∧
      ∀ (script : Nat → AttemptResponse) (this : Nat) (s : ConnectState α),
        s.connected = false → s.attempts < 30 → script (s.attempts + 1) = a →
        (s.world.log (connectAttempt a).1).trackers = s.world.trackers ∧
        connectLoop script this s
          = connectLoop script this
              { world := s.world.log (connectAttempt a).1, connected := false,
                attempts := s.attempts + 1 }) := by
  refine ⟨?_, ?_, ?_⟩
  · unfold attemptSucceeds connectAttempt
    constructor
    · intro h
      split_ifs at h with h1 h2 h3 h4 h5
      exact ⟨not_not.mp h1, not_not.mp h2, by omega, not_not.mp h4, h5⟩
    · rintro ⟨h1, h2, h3, h4, h5⟩
      have h3' : ¬ a.number_of_hosts_found = 0 := by omega
      simp [h1, h2, h3', h4, h5]
  · intro hs
    refine ⟨?_, ?_⟩
    · unfold attemptSucceeds connectAttempt at hs
      unfold connectAttempt
      split_ifs at hs ⊢
      rfl
    · intro script this s hc ha he
      subst he
      rw [connectLoop_success script this s hc ha hs]
      rfl
  · intro hf
    refine ⟨(connectAttempt_failed a hf).1, ?_⟩
    intro script this s hc ha he
    subst he
    exact ⟨rfl, connectLoop_fail script this s hc ha hf⟩

/-- C7 at concrete inputs: a failed host scan is a failed attempt, and an attempt whose
calls all return Success is a successful one. -/
theorem connectAttempt_success_iff_witness :
    attemptSucceeds failingAttempt = false ∧
    (connectAttempt failingAttempt).1.getLast? = some (SdkEvent.sleep_for 1000) ∧
    attemptSucceeds succeedingAttempt = true ∧
    (connectAttempt succeedingAttempt).1.getLast?
      = some (SdkEvent.CoreSdk_ConnectToHost succeedingAttempt.firstHost) :=
  ⟨by decide, ((@connectAttempt_success_iff Nat failingAttempt).2.2 (by decide)).1,
    by decide, ((@connectAttempt_success_iff Nat succeedingAttempt).2.1 (by decide)).1⟩

/-! ## Connection lifecycle: the singleton slot -/

theorem initializeTracker_startup_failure {α : Type} (w : World α) (this : Nat)
    (sdk : SdkResponses) (h0 : w.s_instance = none)
    (hi : sdk.initializeIntegrated ≠ SDKReturnCode.SDKReturnCode_Success) :
    initializeTracker w this sdk
      = (w.log [SdkEvent.CoreSdk_InitializeIntegrated], Outcome.returned false) := by
  unfold initializeTracker
  simp only [h0, hi, ne_eq, not_true_eq_false, not_false_eq_true, if_false, if_true]
  cases w
  simp only [World.log] at h0 ⊢
  rw [h0]

theorem initializeTracker_coordinate_failure {α : Type} (w : World α) (this : Nat)
    (sdk : SdkResponses) (h0 : w.s_instance = none)
    (hi : sdk.initializeIntegrated = SDKReturnCode.SDKReturnCode_Success)
    (hc : sdk.initializeCoordinateSystem ≠ SDKReturnCode.SDKReturnCode_Success) :
    (initializeTracker w this sdk).1.s_instance = none ∧
      (initializeTracker w this sdk).2 = Outcome.returned false := by
  unfold initializeTracker
  simp [h0, hi, hc]

theorem initializeTracker_held {α : Type} (w : World α) (this : Nat) (sdk : SdkResponses)
    (h : w.s_instance ≠ none) : initializeTracker w this sdk = (w, Outcome.returned false) := by
  unfold initializeTracker
  rw [if_pos h]

theorem initializeTracker_exhausted {α : Type} (w : World α) (this : Nat) (sdk : SdkResponses)
    (h0 : w.s_instance = none)
    (hi : sdk.initializeIntegrated = SDKReturnCode.SDKReturnCode_Success)
    (hc : sdk.initializeCoordinateSystem = SDKReturnCode.SDKReturnCode_Success)
    (hf : ∀ k, 1 ≤ k → k ≤ max_attempts → attemptSucceeds (sdk.attempt k) = false) :
    initializeTracker w this sdk
      = ((afterSetup w this).log (attemptsTrace sdk.attempt 0 max_attempts),
          Outcome.threw "Failed to connect to Manus gloves") := by
  rw [initializeTracker_connect w this sdk h0 hi hc,
    ConnectToGloves_never (afterSetup w this) this sdk.attempt hf]

/-- C8, evaluated on the code: when SDK startup or coordinate setup fails, `initialize`
returns false with the slot empty again; when discovery exhausts its 30 attempts,
`initialize` ends by throwing while the slot still refers to the failing tracker, and a
later `initialize` on another tracker returns false without an SDK call. -/
theorem initialize_exhausted_keeps_slot :
    (World.fresh : World Nat).s_instance = none ∧
    (initializeTracker (World.fresh : World Nat) 0 sdkFailingStartup).1.s_instance = none ∧
    (initializeTracker (World.fresh : World Nat) 0 sdkFailingCoordinates).1.s_instance
      = none ∧
    (initializeTracker (World.fresh : World Nat) 0 sdkNeverConnecting).2
      = Outcome.threw "Failed to connect to Manus gloves" ∧
    (initializeTracker (World.fresh : World Nat) 0 sdkNeverConnecting).1.s_instance
      = some 0 ∧
    initializeTracker (initializeTracker (World.fresh : World Nat) 0 sdkNeverConnecting).1 1
        (sdkSucceedingAt 1)
      = ((initializeTracker (World.fresh : World Nat) 0 sdkNeverConnecting).1,
          Outcome.returned false) := by
  have he := initializeTracker_exhausted (World.fresh : World Nat) 0 sdkNeverConnecting rfl
    rfl rfl (fun _ _ _ => rfl)
  refine ⟨rfl, ?_, ?_, ?_, ?_, ?_⟩
  · rw [initializeTracker_startup_failure _ _ _ rfl (by decide)]
    rfl
  · exact (initializeTracker_coordinate_failure _ _ _ rfl rfl (by decide)).1
  · rw [he]
  · rw [he]
    rfl
  · rw [he]
    exact initializeTracker_held _ _ _ (by simp [World.log, afterSetup, RegisterCallbacks])

/-- C9: when the singleton slot is held, `initialize` on any tracker returns false and
leaves the whole process state as it was: no SDK call is made, the slot still refers to the
same instance, and no tracker changes. -/
theorem initialize_already_active {α : Type} (w : World α) (inst this : Nat)
    (sdk : SdkResponses) (h : w.s_instance = some inst) :
    initializeTracker w this sdk = (w, Outcome.returned false) ∧
    (initializeTracker w this sdk).1.trace = w.trace ∧
    (initializeTracker w this sdk).1.s_instance = some inst ∧
    (initializeTracker w this sdk).1.trackers inst = w.trackers inst := by
  have hh : initializeTracker w this sdk = (w, Outcome.returned false) :=
    initializeTracker_held w this sdk (by rw [h]; simp)
  rw [hh]
  exact ⟨rfl, rfl, h, rfl⟩

/-- C9 at a concrete input: tracker 0 is active; `initialize` on tracker 1 is rejected even
with an SDK that would connect at once. -/
theorem initialize_already_active_witness :
    activeWorld.s_instance = some 0 ∧
    initializeTracker activeWorld 1 (sdkSucceedingAt 1)
      = (activeWorld, Outcome.returned false) :=
  ⟨rfl, (initialize_already_active activeWorld 0 1 (sdkSucceedingAt 1) rfl).1⟩

/-! ## Connection lifecycle: `cleanup` -/

theorem cleanup_not_holder {α : Type} (w : World α) (this : Nat)
    (h : w.s_instance ≠ some this) : cleanup w this = w := by
  unfold cleanup
  rw [if_neg h]

theorem cleanup_holder {α : Type} (w : World α) (this : Nat) (h : w.s_instance = some this) :
    cleanup w this
      = { s_instance := none,
          trackers := fun i =>
            if i = this then { w.trackers this with is_connected := false }
            else w.trackers i,
          trace := w.trace ++
            [SdkEvent.CoreSdk_RegisterCallbackForRawSkeletonStream none,
              SdkEvent.CoreSdk_RegisterCallbackForLandscapeStream none,
              SdkEvent.CoreSdk_RegisterCallbackForErgonomicsStream none] ++
            (if (w.trackers this).is_connected then [SdkEvent.CoreSdk_Disconnect] else []) ++
            [SdkEvent.CoreSdk_ShutDown] } := by
  unfold cleanup
  rw [if_pos h]
  unfold DisconnectFromGloves
  cases hc : (w.trackers this).is_connected with
  | true =>
    simp only [World.log, World.setTracker, hc, if_true, List.append_assoc,
      List.singleton_append, List.cons_append, List.nil_append]
  | false =>
    simp only [World.log, hc, Bool.false_eq_true, if_false, List.append_assoc,
      List.singleton_append, List.cons_append, List.nil_append, List.append_nil,
      World.mk.injEq, true_and, and_true]
    funext i
    by_cases hi : i = this
    · subst hi
      rw [if_pos rfl, ← hc]
    · rw [if_neg hi]

/-- C10: `cleanup` is idempotent on the whole process state, SDK calls included. When the
calling tracker holds the slot, `cleanup` unregisters the three stream callbacks, calls
disconnect exactly when the tracker is marked connected and clears that mark, shuts the SDK
down and empties the slot, changing nothing else. When the calling tracker does not hold
the slot, `cleanup` makes no SDK call and changes no state. -/
theorem cleanup_idempotent {α : Type} (w : World α) (this : Nat) :
    cleanup (cleanup w this) this = cleanup w this ∧
    (w.s_instance = some this →
      (cleanup w this).s_instance = none ∧
      (cleanup w this).trace
        = w.trace ++
          [SdkEvent.CoreSdk_RegisterCallbackForRawSkeletonStream none,
            SdkEvent.CoreSdk_RegisterCallbackForLandscapeStream none,
            SdkEvent.CoreSdk_RegisterCallbackForErgonomicsStream none] ++
          (if (w.trackers this).is_connected then [SdkEvent.CoreSdk_Disconnect] else []) ++
          [SdkEvent.CoreSdk_ShutDown] ∧
      (cleanup w this).trackers this = { w.trackers this with is_connected := false } ∧
      ∀ other, other ≠ this → (cleanup w this).trackers other = w.trackers other) ∧
    (w.s_instance ≠ some this → cleanup w this = w) := by
  refine ⟨?_, ?_, cleanup_not_holder w this⟩
  · by_cases h : w.s_instance = some this
    · apply cleanup_not_holder
      rw [cleanup_holder w this h]
      simp
    · rw [cleanup_not_holder w this h, cleanup_not_holder w this h]
  · intro h
    rw [cleanup_holder w this h]
    refine ⟨rfl, rfl, by simp, ?_⟩
    intro other ho
    simp [ho]

/-- C10 at concrete inputs: tracker 0 holds the slot and is connected, so its `cleanup`
makes five SDK calls and empties the slot; tracker 1 does not hold the slot, so its
`cleanup` changes nothing. -/
theorem cleanup_idempotent_witness :
    activeWorld.s_instance = some 0 ∧
    (cleanup activeWorld 0).s_instance = none ∧
    (cleanup activeWorld 0).trace
      = [SdkEvent.CoreSdk_RegisterCallbackForRawSkeletonStream none,
          SdkEvent.CoreSdk_RegisterCallbackForLandscapeStream none,
          SdkEvent.CoreSdk_RegisterCallbackForErgonomicsStream none,
          SdkEvent.CoreSdk_Disconnect, SdkEvent.CoreSdk_ShutDown] ∧
    activeWorld.s_instance ≠ some 1 ∧
    cleanup activeWorld 1 = activeWorld :=
  ⟨rfl, ((cleanup_idempotent activeWorld 0).2.1 rfl).1,
    ((cleanup_idempotent activeWorld 0).2.1 rfl).2.1, by decide,
    (cleanup_idempotent activeWorld 1).2.2 (by decide)⟩

/-! ## Connection lifecycle: order of the SDK calls -/

theorem ConnectToGloves_cases {α : Type} (w : World α) (this : Nat)
    (script : Nat → AttemptResponse) :
    (∃ k, 1 ≤ k ∧ k ≤ max_attempts ∧
        ConnectToGloves w this script
          = ((w.log (attemptsTrace script 0 k)).setTracker this
              { w.trackers this with is_connected := true }, k, none)) ∨
      ConnectToGloves w this script
        = (w.log (attemptsTrace script 0 max_attempts), max_attempts,
            some "Failed to connect to Manus gloves") := by
  by_cases h : ∃ k, 1 ≤ k ∧ k ≤ max_attempts ∧ attemptSucceeds (script k) = true
  · obtain ⟨k, h1, hk, hs, hf⟩ := first_success script h
    exact Or.inl ⟨k, h1, hk, ConnectToGloves_first w this script k h1 hk hs hf⟩
  · refine Or.inr (ConnectToGloves_never w this script ?_)
    intro k h1 h2
    cases hv : attemptSucceeds (script k) with
    | false => rfl
    | true => exact absurd ⟨k, h1, h2, hv⟩ h

theorem ConnectToGloves_trace {α : Type} (w : World α) (this : Nat)
    (script : Nat → AttemptResponse) :
    (ConnectToGloves w this script).1.trace
      = w.trace ++ attemptsTrace script 0 (ConnectToGloves w this script).2.1 := by
  rcases ConnectToGloves_cases w this script with ⟨k, _, _, h⟩ | h <;> rw [h] <;> rfl

theorem connectAttempt_discovery (a : AttemptResponse) :
    ∀ e ∈ (connectAttempt a).1, isDiscoveryEvent e = true := by
  unfold connectAttempt
  split_ifs <;> simp [isDiscoveryEvent]

theorem attemptsTrace_discovery (script : Nat → AttemptResponse) (first n : Nat) :
    ∀ e ∈ attemptsTrace script first n, isDiscoveryEvent e = true := by
  intro e he
  simp only [attemptsTrace, List.mem_flatMap] at he
  obtain ⟨i, _, hi⟩ := he
  exact connectAttempt_discovery _ e hi

theorem afterSetup_trace {α : Type} (w : World α) (this : Nat) :
    (afterSetup w this).trace
      = w.trace ++ [SdkEvent.CoreSdk_InitializeIntegrated] ++ registrationCalls ++
          [coordinateCall] := by
  simp [afterSetup, RegisterCallbacks, World.log, registrationCalls, coordinateCall, t_VUH]

/-- C11 as stated fails: in a run of `initialize` whose coordinate setup fails, the three
callbacks are registered, and they are registered before the coordinate-system call. -/
theorem initialize_registers_early_counterexample :
    (initializeTracker (World.fresh : World Nat) 0 sdkFailingCoordinates).2
      = Outcome.returned false ∧
    (initializeTracker (World.fresh : World Nat) 0 sdkFailingCoordinates).1.trace
      = [SdkEvent.CoreSdk_InitializeIntegrated,
          SdkEvent.CoreSdk_RegisterCallbackForRawSkeletonStream (some Callback.OnSkeletonStream),
          SdkEvent.CoreSdk_RegisterCallbackForLandscapeStream (some Callback.OnLandscapeStream),
          SdkEvent.CoreSdk_RegisterCallbackForErgonomicsStream
            (some Callback.OnErgonomicsStream),
          coordinateCall] ∧
    ((initializeTracker (World.fresh : World Nat) 0 sdkFailingCoordinates).1.trace.filter
      isRegistration).length = 3 := by
  refine ⟨by decide, by decide, by decide⟩

/-- C11, amended: in every run of `initialize` that gets past the singleton check, the SDK
operations occur in this order: SDK startup; then, only when startup succeeded, the
registration of the skeleton, landscape and ergonomics callbacks followed by the
coordinate-system configuration (right-handed, Z-up, X-from-viewer, unit scale 1.0); then,
only when that succeeded, the calls and delays of discovery-with-retry and nothing after
them. No callback is registered in a run where SDK startup fails. -/
theorem initialize_call_order {α : Type} (w : World α) (this : Nat) (sdk : SdkResponses)
    (h0 : w.s_instance = none) :
    (sdk.initializeIntegrated ≠ SDKReturnCode.SDKReturnCode_Success →
      (initializeTracker w this sdk).1.trace
        = w.trace ++ [SdkEvent.CoreSdk_InitializeIntegrated]) ∧
    (sdk.initializeIntegrated = SDKReturnCode.SDKReturnCode_Success →
      sdk.initializeCoordinateSystem ≠ SDKReturnCode.SDKReturnCode_Success →
      (initializeTracker w this sdk).1.trace
        = w.trace ++ [SdkEvent.CoreSdk_InitializeIntegrated] ++ registrationCalls ++
            [coordinateCall]) ∧
    (sdk.initializeIntegrated = SDKReturnCode.SDKReturnCode_Success →
      sdk.initializeCoordinateSystem = SDKReturnCode.SDKReturnCode_Success →
      ∃ discovery : List SdkEvent,
        (initializeTracker w this sdk).1.trace
          = w.trace ++ [SdkEvent.CoreSdk_InitializeIntegrated] ++ registrationCalls ++
              [coordinateCall] ++ discovery ∧
        discovery = attemptsTrace sdk.attempt 0 (ConnectToGloves (afterSetup w this) this
          sdk.attempt).2.1 ∧
        ∀ e ∈ discovery, isDiscoveryEvent e = true) := by
  refine ⟨?_, ?_, ?_⟩
  · intro hi
    rw [initializeTracker_startup_failure w this sdk h0 hi]
    rfl
  · intro hi hc
    unfold initializeTracker
    simp only [h0, hi, hc, ne_eq, not_true_eq_false, not_false_eq_true, if_false, if_true]
    exact afterSetup_trace w this
  · intro hi hc
    refine ⟨_, ?_, rfl, attemptsTrace_discovery _ _ _⟩
    rw [initializeTracker_connect w this sdk h0 hi hc, ← afterSetup_trace,
      ← ConnectToGloves_trace]
    rcases ConnectToGloves (afterSetup w this) this sdk.attempt with ⟨w', n, _ | what⟩ <;> rfl

/-- C11 at concrete inputs: a failing startup makes one SDK call; a discovery that succeeds
at the first attempt is preceded by startup, the three registrations and the coordinate
call. -/
theorem initialize_call_order_witness :
    (World.fresh : World Nat).s_instance = none ∧
    sdkFailingStartup.initializeIntegrated ≠ SDKReturnCode.SDKReturnCode_Success ∧
    (initializeTracker (World.fresh : World Nat) 0 sdkFailingStartup).1.trace
      = [SdkEvent.CoreSdk_InitializeIntegrated] ∧
    (sdkSucceedingAt 1).initializeIntegrated = SDKReturnCode.SDKReturnCode_Success ∧
    (sdkSucceedingAt 1).initializeCoordinateSystem = SDKReturnCode.SDKReturnCode_Success ∧
    ∃ discovery : List SdkEvent,
      (initializeTracker (World.fresh : World Nat) 0 (sdkSucceedingAt 1)).1.trace
        = [SdkEvent.CoreSdk_InitializeIntegrated] ++ registrationCalls ++ [coordinateCall] ++
            discovery :=
  ⟨rfl, by decide,
    (initialize_call_order (World.fresh : World Nat) 0 sdkFailingStartup rfl).1 (by decide),
    rfl, rfl,
    ((initialize_call_order (World.fresh : World Nat) 0 (sdkSucceedingAt 1) rfl).2.2
      rfl rfl).imp fun _ h => h.1⟩

/-! ## Frame conditions of the stream handlers -/

/-- C15: when no tracker holds the singleton slot, the three stream handlers are no-ops
for every event: the process state is returned as it was, so `get_glove_data` of every
tracker returns the same map before and after the event. -/
theorem handlers_without_instance {α : Type} [Inhabited α] (ErgonomicsDataType_MAX_SIZE : Nat)
    (w : World α) (h : w.s_instance = none) (frame : List (RawSkeleton α))
    (landscape : Landscape) (stream : ErgonomicsStream α) :
    OnSkeletonStream w frame = some w ∧
    OnLandscapeStream w landscape = w ∧
    OnErgonomicsStream ErgonomicsDataType_MAX_SIZE w stream = w ∧
    ∀ this,
      (OnSkeletonStream w frame).map (fun w' => (get_glove_data w' this).2)
        = some (get_glove_data w this).2 ∧
      (get_glove_data (OnLandscapeStream w landscape) this).2 = (get_glove_data w this).2 ∧
      (get_glove_data (OnErgonomicsStream ErgonomicsDataType_MAX_SIZE w stream) this).2
        = (get_glove_data w this).2 := by
  have h1 : OnSkeletonStream w frame = some w := by
    unfold OnSkeletonStream
    rw [h]
  have h2 : OnLandscapeStream w landscape = w := by
    unfold OnLandscapeStream
    rw [h]
  have h3 : OnErgonomicsStream ErgonomicsDataType_MAX_SIZE w stream = w := by
    unfold OnErgonomicsStream
    rw [h]
  refine ⟨h1, h2, h3, fun this => ?_⟩
  rw [h1, h2, h3]
  exact ⟨rfl, rfl, rfl⟩

/-- C15 at a concrete input: a process without an active instance, a frame for glove 7, a
landscape event reporting glove 7 as Left and an ergonomics entry of id 7. -/
theorem handlers_without_instance_witness :
    (World.fresh : World Nat).s_instance = none ∧
    OnSkeletonStream (World.fresh : World Nat) [⟨7, [mkNode 1 2 3 1 0 0 0]⟩]
      = some World.fresh ∧
    OnLandscapeStream (World.fresh : World Nat) ⟨[⟨7, Side.Side_Left⟩]⟩ = World.fresh ∧
    OnErgonomicsStream 3 (World.fresh : World Nat) ⟨[mkEntry 7 false]⟩ = World.fresh :=
  ⟨rfl,
    (handlers_without_instance 3 (World.fresh : World Nat) rfl [⟨7, [mkNode 1 2 3 1 0 0 0]⟩]
      ⟨[⟨7, Side.Side_Left⟩]⟩ ⟨[mkEntry 7 false]⟩).1,
    (handlers_without_instance 3 (World.fresh : World Nat) rfl [⟨7, [mkNode 1 2 3 1 0 0 0]⟩]
      ⟨[⟨7, Side.Side_Left⟩]⟩ ⟨[mkEntry 7 false]⟩).2.1,
    (handlers_without_instance 3 (World.fresh : World Nat) rfl [⟨7, [mkNode 1 2 3 1 0 0 0]⟩]
      ⟨[⟨7, Side.Side_Left⟩]⟩ ⟨[mkEntry 7 false]⟩).2.2.1⟩

theorem setTracker_other {α : Type} (w : World α) (inst i : Nat) (t : Tracker α)
    (h : i ≠ inst) : (w.setTracker inst t).trackers i = w.trackers i := by
  simp [World.setTracker, h]

theorem landscapeBody_frame {α : Type} (t : Tracker α) (g : GloveLandscapeData) :
    (landscapeBody t g).output_map = t.output_map ∧
      (landscapeBody t g).is_connected = t.is_connected := by
  unfold landscapeBody
  split_ifs <;> exact ⟨rfl, rfl⟩

theorem foldl_landscapeBody_frame {α : Type} (gloves : List GloveLandscapeData)
    (t : Tracker α) :
    (gloves.foldl landscapeBody t).output_map = t.output_map ∧
      (gloves.foldl landscapeBody t).is_connected = t.is_connected := by
  induction gloves generalizing t with
  | nil => exact ⟨rfl, rfl⟩
  | cons g gs ih =>
    rw [List.foldl_cons]
    obtain ⟨a, b⟩ := ih (landscapeBody t g)
    obtain ⟨c, d⟩ := landscapeBody_frame t g
    exact ⟨a.trans c, b.trans d⟩

theorem OnLandscapeStream_output {α : Type} (w : World α) (landscape : Landscape) (i : Nat) :
    ((OnLandscapeStream w landscape).trackers i).output_map = (w.trackers i).output_map := by
  unfold OnLandscapeStream
  cases hs : w.s_instance with
  | none => rfl
  | some inst =>
    simp only
    split_ifs
    · rfl
    · by_cases hi : i = inst
      · subst hi
        rw [setTracker_same]
        exact (foldl_landscapeBody_frame _ _).1
      · rw [setTracker_other _ _ _ _ hi]

theorem OnLandscapeStream_assigned {α : Type} (w : World α) (landscape : Landscape)
    (i : Nat) :
    ((w.trackers i).left_glove_id ≠ none →
        ((OnLandscapeStream w landscape).trackers i).left_glove_id ≠ none) ∧
      ((w.trackers i).right_glove_id ≠ none →
        ((OnLandscapeStream w landscape).trackers i).right_glove_id ≠ none) := by
  unfold OnLandscapeStream
  cases hs : w.s_instance with
  | none => exact ⟨id, id⟩
  | some inst =>
    simp only
    split_ifs
    · exact ⟨id, id⟩
    · by_cases hi : i = inst
      · subst hi
        rw [setTracker_same, foldl_landscapeBody_left, foldl_landscapeBody_right]
        constructor
        · intro h
          cases lastWithSide Side.Side_Left landscape.gloves with
          | none => simpa using h
          | some v => simp
        · intro h
          cases lastWithSide Side.Side_Right landscape.gloves with
          | none => simpa using h
          | some v => simp
      · rw [setTracker_other _ _ _ _ hi]
        exact ⟨id, id⟩

theorem OutputMap.writeAt_other {α : Type} (m m' : OutputMap α) (key : String) (i : Nat)
    (x : α) (h : m.writeAt key i x = some m') (k : String) (hk : k ≠ key) : m' k = m k := by
  unfold OutputMap.writeAt at h
  simp only [Option.map_eq_some'] at h
  obtain ⟨v, _, rfl⟩ := h
  simp [OutputMap.put, hk]

theorem copyNode_other {α : Type} (pk ok : String) (nodes : List (SkeletonNode α))
    (m m' : OutputMap α) (j : Nat) (h : copyNode pk ok nodes m j = some m') (k : String)
    (h1 : k ≠ pk) (h2 : k ≠ ok) : m' k = m k := by
  unfold copyNode at h
  simp only [Option.bind_eq_bind, Option.bind_eq_some, Option.pure_def, Option.some.injEq] at h
  obtain ⟨node, _, m1, e1, m2, e2, m3, e3, m4, e4, m5, e5, m6, e6, m7, e7, rfl⟩ := h
  rw [OutputMap.writeAt_other _ _ _ _ _ e7 k h2, OutputMap.writeAt_other _ _ _ _ _ e6 k h2,
    OutputMap.writeAt_other _ _ _ _ _ e5 k h2, OutputMap.writeAt_other _ _ _ _ _ e4 k h2,
    OutputMap.writeAt_other _ _ _ _ _ e3 k h1, OutputMap.writeAt_other _ _ _ _ _ e2 k h1,
    OutputMap.writeAt_other _ _ _ _ _ e1 k h1]

theorem foldlM_copyNode_other {α : Type} (pk ok : String) (nodes : List (SkeletonNode α))
    (js : List Nat) (m m' : OutputMap α) (h : js.foldlM (copyNode pk ok nodes) m = some m')
    (k : String) (h1 : k ≠ pk) (h2 : k ≠ ok) : m' k = m k := by
  induction js generalizing m with
  | nil =>
    simp only [List.foldlM_nil, Option.pure_def, Option.some.injEq] at h
    rw [h]
  | cons j rest ih =>
    rw [List.foldlM_cons] at h
    cases hb : copyNode pk ok nodes m j with
    | none => rw [hb] at h; simp at h
    | some m1 =>
      rw [hb] at h
      simp only [Option.bind_eq_bind, Option.some_bind] at h
      rw [ih m1 h, copyNode_other pk ok nodes m m1 j hb k h1 h2]

/-- What a completed `skeletonBody` leaves alone: the role ids, the connection flag, and
every entry other than the position and orientation entries of the resolved role; for an
unknown glove id, everything. -/
theorem skeletonBody_frame {α : Type} [Inhabited α] (t t' : Tracker α) (sk : RawSkeleton α)
    (h : skeletonBody t sk = some t') :
    t'.left_glove_id = t.left_glove_id ∧ t'.right_glove_id = t.right_glove_id ∧
      t'.is_connected = t.is_connected ∧
      ∀ key, (∀ role, t.resolve sk.gloveId = some role →
          key ≠ positionKey role ∧ key ≠ orientationKey role) →
        t'.output_map key = t.output_map key := by
  unfold skeletonBody at h
  by_cases hl : t.left_glove_id = some sk.gloveId
  · have hL : is_glove t.left_glove_id sk.gloveId = true := by
      rw [is_glove_eq]; exact decide_eq_true hl
    have hres : t.resolve sk.gloveId = some Role.Left := by
      unfold Tracker.resolve resolveRole
      rw [if_pos hl]
    simp only [hL, Bool.not_true, Bool.false_and, if_true, Bool.false_eq_true,
      if_false, Option.map_eq_some'] at h
    obtain ⟨m, hm, rfl⟩ := h
    refine ⟨rfl, rfl, rfl, ?_⟩
    intro key hk
    obtain ⟨k1, k2⟩ := hk Role.Left hres
    have := foldlM_copyNode_other _ _ _ _ _ _ hm key k1 k2
    simp only [this, OutputMap.resizeAt, OutputMap.put]
    exact (if_neg (show ¬ key = "left" ++ "_orientation" from k2)).trans
      (if_neg (show ¬ key = "left" ++ "_position" from k1))
  · have hL : is_glove t.left_glove_id sk.gloveId = false := by
      rw [is_glove_eq]; exact decide_eq_false hl
    by_cases hr : t.right_glove_id = some sk.gloveId
    · have hR : is_glove t.right_glove_id sk.gloveId = true := by
        rw [is_glove_eq]; exact decide_eq_true hr
      have hres : t.resolve sk.gloveId = some Role.Right := by
        unfold Tracker.resolve resolveRole
        rw [if_neg hl, if_pos hr]
      simp only [hL, hR, Bool.not_true, Bool.not_false, Bool.and_false, if_true,
        Bool.false_eq_true, if_false, Option.map_eq_some'] at h
      obtain ⟨m, hm, rfl⟩ := h
      refine ⟨rfl, rfl, rfl, ?_⟩
      intro key hk
      obtain ⟨k1, k2⟩ := hk Role.Right hres
      have := foldlM_copyNode_other _ _ _ _ _ _ hm key k1 k2
      simp only [this, OutputMap.resizeAt, OutputMap.put]
      exact (if_neg (show ¬ key = "right" ++ "_orientation" from k2)).trans
        (if_neg (show ¬ key = "right" ++ "_position" from k1))
    · have hR : is_glove t.right_glove_id sk.gloveId = false := by
        rw [is_glove_eq]; exact decide_eq_false hr
      simp only [hL, hR, Bool.not_false, Bool.and_self, if_true, Option.some.injEq] at h
      subst h
      exact ⟨rfl, rfl, rfl, fun _ _ => rfl⟩

theorem resolve_roleId {α : Type} (t : Tracker α) (glove_id : Nat) (role : Role)
    (h : t.resolve glove_id = some role) : t.roleId role = some glove_id := by
  unfold Tracker.resolve resolveRole at h
  split_ifs at h with h1 h2
  · simp only [Option.some.injEq] at h
    subst h
    exact h1
  · simp only [Option.some.injEq] at h
    subst h
    exact h2

theorem foldlM_skeletonBody_frame {α : Type} [Inhabited α] (frame : List (RawSkeleton α))
    (t t' : Tracker α) (h : frame.foldlM skeletonBody t = some t') :
    t'.left_glove_id = t.left_glove_id ∧ t'.right_glove_id = t.right_glove_id ∧
      t'.is_connected = t.is_connected ∧
      ∀ key, (∀ sk ∈ frame, ∀ role, t.resolve sk.gloveId = some role →
          key ≠ positionKey role ∧ key ≠ orientationKey role) →
        t'.output_map key = t.output_map key := by
  induction frame generalizing t with
  | nil =>
    simp only [List.foldlM_nil, Option.pure_def, Option.some.injEq] at h
    subst h
    exact ⟨rfl, rfl, rfl, fun _ _ => rfl⟩
  | cons sk rest ih =>
    rw [List.foldlM_cons] at h
    cases hb : skeletonBody t sk with
    | none => rw [hb] at h; simp at h
    | some t1 =>
      rw [hb] at h
      simp only [Option.bind_eq_bind, Option.some_bind] at h
      obtain ⟨a1, a2, a3, a4⟩ := ih t1 h
      obtain ⟨b1, b2, b3, b4⟩ := skeletonBody_frame t t1 sk hb
      refine ⟨a1.trans b1, a2.trans b2, a3.trans b3, ?_⟩
      intro key hk
      have hres : ∀ g, t1.resolve g = t.resolve g := by
        intro g
        unfold Tracker.resolve
        rw [b1, b2]
      rw [a4 key (fun s hs role hr =>
        hk s (List.mem_cons_of_mem _ hs) role (by rw [← hres]; exact hr))]
      exact b4 key (hk sk (List.mem_cons_self _ _))

theorem keys_of_other_role (role role' : Role) (h : role' ≠ role) :
    positionKey role ≠ positionKey role' ∧ positionKey role ≠ orientationKey role' ∧
      orientationKey role ≠ positionKey role' ∧
      orientationKey role ≠ orientationKey role' := by
  cases role <;> cases role' <;> first | exact absurd rfl h | decide

theorem angleKey_ne (role role' : Role) :
    angleKey role ≠ positionKey role' ∧ angleKey role ≠ orientationKey role' := by
  cases role <;> cases role' <;> decide

theorem OnSkeletonStream_frame {α : Type} [Inhabited α] (w w' : World α)
    (frame : List (RawSkeleton α)) (h : OnSkeletonStream w frame = some w') (i : Nat) :
    (w'.trackers i).left_glove_id = (w.trackers i).left_glove_id ∧
      (w'.trackers i).right_glove_id = (w.trackers i).right_glove_id ∧
      (w'.trackers i).is_connected = (w.trackers i).is_connected ∧
      ∀ key, (∀ sk ∈ frame, ∀ role, (w.trackers i).resolve sk.gloveId = some role →
          key ≠ positionKey role ∧ key ≠ orientationKey role) →
        (w'.trackers i).output_map key = (w.trackers i).output_map key := by
  unfold OnSkeletonStream at h
  cases hs : w.s_instance with
  | none =>
    rw [hs] at h
    simp only [Option.some.injEq] at h
    subst h
    exact ⟨rfl, rfl, rfl, fun _ _ => rfl⟩
  | some inst =>
    rw [hs] at h
    simp only [Option.map_eq_some'] at h
    obtain ⟨t', ht, rfl⟩ := h
    by_cases hi : i = inst
    · subst hi
      rw [setTracker_same]
      exact foldlM_skeletonBody_frame frame _ t' ht
    · rw [setTracker_other _ _ _ _ hi]
      exact ⟨rfl, rfl, rfl, fun _ _ => rfl⟩

theorem OnSkeletonStream_world {α : Type} [Inhabited α] (w w' : World α)
    (frame : List (RawSkeleton α)) (h : OnSkeletonStream w frame = some w') :
    w'.s_instance = w.s_instance ∧ w'.trace = w.trace := by
  unfold OnSkeletonStream at h
  cases hs : w.s_instance with
  | none =>
    rw [hs] at h
    simp only [Option.some.injEq] at h
    subst h
    exact ⟨hs, rfl⟩
  | some inst =>
    rw [hs] at h
    simp only [Option.map_eq_some'] at h
    obtain ⟨t', _, rfl⟩ := h
    exact ⟨hs, rfl⟩

theorem ergonomicsEffect_other {α : Type} (n : Nat) (t : Tracker α) (e : ErgonomicsData α)
    (key : String)
    (hk : e.isUserID = false → ∀ role, t.resolve e.id = some role → key ≠ angleKey role) :
    (ergonomicsEffect n t e).output_map key = t.output_map key := by
  unfold ergonomicsEffect
  by_cases hu : e.isUserID = true
  · simp [hu]
  · have hu' : e.isUserID = false := by simpa using hu
    cases hr : t.resolve e.id with
    | none => simp [hu']
    | some r =>
      simp only [hu', Bool.false_eq_true, if_false, OutputMap.put]
      rw [if_neg (hk hu' r hr)]

theorem foldl_ergonomicsEffect_other {α : Type} (n : Nat) (data : List (ErgonomicsData α))
    (t : Tracker α) (key : String)
    (hk : ∀ e ∈ data, e.isUserID = false →
      ∀ role, t.resolve e.id = some role → key ≠ angleKey role) :
    (data.foldl (ergonomicsEffect n) t).output_map key = t.output_map key := by
  induction data using List.reverseRecOn with
  | nil => rfl
  | append_singleton l e ih =>
    rw [List.foldl_append, List.foldl_cons, List.foldl_nil, ergonomicsEffect_other]
    · exact ih (fun x hx => hk x (List.mem_append_left _ hx))
    · intro hu role hr
      rw [foldl_ergonomicsEffect_resolve] at hr
      exact hk e (List.mem_append_right _ (List.mem_singleton_self _)) hu role hr

theorem OnErgonomicsStream_frame {α : Type} (n : Nat) (w : World α)
    (stream : ErgonomicsStream α) (i : Nat) :
    ((OnErgonomicsStream n w stream).trackers i).left_glove_id
        = (w.trackers i).left_glove_id ∧
      ((OnErgonomicsStream n w stream).trackers i).right_glove_id
        = (w.trackers i).right_glove_id ∧
      ((OnErgonomicsStream n w stream).trackers i).is_connected
        = (w.trackers i).is_connected ∧
      ∀ key, (∀ e ∈ stream.data, e.isUserID = false →
          ∀ role, (w.trackers i).resolve e.id = some role → key ≠ angleKey role) →
        ((OnErgonomicsStream n w stream).trackers i).output_map key
          = (w.trackers i).output_map key := by
  cases hs : w.s_instance with
  | none =>
    have : OnErgonomicsStream n w stream = w := by
      unfold OnErgonomicsStream
      rw [hs]
    rw [this]
    exact ⟨rfl, rfl, rfl, fun _ _ => rfl⟩
  | some inst =>
    rw [OnErgonomicsStream_active n w inst hs]
    by_cases hi : i = inst
    · subst hi
      rw [setTracker_same]
      obtain ⟨a, b, c⟩ := foldl_ergonomicsEffect_ids n stream.data (w.trackers i)
      exact ⟨a, b, c, fun key hk => foldl_ergonomicsEffect_other n _ _ key hk⟩
    · rw [setTracker_other _ _ _ _ hi]
      exact ⟨rfl, rfl, rfl, fun _ _ => rfl⟩

theorem OnErgonomicsStream_world {α : Type} (n : Nat) (w : World α)
    (stream : ErgonomicsStream α) :
    (OnErgonomicsStream n w stream).s_instance = w.s_instance ∧
      (OnErgonomicsStream n w stream).trace = w.trace := by
  unfold OnErgonomicsStream
  split <;> exact ⟨rfl, rfl⟩

theorem OnLandscapeStream_world {α : Type} (w : World α) (landscape : Landscape) :
    (OnLandscapeStream w landscape).s_instance = w.s_instance ∧
      (OnLandscapeStream w landscape).trace = w.trace := by
  unfold OnLandscapeStream
  split
  · exact ⟨rfl, rfl⟩
  · split <;> exact ⟨rfl, rfl⟩

/-- C17: each handler touches only its own part of the state of every tracker.
`OnLandscapeStream` never changes the output store. A completed `OnSkeletonStream` changes
neither the role ids nor any entry other than the position and orientation entries (so no
`*_angle` entry), and changes the position and orientation entries of a role only when the
id assigned to the role is the glove id of a skeleton of the frame. `OnErgonomicsStream`
changes neither the role ids nor any entry other than the angle entries (so no position or
orientation entry), and changes the angle entry of a role only when the id assigned to the
role is the id of an entry of the event that is not flagged `isUserID`. -/
theorem handlers_touch_own_part {α : Type} [Inhabited α] (ErgonomicsDataType_MAX_SIZE : Nat)
    (w : World α) (i : Nat) :
    (∀ landscape : Landscape,
      ((OnLandscapeStream w landscape).trackers i).output_map = (w.trackers i).output_map) ∧
    (∀ (frame : List (RawSkeleton α)) (w' : World α), OnSkeletonStream w frame = some w' →
      (w'.trackers i).left_glove_id = (w.trackers i).left_glove_id ∧
      (w'.trackers i).right_glove_id = (w.trackers i).right_glove_id ∧
      (∀ role : Role,
        (w'.trackers i).output_map (angleKey role)
          = (w.trackers i).output_map (angleKey role)) ∧
      (∀ key, (∀ role : Role, key ≠ positionKey role ∧ key ≠ orientationKey role) →
        (w'.trackers i).output_map key = (w.trackers i).output_map key) ∧
      (∀ role : Role, (∀ sk ∈ frame, (w.trackers i).roleId role ≠ some sk.gloveId) →
        (w'.trackers i).output_map (positionKey role)
            = (w.trackers i).output_map (positionKey role) ∧
          (w'.trackers i).output_map (orientationKey role)
            = (w.trackers i).output_map (orientationKey role))) ∧
    (∀ stream : ErgonomicsStream α,
      ((OnErgonomicsStream ErgonomicsDataType_MAX_SIZE w stream).trackers i).left_glove_id
        = (w.trackers i).left_glove_id ∧
      ((OnErgonomicsStream ErgonomicsDataType_MAX_SIZE w stream).trackers i).right_glove_id
        = (w.trackers i).right_glove_id ∧
      (∀ role : Role,
        ((OnErgonomicsStream ErgonomicsDataType_MAX_SIZE w stream).trackers i).output_map
            (positionKey role) = (w.trackers i).output_map (positionKey role) ∧
          ((OnErgonomicsStream ErgonomicsDataType_MAX_SIZE w stream).trackers i).output_map
            (orientationKey role) = (w.trackers i).output_map (orientationKey role)) ∧
      (∀ key, (∀ role : Role, key ≠ angleKey role) →
        ((OnErgonomicsStream ErgonomicsDataType_MAX_SIZE w stream).trackers i).output_map key
          = (w.trackers i).output_map key) ∧
      (∀ role : Role,
        (∀ e ∈ stream.data, e.isUserID = false → (w.trackers i).roleId role ≠ some e.id) →
        ((OnErgonomicsStream ErgonomicsDataType_MAX_SIZE w stream).trackers i).output_map
            (angleKey role) = (w.trackers i).output_map (angleKey role))) := by
  refine ⟨fun landscape => OnLandscapeStream_output w landscape i, ?_, ?_⟩
  · intro frame w' h
    obtain ⟨a, b, _, d⟩ := OnSkeletonStream_frame w w' frame h i
    refine ⟨a, b, ?_, ?_, ?_⟩
    · intro role
      exact d _ (fun _ _ r _ => angleKey_ne role r)
    · intro key hk
      exact d key (fun _ _ r _ => hk r)
    · intro role hno
      have hne : ∀ sk ∈ frame, ∀ r, (w.trackers i).resolve sk.gloveId = some r → r ≠ role := by
        intro sk hsk r hr e
        subst e
        exact hno sk hsk (resolve_roleId _ _ _ hr)
      constructor
      · exact d _ (fun sk hsk r hr =>
          ⟨(keys_of_other_role role r (hne sk hsk r hr)).1,
            (keys_of_other_role role r (hne sk hsk r hr)).2.1⟩)
      · exact d _ (fun sk hsk r hr =>
          ⟨(keys_of_other_role role r (hne sk hsk r hr)).2.2.1,
            (keys_of_other_role role r (hne sk hsk r hr)).2.2.2⟩)
  · intro stream
    obtain ⟨a, b, _, d⟩ := OnErgonomicsStream_frame ErgonomicsDataType_MAX_SIZE w stream i
    refine ⟨a, b, ?_, ?_, ?_⟩
    · intro role
      exact ⟨d _ (fun _ _ _ r _ => (angleKey_ne r role).1.symm),
        d _ (fun _ _ _ r _ => (angleKey_ne r role).2.symm)⟩
    · intro key hk
      exact d key (fun _ _ _ r _ => hk r)
    · intro role hno
      refine d _ (fun e he hu r hr hkey => ?_)
      have hrr : role = r := (angleKey_inj role r).1 hkey
      subst hrr
      exact hno e he hu (resolve_roleId _ _ _ hr)

/-- C17 at a concrete input: Left id 1 and Right id 2 assigned; a frame with a skeleton of
glove 1 completes and leaves `left_angle` and the Right entries as they were. -/
theorem handlers_touch_own_part_witness :
    ∃ w', OnSkeletonStream activeWorld [⟨1, [mkNode 1 2 3 1 0 0 0]⟩] = some w' ∧
      (w'.trackers 0).output_map (angleKey Role.Left)
        = (activeWorld.trackers 0).output_map (angleKey Role.Left) ∧
      (w'.trackers 0).output_map (positionKey Role.Right)
        = (activeWorld.trackers 0).output_map (positionKey Role.Right) :=
  ⟨_, OnSkeletonStream_active activeWorld 0 rfl [⟨1, [mkNode 1 2 3 1 0 0 0]⟩] (by decide),
    ((handlers_touch_own_part 3 activeWorld 0).2.1 _ _
      (OnSkeletonStream_active activeWorld 0 rfl [⟨1, [mkNode 1 2 3 1 0 0 0]⟩]
        (by decide))).2.2.1 Role.Left,
    (((handlers_touch_own_part 3 activeWorld 0).2.1 _ _
      (OnSkeletonStream_active activeWorld 0 rfl [⟨1, [mkNode 1 2 3 1 0 0 0]⟩]
        (by decide))).2.2.2.2 Role.Right (by decide)).1⟩

/-! ## Frame conditions of the lifecycle methods -/

theorem ConnectToGloves_frame {α : Type} (w : World α) (this : Nat)
    (script : Nat → AttemptResponse) (i : Nat) :
    ((ConnectToGloves w this script).1.trackers i).output_map = (w.trackers i).output_map ∧
      ((ConnectToGloves w this script).1.trackers i).left_glove_id
        = (w.trackers i).left_glove_id ∧
      ((ConnectToGloves w this script).1.trackers i).right_glove_id
        = (w.trackers i).right_glove_id := by
  rcases ConnectToGloves_cases w this script with ⟨k, _, _, h⟩ | h
  · rw [h]
    by_cases hi : i = this
    · subst hi
      simp [World.setTracker, World.log]
    · simp [World.setTracker, World.log, hi]
  · rw [h]
    exact ⟨rfl, rfl, rfl⟩

theorem initializeTracker_frame {α : Type} (w : World α) (this : Nat) (sdk : SdkResponses)
    (i : Nat) :
    ((initializeTracker w this sdk).1.trackers i).output_map = (w.trackers i).output_map ∧
      ((initializeTracker w this sdk).1.trackers i).left_glove_id
        = (w.trackers i).left_glove_id ∧
      ((initializeTracker w this sdk).1.trackers i).right_glove_id
        = (w.trackers i).right_glove_id := by
  by_cases h0 : w.s_instance = none
  · by_cases hi : sdk.initializeIntegrated = SDKReturnCode.SDKReturnCode_Success
    · by_cases hc : sdk.initializeCoordinateSystem = SDKReturnCode.SDKReturnCode_Success
      · rw [initializeTracker_connect w this sdk h0 hi hc]
        have hf := ConnectToGloves_frame (afterSetup w this) this sdk.attempt i
        rcases hr : ConnectToGloves (afterSetup w this) this sdk.attempt with
          ⟨w', n, _ | what⟩
        · rw [hr] at hf
          exact hf
        · rw [hr] at hf
          exact hf
      · unfold initializeTracker
        simp only [h0, hi, hc, ne_eq, not_true_eq_false, not_false_eq_true, if_false,
          if_true]
        exact ⟨rfl, rfl, rfl⟩
    · rw [initializeTracker_startup_failure w this sdk h0 hi]
      exact ⟨rfl, rfl, rfl⟩
  · rw [initializeTracker_held w this sdk h0]
    exact ⟨rfl, rfl, rfl⟩

theorem cleanup_frame {α : Type} (w : World α) (this : Nat) (i : Nat) :
    ((cleanup w this).trackers i).output_map = (w.trackers i).output_map ∧
      ((cleanup w this).trackers i).left_glove_id = (w.trackers i).left_glove_id ∧
      ((cleanup w this).trackers i).right_glove_id = (w.trackers i).right_glove_id := by
  by_cases h : w.s_instance = some this
  · rw [cleanup_holder w this h]
    by_cases hi : i = this
    · subst hi
      simp
    · simp [hi]
  · rw [cleanup_not_holder w this h]
    exact ⟨rfl, rfl, rfl⟩

theorem run_assigned {α : Type} [Inhabited α] (n : Nat) (w w' : World α) (op : Operation α)
    (h : op.run n w = some w') (i : Nat) :
    ((w.trackers i).left_glove_id ≠ none → (w'.trackers i).left_glove_id ≠ none) ∧
      ((w.trackers i).right_glove_id ≠ none → (w'.trackers i).right_glove_id ≠ none) := by
  cases op with
  | callInitialize this sdk =>
    simp only [Operation.run, Option.some.injEq] at h
    subst h
    obtain ⟨_, a, b⟩ := initializeTracker_frame w this sdk i
    rw [a, b]
    exact ⟨id, id⟩
  | callGetGloveData this =>
    simp only [Operation.run, Option.some.injEq] at h
    subst h
    exact ⟨id, id⟩
  | callCleanup this =>
    simp only [Operation.run, Option.some.injEq] at h
    subst h
    obtain ⟨_, a, b⟩ := cleanup_frame w this i
    rw [a, b]
    exact ⟨id, id⟩
  | landscapeEvent landscape =>
    simp only [Operation.run, Option.some.injEq] at h
    subst h
    exact OnLandscapeStream_assigned w landscape i
  | skeletonFrame frame =>
    simp only [Operation.run] at h
    obtain ⟨a, b, _⟩ := OnSkeletonStream_frame w w' frame h i
    rw [a, b]
    exact ⟨id, id⟩
  | ergonomicsEvent stream =>
    simp only [Operation.run, Option.some.injEq] at h
    subst h
    obtain ⟨a, b, _⟩ := OnErgonomicsStream_frame n w stream i
    rw [a, b]
    exact ⟨id, id⟩

/-- C18: `cleanup` and `initialize`, whether it fails or succeeds, change neither the
output store nor the role ids of any tracker, so `get_glove_data` returns the same map
right after them as right before; and no operation at all unsets a role id that is
assigned. -/
theorem lifecycle_keeps_data {α : Type} [Inhabited α] (w : World α) (this : Nat)
    (sdk : SdkResponses) (i : Nat) :
    (get_glove_data (cleanup w this) i).2 = (get_glove_data w i).2 ∧
    ((cleanup w this).trackers i).left_glove_id = (w.trackers i).left_glove_id ∧
    ((cleanup w this).trackers i).right_glove_id = (w.trackers i).right_glove_id ∧
    (get_glove_data (initializeTracker w this sdk).1 i).2 = (get_glove_data w i).2 ∧
    ((initializeTracker w this sdk).1.trackers i).left_glove_id
      = (w.trackers i).left_glove_id ∧
    ((initializeTracker w this sdk).1.trackers i).right_glove_id
      = (w.trackers i).right_glove_id ∧
    (∀ (ErgonomicsDataType_MAX_SIZE : Nat) (op : Operation α) (w' : World α),
      op.run ErgonomicsDataType_MAX_SIZE w = some w' →
      ((w.trackers i).left_glove_id ≠ none → (w'.trackers i).left_glove_id ≠ none) ∧
      ((w.trackers i).right_glove_id ≠ none → (w'.trackers i).right_glove_id ≠ none)) := by
  obtain ⟨a1, a2, a3⟩ := cleanup_frame w this i
  obtain ⟨b1, b2, b3⟩ := initializeTracker_frame w this sdk i
  exact ⟨a1, a2, a3, b1, b2, b3, fun n op w' h => run_assigned n w w' op h i⟩

/-- C18 at a concrete input: with Left id 1 assigned on tracker 0, a landscape event that
reports only a Right glove leaves the Left id assigned. -/
theorem lifecycle_keeps_data_witness :
    (Operation.landscapeEvent ⟨[⟨5, Side.Side_Right⟩]⟩ : Operation Nat).run 3 activeWorld
      = some (OnLandscapeStream activeWorld ⟨[⟨5, Side.Side_Right⟩]⟩) ∧
    (activeWorld.trackers 0).left_glove_id ≠ none ∧
    ((OnLandscapeStream activeWorld ⟨[⟨5, Side.Side_Right⟩]⟩).trackers 0).left_glove_id
      ≠ none :=
  ⟨rfl, by decide,
    ((lifecycle_keeps_data activeWorld 0 sdkNeverConnecting 0).2.2.2.2.2.2 3
      (Operation.landscapeEvent ⟨[⟨5, Side.Side_Right⟩]⟩) _ rfl).1 (by decide)⟩

/-! ## Invariants of the reachable states -/

theorem skeletonEffect_paired {α : Type} (t : Tracker α) (sk : RawSkeleton α)
    (h : PairedEntries t) : PairedEntries (skeletonEffect t sk) := by
  intro role
  rw [skeletonEffect_position, skeletonEffect_orientation]
  by_cases hr : t.resolve sk.gloveId = some role
  · rw [if_pos hr, if_pos hr]
    exact Or.inr ⟨sk.nodes.length, _, _, rfl, rfl, flatPositions_length _,
      flatOrientations_length _⟩
  · rw [if_neg hr, if_neg hr]
    exact h role

theorem foldl_skeletonEffect_paired {α : Type} (frame : List (RawSkeleton α)) (t : Tracker α)
    (h : PairedEntries t) : PairedEntries (frame.foldl skeletonEffect t) := by
  induction frame generalizing t with
  | nil => exact h
  | cons sk rest ih => exact ih _ (skeletonEffect_paired t sk h)

theorem ergonomicsEffect_paired {α : Type} (n : Nat) (t : Tracker α) (e : ErgonomicsData α)
    (h : PairedEntries t) : PairedEntries (ergonomicsEffect n t e) := by
  intro role
  rw [ergonomicsEffect_other n t e _ (fun _ r _ => (angleKey_ne r role).1.symm),
    ergonomicsEffect_other n t e _ (fun _ r _ => (angleKey_ne r role).2.symm)]
  exact h role

theorem foldl_ergonomicsEffect_paired {α : Type} (n : Nat) (data : List (ErgonomicsData α))
    (t : Tracker α) (h : PairedEntries t) : PairedEntries (data.foldl (ergonomicsEffect n) t) := by
  induction data generalizing t with
  | nil => exact h
  | cons e rest ih => exact ih _ (ergonomicsEffect_paired n t e h)

theorem paired_of_output_eq {α : Type} (t t' : Tracker α)
    (ho : t'.output_map = t.output_map) (h : PairedEntries t) : PairedEntries t' := by
  intro role
  rw [ho]
  exact h role

theorem role_key_assigned {α : Type} (t : Tracker α) (role : Role) (key : String)
    (hk : key = positionKey role ∨ key = orientationKey role ∨ key = angleKey role)
    (ha : t.roleId role ≠ none) :
    (key ∈ leftKeys ∧ t.left_glove_id ≠ none) ∨
      (key ∈ rightKeys ∧ t.right_glove_id ≠ none) := by
  cases role with
  | Left =>
    refine Or.inl ⟨?_, ha⟩
    rcases hk with rfl | rfl | rfl <;> decide
  | Right =>
    refine Or.inr ⟨?_, ha⟩
    rcases hk with rfl | rfl | rfl <;> decide

theorem skeletonEffect_keys {α : Type} (t : Tracker α) (sk : RawSkeleton α)
    (h : KeysOfAssignedRoles t) : KeysOfAssignedRoles (skeletonEffect t sk) := by
  intro key hkey
  obtain ⟨i1, i2, _⟩ := skeletonEffect_ids t sk
  rw [i1, i2]
  unfold skeletonEffect at hkey
  cases hr : t.resolve sk.gloveId with
  | none =>
    rw [hr] at hkey
    exact h key hkey
  | some r =>
    have ha : t.roleId r ≠ none := by
      rw [resolve_roleId t _ r hr]
      simp
    by_cases k1 : key = orientationKey r
    · exact role_key_assigned t r key (Or.inr (Or.inl k1)) ha
    · by_cases k2 : key = positionKey r
      · exact role_key_assigned t r key (Or.inl k2) ha
      · rw [hr] at hkey
        simp only [OutputMap.put, if_neg k1, if_neg k2] at hkey
        exact h key hkey

theorem foldl_skeletonEffect_keys {α : Type} (frame : List (RawSkeleton α)) (t : Tracker α)
    (h : KeysOfAssignedRoles t) : KeysOfAssignedRoles (frame.foldl skeletonEffect t) := by
  induction frame generalizing t with
  | nil => exact h
  | cons sk rest ih => exact ih _ (skeletonEffect_keys t sk h)

theorem ergonomicsEffect_keys {α : Type} (n : Nat) (t : Tracker α) (e : ErgonomicsData α)
    (h : KeysOfAssignedRoles t) : KeysOfAssignedRoles (ergonomicsEffect n t e) := by
  intro key hkey
  obtain ⟨i1, i2, _⟩ := ergonomicsEffect_ids n t e
  rw [i1, i2]
  by_cases hex : ∃ r, t.resolve e.id = some r ∧ key = angleKey r
  · obtain ⟨r, hr, hk⟩ := hex
    have ha : t.roleId r ≠ none := by
      rw [resolve_roleId t _ r hr]
      simp
    exact role_key_assigned t r key (Or.inr (Or.inr hk)) ha
  · rw [ergonomicsEffect_other n t e key (fun _ r hr hk => hex ⟨r, hr, hk⟩)] at hkey
    exact h key hkey

theorem foldl_ergonomicsEffect_keys {α : Type} (n : Nat) (data : List (ErgonomicsData α))
    (t : Tracker α) (h : KeysOfAssignedRoles t) :
    KeysOfAssignedRoles (data.foldl (ergonomicsEffect n) t) := by
  induction data generalizing t with
  | nil => exact h
  | cons e rest ih => exact ih _ (ergonomicsEffect_keys n t e h)

theorem keys_of_frame {α : Type} (t t' : Tracker α) (ho : t'.output_map = t.output_map)
    (hl : t.left_glove_id ≠ none → t'.left_glove_id ≠ none)
    (hr : t.right_glove_id ≠ none → t'.right_glove_id ≠ none)
    (h : KeysOfAssignedRoles t) : KeysOfAssignedRoles t' := by
  intro key hkey
  rw [ho] at hkey
  rcases h key hkey with ⟨a, b⟩ | ⟨a, b⟩
  · exact Or.inl ⟨a, hl b⟩
  · exact Or.inr ⟨a, hr b⟩

/-- Both invariants are kept by every admissible operation. -/
theorem run_invariants {α : Type} [Inhabited α] (n : Nat) (w w' : World α) (op : Operation α)
    (ha : op.Admissible) (h : op.run n w = some w')
    (hinv : ∀ i, PairedEntries (w.trackers i) ∧ KeysOfAssignedRoles (w.trackers i)) :
    ∀ i, PairedEntries (w'.trackers i) ∧ KeysOfAssignedRoles (w'.trackers i) := by
  intro i
  obtain ⟨hp, hk⟩ := hinv i
  cases op with
  | callInitialize this sdk =>
    simp only [Operation.run, Option.some.injEq] at h
    subst h
    obtain ⟨a, b, c⟩ := initializeTracker_frame w this sdk i
    exact ⟨paired_of_output_eq _ _ a hp,
      keys_of_frame _ _ a (by rw [b]; exact id) (by rw [c]; exact id) hk⟩
  | callGetGloveData this =>
    simp only [Operation.run, Option.some.injEq] at h
    subst h
    exact ⟨hp, hk⟩
  | callCleanup this =>
    simp only [Operation.run, Option.some.injEq] at h
    subst h
    obtain ⟨a, b, c⟩ := cleanup_frame w this i
    exact ⟨paired_of_output_eq _ _ a hp,
      keys_of_frame _ _ a (by rw [b]; exact id) (by rw [c]; exact id) hk⟩
  | landscapeEvent landscape =>
    simp only [Operation.run, Option.some.injEq] at h
    subst h
    have a := OnLandscapeStream_output w landscape i
    obtain ⟨b, c⟩ := OnLandscapeStream_assigned w landscape i
    exact ⟨paired_of_output_eq _ _ a hp, keys_of_frame _ _ a b c hk⟩
  | skeletonFrame frame =>
    simp only [Operation.run] at h
    cases hs : w.s_instance with
    | none =>
      have : OnSkeletonStream w frame = some w := by
        unfold OnSkeletonStream
        rw [hs]
      rw [this] at h
      simp only [Option.some.injEq] at h
      subst h
      exact ⟨hp, hk⟩
    | some inst =>
      rw [OnSkeletonStream_active w inst hs frame ha] at h
      simp only [Option.some.injEq] at h
      subst h
      by_cases hi : i = inst
      · subst hi
        rw [setTracker_same]
        exact ⟨foldl_skeletonEffect_paired frame _ hp, foldl_skeletonEffect_keys frame _ hk⟩
      · rw [setTracker_other _ _ _ _ hi]
        exact ⟨hp, hk⟩
  | ergonomicsEvent stream =>
    simp only [Operation.run, Option.some.injEq] at h
    subst h
    cases hs : w.s_instance with
    | none =>
      have : OnErgonomicsStream n w stream = w := by
        unfold OnErgonomicsStream
        rw [hs]
      rw [this]
      exact ⟨hp, hk⟩
    | some inst =>
      rw [OnErgonomicsStream_active n w inst hs]
      by_cases hi : i = inst
      · subst hi
        rw [setTracker_same]
        exact ⟨foldl_ergonomicsEffect_paired n _ _ hp, foldl_ergonomicsEffect_keys n _ _ hk⟩
      · rw [setTracker_other _ _ _ _ hi]
        exact ⟨hp, hk⟩

theorem reachable_invariants {α : Type} [Inhabited α] (n : Nat) (w : World α)
    (h : Reachable n w) :
    ∀ i, PairedEntries (w.trackers i) ∧ KeysOfAssignedRoles (w.trackers i) := by
  induction h with
  | fresh =>
    intro i
    constructor
    · intro role
      exact Or.inl ⟨rfl, rfl⟩
    · intro key hkey
      exact absurd rfl hkey
  | step w w' op _ ha hrun ih => exact run_invariants n w w' op ha hrun ih

theorem connectedWorld_eq :
    (initializeTracker (World.fresh : World Nat) 0 (sdkSucceedingAt 1)).1 = connectedWorld := by
  rw [initializeTracker_connect _ _ _ rfl rfl rfl,
    ConnectToGloves_first (afterSetup (World.fresh : World Nat) 0) 0 (sdkSucceedingAt 1).attempt
      1 (le_refl _) (by decide) (by decide) (fun j h1 h2 => by omega)]
  simp only [connectedWorld, World.setTracker, World.log, afterSetup, RegisterCallbacks,
    World.fresh, World.mk.injEq, true_and]
  rfl

theorem trackedWorld_reachable : Reachable 3 trackedWorld := by
  have h1 : Reachable 3 connectedWorld :=
    Reachable.step World.fresh connectedWorld (Operation.callInitialize 0 (sdkSucceedingAt 1))
      Reachable.fresh trivial (by simp only [Operation.run, connectedWorld_eq])
  have h2 : Reachable 3 (OnLandscapeStream connectedWorld ⟨[⟨7, Side.Side_Left⟩]⟩) :=
    Reachable.step _ _ (Operation.landscapeEvent ⟨[⟨7, Side.Side_Left⟩]⟩) h1 trivial rfl
  have ha : ∀ sk ∈ [(⟨7, [mkNode 1 2 3 1 0 0 0]⟩ : RawSkeleton Nat)],
      4 * sk.nodesCount < 2 ^ 32 := by decide
  exact Reachable.step _ _ (Operation.skeletonFrame [⟨7, [mkNode 1 2 3 1 0 0 0]⟩]) h2 ha
    (OnSkeletonStream_active (OnLandscapeStream connectedWorld ⟨[⟨7, Side.Side_Left⟩]⟩) 0 rfl
      [⟨7, [mkNode 1 2 3 1 0 0 0]⟩] ha)

/-- C12: in every state reachable from a fresh process by `initialize`, `get_glove_data`,
`cleanup`, landscape events, skeleton frames with node counts `n` satisfying `4 * n < 2^32`
and ergonomics events, for every tracker and each role the entries `<role>_position` and
`<role>_orientation` are both absent, or both present with one node count `n` such that the
position length is `3 * n` and the orientation length is `4 * n`. -/
theorem reachable_paired_entries {α : Type} [Inhabited α] (ErgonomicsDataType_MAX_SIZE : Nat)
    (w : World α) (h : Reachable ErgonomicsDataType_MAX_SIZE w) (i : Nat) (role : Role) :
    ((w.trackers i).output_map (positionKey role) = none ∧
      (w.trackers i).output_map (orientationKey role) = none) ∨
    ∃ (n : Nat) (vp vo : List α),
      (w.trackers i).output_map (positionKey role) = some vp ∧
      (w.trackers i).output_map (orientationKey role) = some vo ∧
      vp.length = 3 * n ∧ vo.length = 4 * n :=
  (reachable_invariants ErgonomicsDataType_MAX_SIZE w h i).1 role

/-- C12 at a concrete reachable state: after `initialize`, a landscape event and a skeleton
frame for the Left glove. -/
theorem reachable_paired_entries_witness :
    Reachable 3 trackedWorld ∧
    (((trackedWorld.trackers 0).output_map (positionKey Role.Left) = none ∧
        (trackedWorld.trackers 0).output_map (orientationKey Role.Left) = none) ∨
      ∃ (n : Nat) (vp vo : List Nat),
        (trackedWorld.trackers 0).output_map (positionKey Role.Left) = some vp ∧
        (trackedWorld.trackers 0).output_map (orientationKey Role.Left) = some vo ∧
        vp.length = 3 * n ∧ vo.length = 4 * n) :=
  ⟨trackedWorld_reachable, reachable_paired_entries 3 trackedWorld trackedWorld_reachable 0
    Role.Left⟩

/-- C13: in every state reachable from a fresh process by `initialize`, `get_glove_data`,
`cleanup`, landscape events, skeleton frames and ergonomics events, every key present in
the output store of a tracker is one of `left_position`, `left_orientation`, `left_angle`
with a Left id assigned in the role map, or one of `right_position`, `right_orientation`,
`right_angle` with a Right id assigned. -/
theorem reachable_keys {α : Type} [Inhabited α] (ErgonomicsDataType_MAX_SIZE : Nat)
    (w : World α) (h : Reachable ErgonomicsDataType_MAX_SIZE w) (i : Nat) (key : String)
    (hk : (w.trackers i).output_map key ≠ none) :
    (key ∈ ["left_position", "left_orientation", "left_angle"] ∧
      (w.trackers i).left_glove_id ≠ none) ∨
    (key ∈ ["right_position", "right_orientation", "right_angle"] ∧
      (w.trackers i).right_glove_id ≠ none) :=
  (reachable_invariants ErgonomicsDataType_MAX_SIZE w h i).2 key hk

/-- C13 at a concrete reachable state: `left_position` is present and the Left id is
assigned. -/
theorem reachable_keys_witness :
    Reachable 3 trackedWorld ∧
    (trackedWorld.trackers 0).output_map "left_position" ≠ none ∧
    (("left_position" ∈ ["left_position", "left_orientation", "left_angle"] ∧
        (trackedWorld.trackers 0).left_glove_id ≠ none) ∨
      ("left_position" ∈ ["right_position", "right_orientation", "right_angle"] ∧
        (trackedWorld.trackers 0).right_glove_id ≠ none)) :=
  ⟨trackedWorld_reachable, by decide,
    reachable_keys 3 trackedWorld trackedWorld_reachable 0 "left_position" (by decide)⟩

/-! ## Role lookup: Left priority -/

theorem resolve_shared {α : Type} (t : Tracker α) (g : Nat)
    (hl : t.left_glove_id = some g) (hr : t.right_glove_id = some g) :
    t.resolve g = some Role.Left ∧ ∀ g' role, t.resolve g' = some role → role = Role.Left := by
  unfold Tracker.resolve resolveRole
  refine ⟨by rw [if_pos hl], ?_⟩
  intro g' role h
  split_ifs at h with h1 h2
  · exact (Option.some.inj h).symm
  · exact absurd (hl.trans (hr.symm.trans h2)) h1

/-- C16: when the role map assigns one device id to both Left and Right, a skeleton with
that glove id is written under `left_position` and `left_orientation` and changes no other
entry; a non-user ergonomics entry with that id is written under `left_angle` and changes no
other entry; and no frame and no ergonomics event at all changes `right_position`,
`right_orientation` or `right_angle`. -/
theorem left_priority {α : Type} [Inhabited α] (ErgonomicsDataType_MAX_SIZE : Nat)
    (w : World α) (inst : Nat) (h : w.s_instance = some inst) (g : Nat)
    (hl : (w.trackers inst).left_glove_id = some g)
    (hr : (w.trackers inst).right_glove_id = some g) :
    (∀ sk : RawSkeleton α, sk.gloveId = g → 4 * sk.nodesCount < 2 ^ 32 →
      ∃ w', OnSkeletonStream w [sk] = some w' ∧
        HoldsPositions ((w'.trackers inst).output_map "left_position") sk.nodes ∧
        HoldsOrientations ((w'.trackers inst).output_map "left_orientation") sk.nodes ∧
        ∀ key, key ≠ "left_position" → key ≠ "left_orientation" →
          (w'.trackers inst).output_map key = (w.trackers inst).output_map key) ∧
    (∀ e : ErgonomicsData α, e.id = g → e.isUserID = false →
      HoldsAngles
        (((OnErgonomicsStream ErgonomicsDataType_MAX_SIZE w ⟨[e]⟩).trackers inst).output_map
          "left_angle") ErgonomicsDataType_MAX_SIZE e.data ∧
      ∀ key, key ≠ "left_angle" →
        ((OnErgonomicsStream ErgonomicsDataType_MAX_SIZE w ⟨[e]⟩).trackers inst).output_map key
          = (w.trackers inst).output_map key) ∧
    (∀ (frame : List (RawSkeleton α)) (w' : World α), OnSkeletonStream w frame = some w' →
      (w'.trackers inst).output_map "right_position"
          = (w.trackers inst).output_map "right_position" ∧
        (w'.trackers inst).output_map "right_orientation"
          = (w.trackers inst).output_map "right_orientation") ∧
    (∀ stream : ErgonomicsStream α,
      ((OnErgonomicsStream ErgonomicsDataType_MAX_SIZE w stream).trackers inst).output_map
          "right_angle" = (w.trackers inst).output_map "right_angle") := by
  obtain ⟨hres, hall⟩ := resolve_shared (w.trackers inst) g hl hr
  refine ⟨?_, ?_, ?_, ?_⟩
  · intro sk hg hn
    subst hg
    have hn' : ∀ s ∈ [sk], 4 * s.nodesCount < 2 ^ 32 := by
      intro s hs
      rw [List.mem_singleton.mp hs]
      exact hn
    refine ⟨_, OnSkeletonStream_active w inst h [sk] hn', ?_⟩
    rw [setTracker_same, List.foldl_cons, List.foldl_nil]
    have hp := skeletonEffect_position (w.trackers inst) sk Role.Left
    have ho := skeletonEffect_orientation (w.trackers inst) sk Role.Left
    rw [if_pos hres] at hp ho
    refine ⟨?_, ?_, ?_⟩
    · have := flatPositions_holds sk.nodes
      rw [← hp] at this
      exact this
    · have := flatOrientations_holds sk.nodes
      rw [← ho] at this
      exact this
    · intro key k1 k2
      unfold skeletonEffect
      rw [hres]
      simp only [OutputMap.put]
      exact (if_neg (show ¬ key = orientationKey Role.Left from k2)).trans
        (if_neg (show ¬ key = positionKey Role.Left from k1))
  · intro e hg hu
    subst hg
    rw [OnErgonomicsStream_active _ w inst h, setTracker_same]
    simp only [List.foldl_cons, List.foldl_nil]
    have he : ergonomicsEffect ErgonomicsDataType_MAX_SIZE (w.trackers inst) e
        = { w.trackers inst with
            output_map := (w.trackers inst).output_map.put (angleKey Role.Left)
              ((List.range ErgonomicsDataType_MAX_SIZE).map e.data) } := by
      unfold ergonomicsEffect
      rw [hres]
      simp [hu]
    rw [he]
    refine ⟨?_, ?_⟩
    · have := range_map_holds ErgonomicsDataType_MAX_SIZE e.data
      simpa [OutputMap.put, angleKey, Role.pfx] using this
    · intro key k1
      simp only [OutputMap.put]
      exact if_neg (show ¬ key = angleKey Role.Left from k1)
  · intro frame w' hw
    obtain ⟨_, _, _, d⟩ := OnSkeletonStream_frame w w' frame hw inst
    constructor
    · refine d _ (fun sk _ role hrole => ?_)
      rw [hall _ role hrole]
      exact ⟨by decide, by decide⟩
    · refine d _ (fun sk _ role hrole => ?_)
      rw [hall _ role hrole]
      exact ⟨by decide, by decide⟩
  · intro stream
    obtain ⟨_, _, _, d⟩ := OnErgonomicsStream_frame ErgonomicsDataType_MAX_SIZE w stream inst
    refine d _ (fun e _ _ role hrole => ?_)
    rw [hall _ role hrole]
    decide

/-- C16 at a concrete input: device id 7 is assigned to both roles; a skeleton of glove 7
is stored under `left_position` and `right_position` stays absent. -/
theorem left_priority_witness :
    sharedIdWorld.s_instance = some 0 ∧
    (sharedIdWorld.trackers 0).left_glove_id = some 7 ∧
    (sharedIdWorld.trackers 0).right_glove_id = some 7 ∧
    ∃ w', OnSkeletonStream sharedIdWorld [⟨7, [mkNode 1 2 3 1 0 0 0]⟩] = some w' ∧
      HoldsPositions ((w'.trackers 0).output_map "left_position") [mkNode 1 2 3 1 0 0 0] ∧
      (w'.trackers 0).output_map "right_position"
        = (sharedIdWorld.trackers 0).output_map "right_position" :=
  ⟨rfl, rfl, rfl,
    ((left_priority 3 sharedIdWorld 0 rfl 7 rfl rfl).1 ⟨7, [mkNode 1 2 3 1 0 0 0]⟩ rfl
      (by decide)).imp fun _ hw => ⟨hw.1, hw.2.1, hw.2.2.2 "right_position" (by decide)
        (by decide)⟩⟩

/-! ## Index safety of the skeleton copy loop -/

/-- C19: with 32-bit unsigned arithmetic, for a skeleton whose node count `n` satisfies
`4 * n < 2^32` and every `j < n`: every write index `j*3+k` (`k < 3`) is below the length
`n*3 mod 2^32` of the resized position vector, every write index `j*4+k` (`k < 4`) is below
the length `n*4 mod 2^32` of the resized orientation vector, and the read `nodes[j]` is
inside the node buffer; so processing the skeleton makes no out-of-range access. -/
theorem copy_loop_index_safety {α : Type} [Inhabited α] (sk : RawSkeleton α)
    (hn : 4 * sk.nodesCount < 2 ^ 32) :
    (∀ j, j < sk.nodesCount →
      (∀ k, k < 3 → ∀ v : List α,
        u32 (u32 (j * 3) + k) < u32 (sk.nodesCount * 3) ∧
        u32 (u32 (j * 3) + k) < (resize v (u32 (sk.nodesCount * 3))).length) ∧
      (∀ k, k < 4 → ∀ v : List α,
        u32 (u32 (j * 4) + k) < u32 (sk.nodesCount * 4) ∧
        u32 (u32 (j * 4) + k) < (resize v (u32 (sk.nodesCount * 4))).length) ∧
      ∃ node, sk.nodes[j]? = some node) ∧
    (∀ t : Tracker α, ∃ t', skeletonBody t sk = some t') := by
  refine ⟨?_, fun t => ⟨_, skeletonBody_eq t sk hn⟩⟩
  intro j hj
  refine ⟨?_, ?_, ?_⟩
  · intro k hk v
    rw [resize_length, u32_of_lt (j * 3) (by omega), u32_of_lt (j * 3 + k) (by omega),
      u32_of_lt (sk.nodesCount * 3) (by omega)]
    exact ⟨by omega, by omega⟩
  · intro k hk v
    rw [resize_length, u32_of_lt (j * 4) (by omega), u32_of_lt (j * 4 + k) (by omega),
      u32_of_lt (sk.nodesCount * 4) (by omega)]
    exact ⟨by omega, by omega⟩
  · exact ⟨sk.nodes[j], List.getElem?_eq_getElem hj⟩

/-- C19 at a concrete input: a skeleton with two nodes. -/
theorem copy_loop_index_safety_witness :
    4 * (⟨7, [mkNode 1 2 3 1 0 0 0, mkNode 4 5 6 0 1 0 0]⟩ : RawSkeleton Nat).nodesCount
      < 2 ^ 32 ∧
    ∀ t : Tracker Nat,
      ∃ t', skeletonBody t ⟨7, [mkNode 1 2 3 1 0 0 0, mkNode 4 5 6 0 1 0 0]⟩ = some t' :=
  ⟨by decide,
    (copy_loop_index_safety
      (⟨7, [mkNode 1 2 3 1 0 0 0, mkNode 4 5 6 0 1 0 0]⟩ : RawSkeleton Nat) (by decide)).2⟩

/-! ## Lock discipline of the stream handlers -/

theorem nestedInOrder_skeletons {α : Type} (frame : List (RawSkeleton α))
    (rest : List LockEvent) :
    nestedInOrder [Mutex.output_map_mutex, Mutex.s_instance_mutex]
        ((frame.flatMap fun _ =>
          [LockEvent.acquire Mutex.landscape_mutex, LockEvent.release Mutex.landscape_mutex]) ++
          rest)
      = nestedInOrder [Mutex.output_map_mutex, Mutex.s_instance_mutex] rest := by
  induction frame with
  | nil => rfl
  | cons sk more ih =>
    rw [List.flatMap_cons, List.append_assoc]
    simp only [List.cons_append, List.nil_append, nestedInOrder, List.all_cons, List.all_nil,
      Mutex.rank, decide_True, Bool.and_self, Bool.true_and]
    exact ih

theorem nestedInOrder_entries {α : Type} (data : List (ErgonomicsData α))
    (rest : List LockEvent) :
    nestedInOrder [Mutex.output_map_mutex, Mutex.s_instance_mutex]
        ((data.flatMap fun entry =>
          if entry.isUserID then []
          else [LockEvent.acquire Mutex.landscape_mutex,
            LockEvent.release Mutex.landscape_mutex]) ++ rest)
      = nestedInOrder [Mutex.output_map_mutex, Mutex.s_instance_mutex] rest := by
  induction data with
  | nil => rfl
  | cons e more ih =>
    rw [List.flatMap_cons, List.append_assoc]
    by_cases hu : e.isUserID = true
    · simp only [hu, if_true, List.nil_append]
      exact ih
    · simp only [hu, if_false, List.cons_append, List.nil_append, nestedInOrder, List.all_cons,
        List.all_nil, Mutex.rank, decide_True, Bool.and_self, Bool.true_and,
        Bool.false_eq_true]
      exact ih


theorem roleMapSections_succ (n : Nat) :
    roleMapSections (n + 1)
      = LockEvent.acquire Mutex.landscape_mutex :: LockEvent.release Mutex.landscape_mutex ::
          roleMapSections n := by
  simp [roleMapSections, List.replicate_succ]

theorem skeleton_sections {α : Type} (frame : List (RawSkeleton α)) :
    (frame.flatMap fun _ =>
        [LockEvent.acquire Mutex.landscape_mutex, LockEvent.release Mutex.landscape_mutex])
      = roleMapSections frame.length := by
  induction frame with
  | nil => rfl
  | cons sk more ih =>
    rw [List.flatMap_cons, ih, List.length_cons, roleMapSections_succ]
    rfl

theorem entry_sections {α : Type} (data : List (ErgonomicsData α)) :
    (data.flatMap fun entry =>
        if entry.isUserID then []
        else [LockEvent.acquire Mutex.landscape_mutex,
          LockEvent.release Mutex.landscape_mutex])
      = roleMapSections (data.countP fun entry => !entry.isUserID) := by
  induction data with
  | nil => rfl
  | cons e more ih =>
    rw [List.flatMap_cons, ih, List.countP_cons]
    by_cases hu : e.isUserID = true
    · simp [hu]
    · have hu' : e.isUserID = false := by simpa using hu
      simp only [hu', Bool.false_eq_true, if_false, Bool.not_false, if_true]
      rw [roleMapSections_succ]
      rfl

theorem acquisitions_append (m : Mutex) (a b : List LockEvent) :
    acquisitions m (a ++ b) = acquisitions m a + acquisitions m b := by
  simp [acquisitions, List.count_append]

theorem acquisitions_sections (n : Nat) :
    acquisitions Mutex.landscape_mutex (roleMapSections n) = n ∧
      acquisitions Mutex.output_map_mutex (roleMapSections n) = 0 ∧
      acquisitions Mutex.s_instance_mutex (roleMapSections n) = 0 := by
  induction n with
  | zero => exact ⟨rfl, rfl, rfl⟩
  | succ n ih =>
    obtain ⟨a, b, c⟩ := ih
    rw [roleMapSections_succ]
    unfold acquisitions at a b c ⊢
    refine ⟨?_, ?_, ?_⟩
    · rw [List.count_cons, List.count_cons, a]
      simp
    · rw [List.count_cons, List.count_cons, b]
      simp
    · rw [List.count_cons, List.count_cons, c]
      simp

theorem acquisitions_active (n : Nat) :
    acquisitions Mutex.s_instance_mutex
        ([LockEvent.acquire Mutex.s_instance_mutex, LockEvent.acquire Mutex.output_map_mutex] ++
          roleMapSections n ++
          [LockEvent.release Mutex.output_map_mutex, LockEvent.release Mutex.s_instance_mutex])
        = 1 ∧
      acquisitions Mutex.output_map_mutex
        ([LockEvent.acquire Mutex.s_instance_mutex, LockEvent.acquire Mutex.output_map_mutex] ++
          roleMapSections n ++
          [LockEvent.release Mutex.output_map_mutex, LockEvent.release Mutex.s_instance_mutex])
        = 1 ∧
      acquisitions Mutex.landscape_mutex
        ([LockEvent.acquire Mutex.s_instance_mutex, LockEvent.acquire Mutex.output_map_mutex] ++
          roleMapSections n ++
          [LockEvent.release Mutex.output_map_mutex, LockEvent.release Mutex.s_instance_mutex])
        = n := by
  obtain ⟨a, b, c⟩ := acquisitions_sections n
  rw [acquisitions_append, acquisitions_append, acquisitions_append, acquisitions_append,
    acquisitions_append, acquisitions_append, a, b, c]
  refine ⟨by decide, by decide, ?_⟩
  have h1 : acquisitions Mutex.landscape_mutex
      [LockEvent.acquire Mutex.s_instance_mutex, LockEvent.acquire Mutex.output_map_mutex]
      = 0 := by decide
  have h2 : acquisitions Mutex.landscape_mutex
      [LockEvent.release Mutex.output_map_mutex, LockEvent.release Mutex.s_instance_mutex]
      = 0 := by decide
  rw [h1, h2]
  omega

theorem OnSkeletonStream_locks_active {α : Type} (w : World α)
    (frame : List (RawSkeleton α)) (hs : w.s_instance ≠ none) :
    OnSkeletonStream_locks w frame
      = [LockEvent.acquire Mutex.s_instance_mutex, LockEvent.acquire Mutex.output_map_mutex] ++
          roleMapSections frame.length ++
          [LockEvent.release Mutex.output_map_mutex,
            LockEvent.release Mutex.s_instance_mutex] := by
  unfold OnSkeletonStream_locks
  cases hi : w.s_instance with
  | none => exact absurd hi hs
  | some inst =>
    simp only [skeleton_sections]
    rfl

theorem OnErgonomicsStream_locks_active {α : Type} (w : World α)
    (stream : ErgonomicsStream α) (hs : w.s_instance ≠ none) :
    OnErgonomicsStream_locks w stream
      = [LockEvent.acquire Mutex.s_instance_mutex, LockEvent.acquire Mutex.output_map_mutex] ++
          roleMapSections (stream.data.countP fun entry => !entry.isUserID) ++
          [LockEvent.release Mutex.output_map_mutex,
            LockEvent.release Mutex.s_instance_mutex] := by
  unfold OnErgonomicsStream_locks
  cases hi : w.s_instance with
  | none => exact absurd hi hs
  | some inst =>
    simp only [entry_sections]
    rfl

/-- C14 as stated fails: in an invocation of `OnSkeletonStream` on an active tracker with a
frame of one skeleton, and of `OnErgonomicsStream` with one non-user entry, the OutputStore
lock is acquired second and the RoleMap lock third, while the OutputStore lock is held, so
that after the third lock event all three locks are held at once. -/
theorem locks_held_together_counterexample :
    OnSkeletonStream_locks activeWorld [⟨1, [mkNode 1 2 3 1 0 0 0]⟩]
      = [LockEvent.acquire Mutex.s_instance_mutex, LockEvent.acquire Mutex.output_map_mutex,
          LockEvent.acquire Mutex.landscape_mutex, LockEvent.release Mutex.landscape_mutex,
          LockEvent.release Mutex.output_map_mutex,
          LockEvent.release Mutex.s_instance_mutex] ∧
    heldAfter ((OnSkeletonStream_locks activeWorld [⟨1, [mkNode 1 2 3 1 0 0 0]⟩]).take 3)
      = [Mutex.landscape_mutex, Mutex.output_map_mutex, Mutex.s_instance_mutex] ∧
    OnErgonomicsStream_locks activeWorld ⟨[mkEntry 1 false]⟩
      = [LockEvent.acquire Mutex.s_instance_mutex, LockEvent.acquire Mutex.output_map_mutex,
          LockEvent.acquire Mutex.landscape_mutex, LockEvent.release Mutex.landscape_mutex,
          LockEvent.release Mutex.output_map_mutex,
          LockEvent.release Mutex.s_instance_mutex] ∧
    heldAfter ((OnErgonomicsStream_locks activeWorld ⟨[mkEntry 1 false]⟩).take 3)
      = [Mutex.landscape_mutex, Mutex.output_map_mutex, Mutex.s_instance_mutex] := by
  refine ⟨by decide, by decide, by decide, by decide⟩

/-- C14, amended: over the trace of lock events of one invocation of the skeleton or of the
ergonomics handler, the locks are taken in the order singleton slot, then OutputStore, then
RoleMap. With no active instance only the singleton-slot lock is acquired and released.
Otherwise the singleton-slot lock and the OutputStore lock are each acquired exactly once,
before the loop; the RoleMap lock is acquired inside the OutputStore critical section,
exactly once per skeleton of the frame, respectively once per entry of the event that is not
flagged `isUserID`, each acquisition directly followed by its release; then the OutputStore
lock and the singleton-slot lock are released. So a lock is acquired only while every lock
held comes earlier in this order, only the most recently acquired lock is released, no lock
is held at the end, and when the instance is active and the frame has a skeleton,
respectively the event has an entry not flagged `isUserID`, the third lock event leaves all
three locks held. -/
theorem handlers_lock_order {α : Type} (w : World α) (frame : List (RawSkeleton α))
    (stream : ErgonomicsStream α) :
    nestedInOrder [] (OnSkeletonStream_locks w frame) = true ∧
    nestedInOrder [] (OnErgonomicsStream_locks w stream) = true ∧
    (w.s_instance ≠ none → frame ≠ [] →
      heldAfter ((OnSkeletonStream_locks w frame).take 3)
        = [Mutex.landscape_mutex, Mutex.output_map_mutex, Mutex.s_instance_mutex]) ∧
    (w.s_instance ≠ none → ∀ e rest, stream.data = e :: rest → e.isUserID = false →
      heldAfter ((OnErgonomicsStream_locks w stream).take 3)
        = [Mutex.landscape_mutex, Mutex.output_map_mutex, Mutex.s_instance_mutex]) ∧
    (w.s_instance = none →
      OnSkeletonStream_locks w frame
        = [LockEvent.acquire Mutex.s_instance_mutex,
            LockEvent.release Mutex.s_instance_mutex] ∧
      OnErgonomicsStream_locks w stream
        = [LockEvent.acquire Mutex.s_instance_mutex,
            LockEvent.release Mutex.s_instance_mutex]) ∧
    (w.s_instance ≠ none →
      OnSkeletonStream_locks w frame
        = [LockEvent.acquire Mutex.s_instance_mutex,
            LockEvent.acquire Mutex.output_map_mutex] ++
          (List.replicate frame.length
            [LockEvent.acquire Mutex.landscape_mutex,
              LockEvent.release Mutex.landscape_mutex]).flatten ++
          [LockEvent.release Mutex.output_map_mutex,
            LockEvent.release Mutex.s_instance_mutex] ∧
      acquisitions Mutex.s_instance_mutex (OnSkeletonStream_locks w frame) = 1 ∧
      acquisitions Mutex.output_map_mutex (OnSkeletonStream_locks w frame) = 1 ∧
      acquisitions Mutex.landscape_mutex (OnSkeletonStream_locks w frame) = frame.length) ∧
    (w.s_instance ≠ none →
      OnErgonomicsStream_locks w stream
        = [LockEvent.acquire Mutex.s_instance_mutex,
            LockEvent.acquire Mutex.output_map_mutex] ++
          (List.replicate (stream.data.countP fun entry => !entry.isUserID)
            [LockEvent.acquire Mutex.landscape_mutex,
              LockEvent.release Mutex.landscape_mutex]).flatten ++
          [LockEvent.release Mutex.output_map_mutex,
            LockEvent.release Mutex.s_instance_mutex] ∧
      acquisitions Mutex.s_instance_mutex (OnErgonomicsStream_locks w stream) = 1 ∧
      acquisitions Mutex.output_map_mutex (OnErgonomicsStream_locks w stream) = 1 ∧
      acquisitions Mutex.landscape_mutex (OnErgonomicsStream_locks w stream)
        = stream.data.countP fun entry => !entry.isUserID) ∧
    (w.s_instance ≠ none → (∃ e ∈ stream.data, e.isUserID = false) →
      heldAfter ((OnErgonomicsStream_locks w stream).take 3)
        = [Mutex.landscape_mutex, Mutex.output_map_mutex, Mutex.s_instance_mutex]) := by
  refine ⟨?_, ?_, ?_, ?_, ?_, ?_, ?_, ?_⟩
  · unfold OnSkeletonStream_locks
    cases w.s_instance with
    | none => rfl
    | some inst =>
      show nestedInOrder [] (LockEvent.acquire Mutex.s_instance_mutex ::
        LockEvent.acquire Mutex.output_map_mutex ::
        ((frame.flatMap fun _ =>
          [LockEvent.acquire Mutex.landscape_mutex, LockEvent.release Mutex.landscape_mutex]) ++
          [LockEvent.release Mutex.output_map_mutex,
            LockEvent.release Mutex.s_instance_mutex])) = true
      rw [nestedInOrder, nestedInOrder, nestedInOrder_skeletons]
      rfl
  · unfold OnErgonomicsStream_locks
    cases w.s_instance with
    | none => rfl
    | some inst =>
      show nestedInOrder [] (LockEvent.acquire Mutex.s_instance_mutex ::
        LockEvent.acquire Mutex.output_map_mutex ::
        ((stream.data.flatMap fun entry =>
          if entry.isUserID then []
          else [LockEvent.acquire Mutex.landscape_mutex,
            LockEvent.release Mutex.landscape_mutex]) ++
          [LockEvent.release Mutex.output_map_mutex,
            LockEvent.release Mutex.s_instance_mutex])) = true
      rw [nestedInOrder, nestedInOrder, nestedInOrder_entries]
      rfl
  · intro hs hf
    unfold OnSkeletonStream_locks
    cases hi : w.s_instance with
    | none => exact absurd hi hs
    | some inst =>
      cases frame with
      | nil => exact absurd rfl hf
      | cons sk more => rfl
  · intro hs e rest hd hu
    unfold OnErgonomicsStream_locks
    cases hi : w.s_instance with
    | none => exact absurd hi hs
    | some inst =>
      rw [hd]
      simp only [List.flatMap_cons, hu, Bool.false_eq_true, if_false]
      rfl
  · intro hs
    unfold OnSkeletonStream_locks OnErgonomicsStream_locks
    rw [hs]
    exact ⟨rfl, rfl⟩
  · intro hs
    obtain ⟨a, b, c⟩ := acquisitions_active frame.length
    rw [OnSkeletonStream_locks_active w frame hs]
    exact ⟨rfl, a, b, c⟩
  · intro hs
    obtain ⟨a, b, c⟩ := acquisitions_active (stream.data.countP fun entry => !entry.isUserID)
    rw [OnErgonomicsStream_locks_active w stream hs]
    exact ⟨rfl, a, b, c⟩
  · intro hs hex
    obtain ⟨e, he, hu⟩ := hex
    have hpos : 0 < stream.data.countP fun entry => !entry.isUserID :=
      List.countP_pos_iff.mpr ⟨e, he, by simp [hu]⟩
    obtain ⟨k, hk⟩ : ∃ k, (stream.data.countP fun entry => !entry.isUserID) = k + 1 :=
      ⟨_, (Nat.succ_pred_eq_of_pos hpos).symm⟩
    rw [OnErgonomicsStream_locks_active w stream hs, hk, roleMapSections_succ]
    rfl

/-- C14 at a concrete input: tracker 0 is active; a frame with two skeletons, one of them of
an unknown glove, takes the RoleMap lock twice; an event with a user entry followed by a
non-user entry takes it once. -/
theorem handlers_lock_order_witness :
    activeWorld.s_instance ≠ none ∧
    [(⟨1, [mkNode 1 2 3 1 0 0 0]⟩ : RawSkeleton Nat), ⟨9, []⟩] ≠ [] ∧
    nestedInOrder []
      (OnSkeletonStream_locks activeWorld [⟨1, [mkNode 1 2 3 1 0 0 0]⟩, ⟨9, []⟩]) = true ∧
    heldAfter
      ((OnSkeletonStream_locks activeWorld [⟨1, [mkNode 1 2 3 1 0 0 0]⟩, ⟨9, []⟩]).take 3)
      = [Mutex.landscape_mutex, Mutex.output_map_mutex, Mutex.s_instance_mutex] ∧
    acquisitions Mutex.landscape_mutex
      (OnSkeletonStream_locks activeWorld [⟨1, [mkNode 1 2 3 1 0 0 0]⟩, ⟨9, []⟩]) = 2 ∧
    acquisitions Mutex.output_map_mutex
      (OnSkeletonStream_locks activeWorld [⟨1, [mkNode 1 2 3 1 0 0 0]⟩, ⟨9, []⟩]) = 1 ∧
    acquisitions Mutex.landscape_mutex
      (OnErgonomicsStream_locks activeWorld ⟨[mkEntry 1 true, mkEntry 2 false]⟩) = 1 :=
  ⟨by decide, by decide,
    (handlers_lock_order activeWorld [⟨1, [mkNode 1 2 3 1 0 0 0]⟩, ⟨9, []⟩]
      ⟨[mkEntry 1 true, mkEntry 2 false]⟩).1,
    (handlers_lock_order activeWorld [⟨1, [mkNode 1 2 3 1 0 0 0]⟩, ⟨9, []⟩]
      ⟨[mkEntry 1 true, mkEntry 2 false]⟩).2.2.1 (by decide) (by decide),
    ((handlers_lock_order activeWorld [⟨1, [mkNode 1 2 3 1 0 0 0]⟩, ⟨9, []⟩]
      ⟨[mkEntry 1 true, mkEntry 2 false]⟩).2.2.2.2.2.1 (by decide)).2.2.2,
    ((handlers_lock_order activeWorld [⟨1, [mkNode 1 2 3 1 0 0 0]⟩, ⟨9, []⟩]
      ⟨[mkEntry 1 true, mkEntry 2 false]⟩).2.2.2.2.2.1 (by decide)).2.2.1,
    ((handlers_lock_order activeWorld [⟨1, [mkNode 1 2 3 1 0 0 0]⟩, ⟨9, []⟩]
      ⟨[mkEntry 1 true, mkEntry 2 false]⟩).2.2.2.2.2.2.1 (by decide)).2.2.2⟩

end ManusTracker
